import Mathlib

/-!
# Samsung Exynos PLL clock driver (`drivers/clk/exynos/clk-pll.c`)

A shallow embedding of the PLL part of the Exynos7420 clock driver.

* C unsigned integers are natural numbers; every operation that can leave the
  width of its C type is reduced modulo `2 ^ 32` (`u32`) or `2 ^ 64`
  (`u64`, `unsigned long` on the arm64 targets of this driver).
* The three registers a PLL owns (`lock_reg`, `con_reg`, `con_reg + 4`) are the
  fields of `Regs`.  `Regs` holds what software last wrote; the lock-status
  bit, which the hardware owns, is seen through `Hw` during a lock wait.
* Every register access is recorded in a trace of `Event`s, so that "no write",
  "exactly one write" and "no poll" are properties of the returned trace.
-/

namespace Exynos

/-! ## C helpers -/

/-- The errno `EINVAL` of `linux/errno.h`. -/
def EINVAL : Nat := 22

/-- The errno `ETIMEDOUT` of `linux/errno.h`. -/
def ETIMEDOUT : Nat := 110

/-- The constant `MHZ` of `clk.h`. -/
def MHZ : Nat := 1000 * 1000

/-- The macro `BIT(n)`, that is `1UL << n`; every use in the driver has `n < 64`. -/
def BIT (n : Nat) : Nat := 1 <<< n

/-- Reduction to a `u32`. -/
def u32 (x : Nat) : Nat := x % 2 ^ 32

/-- Reduction to a `u64`. -/
def u64 (x : Nat) : Nat := x % 2 ^ 64

/-- The C complement `~x` of a mask, as seen by a `u32` operand. -/
def not32 (x : Nat) : Nat := 0xFFFFFFFF ^^^ x

/-- Conversion of an `int` to `unsigned long` or `u64`, both of 64 bits: of the
result that a `set_rate` returns, and of an `int` operand of a `u64` division. -/
def ulong_of_int (i : Int) : Nat := (i % 2 ^ 64).toNat

/-- The macro `do_div(n, base)`: the quotient of a `u64` by a `u32`; a zero divisor is
undefined and gives no result. -/
def do_div (n base : Nat) : Option Nat :=
  if base = 0 then none else some (n / base)

/-! ## Registers, hardware and traces -/

/-- The registers of one PLL: `lock_reg`, `con_reg` and `con_reg + 4`. -/
inductive Reg where
  | lock
  | con
  | con1
  deriving DecidableEq

/-- Register contents, as last written by software. -/
structure Regs where
  lock : Nat
  con : Nat
  con1 : Nat
  deriving DecidableEq

/-- One register access. `poll` is a read of `con_reg` made by the lock wait. -/
inductive Event where
  | read (r : Reg) (v : Nat)
  | write (r : Reg) (v : Nat)
  | poll (v : Nat)
  deriving DecidableEq

/-- Whether an access is a write. -/
def Event.isWrite : Event → Bool
  | .write _ _ => true
  | _ => false

/-- Whether an access is a poll of the lock wait. -/
def Event.isPoll : Event → Bool
  | .poll _ => true
  | _ => false

/-- What the hardware does during a lock wait: `status i` is the value the
`i`-th poll reads from `con_reg`, and `budget` is the number of further reads
the time-out leaves room for after the first one. -/
structure Hw where
  status : Nat → Nat
  budget : Nat

/-- What an operation leaves: its return value, the registers, the accesses. -/
structure Outcome where
  ret : Nat
  regs : Regs
  trace : List Event
  deriving DecidableEq

/-- Modelled from the spec: the loop behind `readl_poll_timeout` of
`linux/iopoll.h`, which is not among the sources.  It reads `con_reg` until
the condition `val & mask` holds or until the time-out elapses; `n` further
reads remain, `i` is the index of the next read. -/
def poll_loop (hw : Hw) (mask : Nat) : Nat → Nat → Int × List Event
  | 0, i =>
    let val := u32 (hw.status i)
    (if val &&& mask ≠ 0 then 0 else -(ETIMEDOUT : Int), [Event.poll val])
  | n + 1, i =>
    let val := u32 (hw.status i)
    if val &&& mask ≠ 0 then (0, [Event.poll val])
    else ((poll_loop hw mask n (i + 1)).1, Event.poll val :: (poll_loop hw mask n (i + 1)).2)

/-- Modelled from the spec: `readl_poll_timeout(con_reg, tmp, tmp & mask,
LOCK_TIMEOUT_US)` of `linux/iopoll.h`: `0` when the condition is seen to hold,
and `-ETIMEDOUT` when the time-out elapses first. -/
def readl_poll_timeout (hw : Hw) (mask : Nat) : Int × List Event :=
  poll_loop hw mask hw.budget 0

/-! ## `clk-pll.h` -/

/-- The `enum samsung_pll_type`. -/
inductive samsung_pll_type where
  | pll_1451x
  | pll_1452x
  | pll_1460x
  deriving DecidableEq

/-- The `struct samsung_pll_rate_table`; every field is an `unsigned int`. -/
structure samsung_pll_rate_table where
  rate : Nat
  pdiv : Nat
  mdiv : Nat
  sdiv : Nat
  kdiv : Nat
  afc : Nat
  mfr : Nat
  mrr : Nat
  vsel : Nat
  deriving DecidableEq

/-- The `int` that a shift or product of `int` constants leaves: the low 32 bits
of the exact result, read as a two's-complement number. -/
def int_of_bits (x : Nat) : Int :=
  if x % 2 ^ 32 < 2 ^ 31 then (x % 2 ^ 32 : Nat) else ((x % 2 ^ 32 : Nat) : Int) - 2 ^ 32

/-- The macro `PLL_RATE(_fin, _m, _p, _s, _k, _ks)`.  The numerator
`(u64)(_fin) * (BIT(_ks) * (_m) + (_k))` is computed in `u64`; the divisor
`(_p) << (_s)` is a shift of `int` constants, computed in the 32 bits of an
`int` and then converted to `u64` for the division.  A zero divisor gives no
value: the constant expression does not build. -/
def PLL_RATE (fin m p s k ks : Nat) : Option Nat :=
  let d := ulong_of_int (int_of_bits (p <<< s))
  if d = 0 then none else some (u64 (fin * (BIT ks * m + k)) / BIT ks / d)

/-- The macro `PLL_VALID_RATE`: the declared rate, when the build-time check
`PLL_RATE(...) != _fout` has a value and does not fire. -/
def PLL_VALID_RATE (fin fout m p s k ks : Nat) : Option Nat :=
  match PLL_RATE fin m p s k ks with
  | some rate => if rate ≠ fout then none else some fout
  | none => none

/-- The macro `PLL_36XX_RATE`: a table entry, when the build-time check passes. -/
def PLL_36XX_RATE (fin rate m p s k : Nat) : Option samsung_pll_rate_table :=
  (PLL_VALID_RATE fin rate m p s k 16).map fun r =>
    { rate := r, pdiv := p, mdiv := m, sdiv := s, kdiv := k,
      afc := 0, mfr := 0, mrr := 0, vsel := 0 }

/-- The all-zero entry `{}` that ends a rate table. -/
def sentinel : samsung_pll_rate_table :=
  { rate := 0, pdiv := 0, mdiv := 0, sdiv := 0, kdiv := 0,
    afc := 0, mfr := 0, mrr := 0, vsel := 0 }

/-- The table `pll1460x_24mhz_tbl` of `clk-exynos7420.c`, sentinel included. -/
def pll1460x_24mhz_tbl : List samsung_pll_rate_table :=
  (PLL_36XX_RATE (24 * MHZ) 491519897 20 1 0 31457).toList ++ [sentinel]

/-! ## `clk-pll.c` -/

/-- The `struct samsung_clk_pll`, without the register addresses. -/
structure samsung_clk_pll where
  enable_offs : Nat
  lock_offs : Nat
  type : samsung_pll_type
  rate_count : Nat
  rate_table : List samsung_pll_rate_table
  deriving DecidableEq

/-- The loop of `samsung_get_pll_settings`: `n` entries remain to be read. -/
def get_pll_settings_loop (rate : Nat) :
    Nat → List samsung_pll_rate_table → Option samsung_pll_rate_table
  | 0, _ => none
  | _ + 1, [] => none
  | n + 1, e :: es => if rate = e.rate then some e else get_pll_settings_loop rate n es

/-- The function `samsung_get_pll_settings`. -/
def samsung_get_pll_settings (pll : samsung_clk_pll) (rate : Nat) :
    Option samsung_pll_rate_table :=
  get_pll_settings_loop rate pll.rate_count pll.rate_table

def PLL35XX_LOCK_FACTOR : Nat := 270
def PLL35XX_MDIV_MASK : Nat := 0x3FF
def PLL35XX_PDIV_MASK : Nat := 0x3F
def PLL35XX_SDIV_MASK : Nat := 0x7
def PLL35XX_MDIV_SHIFT : Nat := 16
def PLL35XX_PDIV_SHIFT : Nat := 8
def PLL35XX_SDIV_SHIFT : Nat := 0
def PLL35XX_LOCK_STAT_SHIFT : Nat := 29
def PLL35XX_ENABLE_SHIFT : Nat := 31

/-- The function `samsung_pll35xx_recalc_rate`; `fin` is the parent rate. -/
def samsung_pll35xx_recalc_rate (fin : Nat) (r : Regs) : Option Nat :=
  let fvco := u64 fin
  let pll_con := r.con
  let mdiv := (pll_con >>> PLL35XX_MDIV_SHIFT) &&& PLL35XX_MDIV_MASK
  let pdiv := (pll_con >>> PLL35XX_PDIV_SHIFT) &&& PLL35XX_PDIV_MASK
  let sdiv := (pll_con >>> PLL35XX_SDIV_SHIFT) &&& PLL35XX_SDIV_MASK
  let fvco := u64 (fvco * mdiv)
  do_div fvco (u32 (pdiv <<< sdiv))

/-- The function `samsung_pll35xx_mp_change`. -/
def samsung_pll35xx_mp_change (rate : samsung_pll_rate_table) (pll_con : Nat) : Bool :=
  let old_mdiv := (pll_con >>> PLL35XX_MDIV_SHIFT) &&& PLL35XX_MDIV_MASK
  let old_pdiv := (pll_con >>> PLL35XX_PDIV_SHIFT) &&& PLL35XX_PDIV_MASK
  decide (rate.mdiv ≠ old_mdiv ∨ rate.pdiv ≠ old_pdiv)

/-- The function `samsung_pll35xx_set_rate`. -/
def samsung_pll35xx_set_rate (pll : samsung_clk_pll) (hw : Hw) (r : Regs) (drate : Nat) :
    Outcome :=
  match samsung_get_pll_settings pll drate with
  | none => { ret := ulong_of_int (-(EINVAL : Int)), regs := r, trace := [] }
  | some rate =>
    let tmp := r.con
    if !(samsung_pll35xx_mp_change rate tmp) then
      let tmp1 := tmp &&& not32 (PLL35XX_SDIV_MASK <<< PLL35XX_SDIV_SHIFT)
      let tmp2 := tmp1 ||| u32 (rate.sdiv <<< PLL35XX_SDIV_SHIFT)
      { ret := 0, regs := { r with con := tmp2 },
        trace := [Event.read Reg.con tmp, Event.write Reg.con tmp2] }
    else
      let lock := u32 (rate.pdiv * PLL35XX_LOCK_FACTOR)
      let tmp1 := tmp &&& not32 ((PLL35XX_MDIV_MASK <<< PLL35XX_MDIV_SHIFT) |||
          (PLL35XX_PDIV_MASK <<< PLL35XX_PDIV_SHIFT) |||
          (PLL35XX_SDIV_MASK <<< PLL35XX_SDIV_SHIFT))
      let tmp2 := tmp1 ||| (u32 (rate.mdiv <<< PLL35XX_MDIV_SHIFT) |||
          u32 (rate.pdiv <<< PLL35XX_PDIV_SHIFT) |||
          u32 (rate.sdiv <<< PLL35XX_SDIV_SHIFT))
      let regs := { r with lock := lock, con := tmp2 }
      let writes := [Event.read Reg.con tmp, Event.write Reg.lock lock,
        Event.write Reg.con tmp2]
      if tmp2 &&& BIT pll.enable_offs ≠ 0 then
        let p := readl_poll_timeout hw (BIT pll.lock_offs)
        { ret := ulong_of_int p.1, regs := regs, trace := writes ++ p.2 }
      else
        { ret := 0, regs := regs, trace := writes }

/-- The function `samsung_pll3xxx_enable`; it returns an `int`. -/
def samsung_pll3xxx_enable (pll : samsung_clk_pll) (hw : Hw) (r : Regs) :
    Int × Regs × List Event :=
  let tmp := r.con
  let tmp1 := u32 (tmp ||| BIT pll.enable_offs)
  let p := readl_poll_timeout hw (BIT pll.lock_offs)
  (p.1, { r with con := tmp1 },
    [Event.read Reg.con tmp, Event.write Reg.con tmp1] ++ p.2)

/-- The function `samsung_pll3xxx_disable`; it returns an `int`. -/
def samsung_pll3xxx_disable (pll : samsung_clk_pll) (r : Regs) :
    Int × Regs × List Event :=
  let tmp := r.con
  let tmp1 := tmp &&& not32 (BIT pll.enable_offs)
  (0, { r with con := tmp1 }, [Event.read Reg.con tmp, Event.write Reg.con tmp1])

def PLL46XX_LOCK_FACTOR : Nat := 3000
def PLL46XX_MDIV_MASK : Nat := 0x1FF
def PLL1460X_MDIV_MASK : Nat := 0x3FF
def PLL46XX_PDIV_MASK : Nat := 0x3F
def PLL46XX_SDIV_MASK : Nat := 0x7
def PLL46XX_MDIV_SHIFT : Nat := 16
def PLL46XX_PDIV_SHIFT : Nat := 8
def PLL46XX_SDIV_SHIFT : Nat := 0
def PLL46XX_KDIV_MASK : Nat := 0xFFFF
def PLL46XX_KDIV_SHIFT : Nat := 0
def PLL46XX_MFR_MASK : Nat := 0x3F
def PLL46XX_MRR_MASK : Nat := 0x1F
def PLL46XX_MFR_SHIFT : Nat := 16
def PLL46XX_MRR_SHIFT : Nat := 24
def PLL46XX_ENABLE : Nat := BIT 31
def PLL46XX_LOCKED : Nat := BIT 29

/-- The function `clk_pll46xx_recalc_rate`; `fin` is the parent rate. -/
def clk_pll46xx_recalc_rate (fin : Nat) (r : Regs) : Option Nat :=
  let fvco := u64 fin
  let pll_con0 := r.con
  let pll_con1 := r.con1
  let mdiv := (pll_con0 >>> PLL46XX_MDIV_SHIFT) &&& PLL1460X_MDIV_MASK
  let pdiv := (pll_con0 >>> PLL46XX_PDIV_SHIFT) &&& PLL46XX_PDIV_MASK
  let sdiv := (pll_con0 >>> PLL46XX_SDIV_SHIFT) &&& PLL46XX_SDIV_MASK
  let kdiv := pll_con1 &&& PLL46XX_KDIV_MASK
  let shift := 16
  let fvco := u64 (fvco * u32 (u32 (mdiv <<< shift) + kdiv))
  (do_div fvco (u32 (pdiv <<< sdiv))).map fun q => q >>> shift

/-- The function `clk_pll46xx_mpk_change`. -/
def clk_pll46xx_mpk_change (pll_con0 pll_con1 : Nat) (rate : samsung_pll_rate_table) : Bool :=
  let old_mdiv := (pll_con0 >>> PLL46XX_MDIV_SHIFT) &&& PLL46XX_MDIV_MASK
  let old_pdiv := (pll_con0 >>> PLL46XX_PDIV_SHIFT) &&& PLL46XX_PDIV_MASK
  let old_kdiv := (pll_con1 >>> PLL46XX_KDIV_SHIFT) &&& PLL46XX_KDIV_MASK
  decide (old_mdiv ≠ rate.mdiv ∨ old_pdiv ≠ rate.pdiv ∨ old_kdiv ≠ rate.kdiv)

/-- The function `clk_pll46xx_set_rate`. -/
def clk_pll46xx_set_rate (pll : samsung_clk_pll) (hw : Hw) (r : Regs) (drate : Nat) :
    Outcome :=
  match samsung_get_pll_settings pll drate with
  | none => { ret := ulong_of_int (-(EINVAL : Int)), regs := r, trace := [] }
  | some rate =>
    let con0 := r.con
    let con1 := r.con1
    let reads := [Event.read Reg.con con0, Event.read Reg.con1 con1]
    if !(clk_pll46xx_mpk_change con0 con1 rate) then
      let con0a := con0 &&& not32 (PLL46XX_SDIV_MASK <<< PLL46XX_SDIV_SHIFT)
      let con0b := con0a ||| u32 (rate.sdiv <<< PLL46XX_SDIV_SHIFT)
      { ret := 0, regs := { r with con := con0b },
        trace := reads ++ [Event.write Reg.con con0b] }
    else
      let lock0 := u32 (rate.pdiv * PLL46XX_LOCK_FACTOR)
      let lock := if lock0 > 0xffff then 0xffff else lock0
      let con0a := con0 &&& not32 ((PLL1460X_MDIV_MASK <<< PLL46XX_MDIV_SHIFT) |||
          (PLL46XX_PDIV_MASK <<< PLL46XX_PDIV_SHIFT) |||
          (PLL46XX_SDIV_MASK <<< PLL46XX_SDIV_SHIFT))
      let con0b := con0a ||| (u32 (rate.mdiv <<< PLL46XX_MDIV_SHIFT) |||
          u32 (rate.pdiv <<< PLL46XX_PDIV_SHIFT) |||
          u32 (rate.sdiv <<< PLL46XX_SDIV_SHIFT))
      let con1r := r.con1
      let con1a := con1r &&& not32 ((PLL46XX_KDIV_MASK <<< PLL46XX_KDIV_SHIFT) |||
          (PLL46XX_MFR_MASK <<< PLL46XX_MFR_SHIFT) |||
          (PLL46XX_MRR_MASK <<< PLL46XX_MRR_SHIFT))
      let con1b := con1a ||| (u32 (rate.kdiv <<< PLL46XX_KDIV_SHIFT) |||
          u32 (rate.mfr <<< PLL46XX_MFR_SHIFT) |||
          u32 (rate.mrr <<< PLL46XX_MRR_SHIFT))
      let p := readl_poll_timeout hw PLL46XX_LOCKED
      { ret := ulong_of_int p.1,
        regs := { lock := lock, con := con0b, con1 := con1b },
        trace := reads ++ [Event.read Reg.con1 con1r, Event.write Reg.lock lock,
          Event.write Reg.con con0b, Event.write Reg.con1 con1b] ++ p.2 }

/-- A `struct clk_ops`: the operations a driver provides; an absent operation
is a null function pointer. -/
structure clk_ops where
  get_rate : Option (Nat → Regs → Option Nat)
  set_rate : Option (samsung_clk_pll → Hw → Regs → Nat → Outcome)
  enable : Option (samsung_clk_pll → Hw → Regs → Int × Regs × List Event)
  disable : Option (samsung_clk_pll → Regs → Int × Regs × List Event)

/-- The table `clk_pll3xxx_ops`. -/
def clk_pll3xxx_ops : clk_ops :=
  { get_rate := some samsung_pll35xx_recalc_rate
    enable := some samsung_pll3xxx_enable
    disable := some samsung_pll3xxx_disable
    set_rate := some samsung_pll35xx_set_rate }

/-- The table `clk_pll1460x_ops`. -/
def clk_pll1460x_ops : clk_ops :=
  { get_rate := some clk_pll46xx_recalc_rate
    set_rate := some clk_pll46xx_set_rate
    enable := none
    disable := none }

/-- The operations of the driver that `samsung_clk_register_pll` binds to a PLL
type (`U_BOOT_DRIVER(clk_pll_1451x)`, `clk_pll_1452x`, `clk_pll_1460x`). -/
def driver_ops : samsung_pll_type → clk_ops
  | .pll_1451x => clk_pll3xxx_ops
  | .pll_1452x => clk_pll3xxx_ops
  | .pll_1460x => clk_pll1460x_ops

/-- The `set_rate` operation of a PLL, through the operations of its driver. -/
def pll_set_rate (pll : samsung_clk_pll) (hw : Hw) (r : Regs) (drate : Nat) :
    Option Outcome :=
  (driver_ops pll.type).set_rate.map fun f => f pll hw r drate

/-- The loop of `samsung_clk_register_pll` that counts the rates of a table:
the index of the first entry whose rate is zero.  A table without such an
entry is read past its end, which gives no result. -/
def rate_table_len : List samsung_pll_rate_table → Option Nat
  | [] => none
  | e :: es => if e.rate ≠ 0 then (rate_table_len es).map fun n => n + 1 else some 0

/-- The function `samsung_clk_register_pll`: the `struct samsung_clk_pll` it
fills in, starting from the zeroed allocation.  `rate_table` is `none` for a
null pointer. -/
def samsung_clk_register_pll (type : samsung_pll_type)
    (rate_table : Option (List samsung_pll_rate_table)) : Option samsung_clk_pll :=
  let tbl : Option (Nat × List samsung_pll_rate_table) :=
    match rate_table with
    | none => some (0, [])
    | some t => (rate_table_len t).map fun len => (len, t.take len)
  tbl.map fun ct =>
    match type with
    | .pll_1451x =>
      { enable_offs := PLL35XX_ENABLE_SHIFT, lock_offs := PLL35XX_LOCK_STAT_SHIFT,
        type := type, rate_count := ct.1, rate_table := ct.2 }
    | .pll_1452x =>
      { enable_offs := PLL35XX_ENABLE_SHIFT, lock_offs := PLL35XX_LOCK_STAT_SHIFT,
        type := type, rate_count := ct.1, rate_table := ct.2 }
    | .pll_1460x =>
      { enable_offs := 0, lock_offs := 0,
        type := type, rate_count := ct.1, rate_table := ct.2 }

/-- Two values of `con_reg` that differ at most in the lock-status bit 29,
the one bit of the register that the hardware changes by itself. -/
def same_but_lock_stat (c c' : Nat) : Prop :=
  c % 2 ^ 29 = c' % 2 ^ 29 ∧ c / 2 ^ 30 = c' / 2 ^ 30

instance (c c' : Nat) : Decidable (same_but_lock_stat c c') := by
  unfold same_but_lock_stat; infer_instance

/-! ## The words `set_rate` writes -/

/-- The word `samsung_pll35xx_set_rate` writes when only `s` changes. -/
def pll35xx_s_word (tmp : Nat) (rate : samsung_pll_rate_table) : Nat :=
  (tmp &&& not32 (PLL35XX_SDIV_MASK <<< PLL35XX_SDIV_SHIFT)) |||
    u32 (rate.sdiv <<< PLL35XX_SDIV_SHIFT)

/-- The word `samsung_pll35xx_set_rate` writes when `m`, `p` and `s` change. -/
def pll35xx_pms_word (tmp : Nat) (rate : samsung_pll_rate_table) : Nat :=
  (tmp &&& not32 ((PLL35XX_MDIV_MASK <<< PLL35XX_MDIV_SHIFT) |||
      (PLL35XX_PDIV_MASK <<< PLL35XX_PDIV_SHIFT) |||
      (PLL35XX_SDIV_MASK <<< PLL35XX_SDIV_SHIFT))) |||
    (u32 (rate.mdiv <<< PLL35XX_MDIV_SHIFT) |||
      u32 (rate.pdiv <<< PLL35XX_PDIV_SHIFT) |||
      u32 (rate.sdiv <<< PLL35XX_SDIV_SHIFT))

/-- The word `clk_pll46xx_set_rate` writes to `con_reg` when only `s` changes. -/
def pll46xx_s_word (con0 : Nat) (rate : samsung_pll_rate_table) : Nat :=
  (con0 &&& not32 (PLL46XX_SDIV_MASK <<< PLL46XX_SDIV_SHIFT)) |||
    u32 (rate.sdiv <<< PLL46XX_SDIV_SHIFT)

/-- The lock time `clk_pll46xx_set_rate` writes to `lock_reg`. -/
def pll46xx_lock_word (rate : samsung_pll_rate_table) : Nat :=
  if u32 (rate.pdiv * PLL46XX_LOCK_FACTOR) > 0xffff then 0xffff
  else u32 (rate.pdiv * PLL46XX_LOCK_FACTOR)

/-- The word `clk_pll46xx_set_rate` writes to `con_reg` on a full rewrite. -/
def pll46xx_con0_word (con0 : Nat) (rate : samsung_pll_rate_table) : Nat :=
  (con0 &&& not32 ((PLL1460X_MDIV_MASK <<< PLL46XX_MDIV_SHIFT) |||
      (PLL46XX_PDIV_MASK <<< PLL46XX_PDIV_SHIFT) |||
      (PLL46XX_SDIV_MASK <<< PLL46XX_SDIV_SHIFT))) |||
    (u32 (rate.mdiv <<< PLL46XX_MDIV_SHIFT) |||
      u32 (rate.pdiv <<< PLL46XX_PDIV_SHIFT) |||
      u32 (rate.sdiv <<< PLL46XX_SDIV_SHIFT))

/-- The word `clk_pll46xx_set_rate` writes to `con_reg + 4` on a full rewrite. -/
def pll46xx_con1_word (con1 : Nat) (rate : samsung_pll_rate_table) : Nat :=
  (con1 &&& not32 ((PLL46XX_KDIV_MASK <<< PLL46XX_KDIV_SHIFT) |||
      (PLL46XX_MFR_MASK <<< PLL46XX_MFR_SHIFT) |||
      (PLL46XX_MRR_MASK <<< PLL46XX_MRR_SHIFT))) |||
    (u32 (rate.kdiv <<< PLL46XX_KDIV_SHIFT) |||
      u32 (rate.mfr <<< PLL46XX_MFR_SHIFT) |||
      u32 (rate.mrr <<< PLL46XX_MRR_SHIFT))

/-! ## `get_rate` with its register accesses -/

/-- The registers after the accesses of a trace: each write replaces the
content of its register, reads and polls change nothing. -/
def write_back : Regs → List Event → Regs
  | r, [] => r
  | r, Event.write Reg.lock v :: t => write_back { r with lock := v } t
  | r, Event.write Reg.con v :: t => write_back { r with con := v } t
  | r, Event.write Reg.con1 v :: t => write_back { r with con1 := v } t
  | r, Event.read _ _ :: t => write_back r t
  | r, Event.poll _ :: t => write_back r t

/-- What a `get_rate` leaves: its result, the registers, the accesses. -/
structure RateOutcome where
  ret : Option Nat
  regs : Regs
  trace : List Event
  deriving DecidableEq

/-- The function `samsung_pll35xx_recalc_rate` with its register accesses: the
one `readl_relaxed` of `con_reg`. -/
def samsung_pll35xx_get_rate (fin : Nat) (r : Regs) : RateOutcome :=
  let trace := [Event.read Reg.con r.con]
  { ret := samsung_pll35xx_recalc_rate fin r, regs := write_back r trace, trace := trace }

/-- The function `clk_pll46xx_recalc_rate` with its register accesses: the
`readl_relaxed` of `con_reg` and that of `con_reg + 4`. -/
def clk_pll46xx_get_rate (fin : Nat) (r : Regs) : RateOutcome :=
  let trace := [Event.read Reg.con r.con, Event.read Reg.con1 r.con1]
  { ret := clk_pll46xx_recalc_rate fin r, regs := write_back r trace, trace := trace }

/-! ## `clk.c` -/

/-- One call that a function of `clk.c` makes into the clock framework. -/
inductive Call (C : Type) where
  | get_by_id (id : Nat)
  | get_rate (c : C)
  | set_rate (c : C) (rate : Nat)
  | enable (c : C)
  | disable (c : C)
  | set_parent (c cp : C)

/-- Whether a call is an operation on a clock node, not a lookup. -/
def Call.isNodeOp {C : Type} : Call C → Bool
  | .get_by_id _ => false
  | _ => true

/-- The functions of the clock framework that `clk.c` calls.  They are not
among the sources and are parameters here.  `C` stands for `struct clk *`, `S`
for the state the node operations work on.  `clk_get_by_id` gives its `int`
result and the clock it stores through its pointer argument. -/
structure clk_uclass (C S : Type) where
  clk_get_by_id : Nat → Int × C
  clk_get_rate : C → S → Nat × S
  clk_set_rate : C → Nat → S → Nat × S
  clk_enable : C → S → Int × S
  clk_disable : C → S → Int × S
  clk_set_parent : C → C → S → Int × S

/-- What a function of `clk.c` leaves: its return value, the state, its calls. -/
structure Ret (α C S : Type) where
  ret : α
  state : S
  calls : List (Call C)

/-- The function `samsung_clk_get_rate`; `id` is `clk->id`. -/
def samsung_clk_get_rate {C S : Type} (u : clk_uclass C S) (id : Nat) (s : S) :
    Ret Nat C S :=
  let r := u.clk_get_by_id id
  if r.1 ≠ 0 then { ret := ulong_of_int r.1, state := s, calls := [Call.get_by_id id] }
  else
    { ret := (u.clk_get_rate r.2 s).1, state := (u.clk_get_rate r.2 s).2,
      calls := [Call.get_by_id id, Call.get_rate r.2] }

/-- The function `samsung_clk_set_rate`; `id` is `clk->id`. -/
def samsung_clk_set_rate {C S : Type} (u : clk_uclass C S) (id : Nat) (rate : Nat) (s : S) :
    Ret Nat C S :=
  let r := u.clk_get_by_id id
  if r.1 ≠ 0 then { ret := ulong_of_int r.1, state := s, calls := [Call.get_by_id id] }
  else
    { ret := (u.clk_set_rate r.2 rate s).1, state := (u.clk_set_rate r.2 rate s).2,
      calls := [Call.get_by_id id, Call.set_rate r.2 rate] }

/-- The function `__samsung_clk_enable`; `id` is `clk->id`. -/
def __samsung_clk_enable {C S : Type} (u : clk_uclass C S) (id : Nat) (enable : Bool)
    (s : S) : Ret Int C S :=
  let r := u.clk_get_by_id id
  if r.1 ≠ 0 then { ret := r.1, state := s, calls := [Call.get_by_id id] }
  else if enable then
    { ret := (u.clk_enable r.2 s).1, state := (u.clk_enable r.2 s).2,
      calls := [Call.get_by_id id, Call.enable r.2] }
  else
    { ret := (u.clk_disable r.2 s).1, state := (u.clk_disable r.2 s).2,
      calls := [Call.get_by_id id, Call.disable r.2] }

/-- The function `samsung_clk_disable`. -/
def samsung_clk_disable {C S : Type} (u : clk_uclass C S) (id : Nat) (s : S) :
    Ret Int C S :=
  __samsung_clk_enable u id false s

/-- The function `samsung_clk_enable`. -/
def samsung_clk_enable {C S : Type} (u : clk_uclass C S) (id : Nat) (s : S) :
    Ret Int C S :=
  __samsung_clk_enable u id true s

/-- The function `samsung_clk_set_parent`; `id` is `clk->id` and `pid` is
`parent->id`. -/
def samsung_clk_set_parent {C S : Type} (u : clk_uclass C S) (id pid : Nat) (s : S) :
    Ret Int C S :=
  let r := u.clk_get_by_id id
  if r.1 ≠ 0 then { ret := r.1, state := s, calls := [Call.get_by_id id] }
  else
    let rp := u.clk_get_by_id pid
    if rp.1 ≠ 0 then
      { ret := rp.1, state := s, calls := [Call.get_by_id id, Call.get_by_id pid] }
    else
      { ret := (u.clk_set_parent r.2 rp.2 s).1, state := (u.clk_set_parent r.2 rp.2 s).2,
        calls := [Call.get_by_id id, Call.get_by_id pid, Call.set_parent r.2 rp.2] }

/-! ## Sample inputs -/

/-- The entry of `pll1460x_24mhz_tbl`. -/
def aud_entry : samsung_pll_rate_table :=
  { rate := 491519897, pdiv := 1, mdiv := 20, sdiv := 0, kdiv := 31457,
    afc := 0, mfr := 0, mrr := 0, vsel := 0 }

/-- The PLL `fout_aud_pll` as `topc_cmu_probe` registers it. -/
def fout_aud_pll : samsung_clk_pll :=
  { enable_offs := 0, lock_offs := 0, type := .pll_1460x,
    rate_count := 1, rate_table := [aud_entry] }

/-- An integer PLL with a table of two rates for a 24 MHz reference. -/
def sample_pll35xx : samsung_clk_pll :=
  { enable_offs := 31, lock_offs := 29, type := .pll_1452x, rate_count := 2,
    rate_table :=
      [{ rate := 800000000, pdiv := 3, mdiv := 200, sdiv := 1, kdiv := 0,
         afc := 0, mfr := 0, mrr := 0, vsel := 0 },
       { rate := 400000000, pdiv := 3, mdiv := 200, sdiv := 2, kdiv := 0,
         afc := 0, mfr := 0, mrr := 0, vsel := 0 }] }

/-- A fractional PLL whose one rate, for a 24 MHz reference, has an `m` that
needs all ten bits of the M field of the 1460x. -/
def sample_pll1460x : samsung_clk_pll :=
  { enable_offs := 0, lock_offs := 0, type := .pll_1460x, rate_count := 1,
    rate_table :=
      [{ rate := 2400000000, pdiv := 3, mdiv := 600, sdiv := 1, kdiv := 0,
         afc := 0, mfr := 0, mrr := 0, vsel := 0 }] }

/-- An integer PLL whose one table entry has an `m` wider than the M field. -/
def spill_pll35xx : samsung_clk_pll :=
  { enable_offs := 31, lock_offs := 29, type := .pll_1451x, rate_count := 1,
    rate_table :=
      [{ rate := 100, pdiv := 1, mdiv := 0x8000, sdiv := 0, kdiv := 0,
         afc := 0, mfr := 0, mrr := 0, vsel := 0 }] }

/-- Hardware that never reports lock; the time-out allows three further reads. -/
def hw_never : Hw := { status := fun _ => 0, budget := 3 }

/-- Hardware that reports lock from the third read on. -/
def hw_late : Hw := { status := fun i => if i < 2 then 0 else 2 ^ 29, budget := 3 }

/-- An integer PLL whose one table entry has a `p` of `2 ^ 31`. -/
def wrap_pll35xx : samsung_clk_pll :=
  { enable_offs := 31, lock_offs := 29, type := .pll_1451x, rate_count := 1,
    rate_table :=
      [{ rate := 100, pdiv := 2 ^ 31, mdiv := 1, sdiv := 0, kdiv := 0,
         afc := 0, mfr := 0, mrr := 0, vsel := 0 }] }

/-- A clock framework with the three clocks 0, 1 and 2; every other id is
unknown (`-ENOENT`), and every node operation counts up the state. -/
def sample_uclass : clk_uclass Nat Nat :=
  { clk_get_by_id := fun id => if id < 3 then (0, id) else (-2, 0)
    clk_get_rate := fun c s => (24000000 + c, s + 1)
    clk_set_rate := fun _ rate s => (rate, s + 1)
    clk_enable := fun _ s => (0, s + 1)
    clk_disable := fun _ s => (0, s + 1)
    clk_set_parent := fun _ _ s => (0, s + 1) }

/-! ## `clk-exynos7420.c` -/

/-- One clock that a CMU builder registers, with what `clk.h` passes on to the
`samsung_clk_register_*` function: names, register offset from `base`, bit
position.  The numeric id and the flags come from headers that are not among
the sources and have no part in what follows; they are left out. -/
inductive clk_reg where
  | pll (type : samsung_pll_type) (name parent : String) (lock con : Nat)
      (rate_table : Option (List samsung_pll_rate_table))
  | ffactor (name parent : String) (mult div : Nat)
  | mux (name : String) (parents : List String) (reg shift width : Nat)
  | div (name parent : String) (reg shift width : Nat)
  | gate (name parent : String) (reg bit : Nat)

/-- The macro `PLL` of `clk.h`. -/
def PLL (typ : samsung_pll_type) (name pname : String) (lock con : Nat)
    (rtable : Option (List samsung_pll_rate_table)) : clk_reg :=
  clk_reg.pll typ name pname lock con rtable

/-- The macro `FFACTOR` of `clk.h`. -/
def FFACTOR (name pname : String) (m d : Nat) : clk_reg := clk_reg.ffactor name pname m d

/-- The macros `MUX` and `MUX_F` of `clk.h`; the parent count is that of the list. -/
def MUX (cname : String) (pnames : List String) (o s w : Nat) : clk_reg :=
  clk_reg.mux cname pnames o s w

/-- The macro `DIV` of `clk.h`. -/
def DIV (cname pname : String) (o s w : Nat) : clk_reg := clk_reg.div cname pname o s w

/-- The macro `GATE` of `clk.h`. -/
def GATE (cname pname : String) (o b : Nat) : clk_reg := clk_reg.gate cname pname o b

/-- The name under which a clock is registered. -/
def clk_reg.name : clk_reg → String
  | .pll _ n _ _ _ _ => n
  | .ffactor n _ _ _ => n
  | .mux n _ _ _ _ => n
  | .div n _ _ _ _ => n
  | .gate n _ _ _ => n

/-- The parent names a registration declares. -/
def clk_reg.parents : clk_reg → List String
  | .pll _ _ p _ _ _ => [p]
  | .ffactor _ p _ _ => [p]
  | .mux _ ps _ _ _ => ps
  | .div _ p _ _ _ => [p]
  | .gate _ p _ _ => [p]

/-- What a call of a CMU builder leaves: the function name given to `panic` if
`panic` was called, the value returned to the caller if the call returns, and
the clocks registered. -/
structure probe_outcome where
  panic_called : Option String
  ret : Option Int
  clocks : List clk_reg

/-- The body shared by the eleven `*_cmu_probe` functions: a null `base` leads to
`panic` and, should that return, to `return -EINVAL`; otherwise the clocks are
registered in order and 0 is returned.  `panic` is not among the sources:
whether it returns is the parameter `panic_returns`. -/
def cmu_probe (func : String) (clocks : List clk_reg) (panic_returns : Bool) (base : Nat) :
    probe_outcome :=
  if base = 0 then
    { panic_called := some func,
      ret := if panic_returns then some (-(EINVAL : Int)) else none,
      clocks := [] }
  else { panic_called := none, ret := some 0, clocks := clocks }

/-! ## The CMU builders -/

/-! ### `CMU_TOPC` -/

def CC_PLL_LOCK : Nat := 0x0000
def BUS0_PLL_LOCK : Nat := 0x0004
def BUS1_DPLL_LOCK : Nat := 0x0008
def MFC_PLL_LOCK : Nat := 0x000C
def AUD_PLL_LOCK : Nat := 0x0010
def CC_PLL_CON0 : Nat := 0x0100
def BUS0_PLL_CON0 : Nat := 0x0110
def BUS1_DPLL_CON0 : Nat := 0x0120
def MFC_PLL_CON0 : Nat := 0x0130
def AUD_PLL_CON0 : Nat := 0x0140
def MUX_SEL_TOPC0 : Nat := 0x0200
def MUX_SEL_TOPC1 : Nat := 0x0204
def MUX_SEL_TOPC2 : Nat := 0x0208
def MUX_SEL_TOPC3 : Nat := 0x020C
def DIV_TOPC0 : Nat := 0x0600
def DIV_TOPC1 : Nat := 0x0604
def DIV_TOPC3 : Nat := 0x060C
def ENABLE_ACLK_TOPC0 : Nat := 0x0800
def ENABLE_ACLK_TOPC1 : Nat := 0x0804
def ENABLE_SCLK_TOPC1 : Nat := 0x0A04

def mout_topc_aud_pll_ctrl_p : List String := ["fin_pll", "fout_aud_pll"]
def mout_topc_bus0_pll_ctrl_p : List String := ["fin_pll", "fout_bus0_pll"]
def mout_topc_bus1_pll_ctrl_p : List String := ["fin_pll", "fout_bus1_pll"]
def mout_topc_cc_pll_ctrl_p : List String := ["fin_pll", "fout_cc_pll"]
def mout_topc_mfc_pll_ctrl_p : List String := ["fin_pll", "fout_mfc_pll"]
def mout_topc_group2 : List String := ["mout_topc_bus0_pll_half", "mout_topc_bus1_pll_half",
  "mout_topc_cc_pll_half", "mout_topc_mfc_pll_half"]
def mout_topc_bus0_pll_half_p : List String := ["mout_topc_bus0_pll", "ffac_topc_bus0_pll_div2",
  "ffac_topc_bus0_pll_div4"]
def mout_topc_bus1_pll_half_p : List String := ["mout_topc_bus1_pll", "ffac_topc_bus1_pll_div2"]
def mout_topc_cc_pll_half_p : List String := ["mout_topc_cc_pll", "ffac_topc_cc_pll_div2"]
def mout_topc_mfc_pll_half_p : List String := ["mout_topc_mfc_pll", "ffac_topc_mfc_pll_div2"]
def mout_topc_bus0_pll_out_p : List String := ["mout_topc_bus0_pll", "ffac_topc_bus0_pll_div2"]

/-- The registrations of `topc_cmu_probe`, in the order of its calls. -/
def topc_clocks : List clk_reg :=
  [PLL .pll_1451x "fout_bus0_pll" "fin_pll" BUS0_PLL_LOCK BUS0_PLL_CON0 none,
   PLL .pll_1452x "fout_cc_pll" "fin_pll" CC_PLL_LOCK CC_PLL_CON0 none,
   PLL .pll_1452x "fout_bus1_pll" "fin_pll" BUS1_DPLL_LOCK BUS1_DPLL_CON0 none,
   PLL .pll_1452x "fout_mfc_pll" "fin_pll" MFC_PLL_LOCK MFC_PLL_CON0 none,
   PLL .pll_1460x "fout_aud_pll" "fin_pll" AUD_PLL_LOCK AUD_PLL_CON0 (some pll1460x_24mhz_tbl),
   MUX "mout_topc_aud_pll" mout_topc_aud_pll_ctrl_p MUX_SEL_TOPC1 0 1,
   MUX "mout_topc_bus0_pll" mout_topc_bus0_pll_ctrl_p MUX_SEL_TOPC0 0 1,
   MUX "mout_topc_bus1_pll" mout_topc_bus1_pll_ctrl_p MUX_SEL_TOPC0 4 1,
   MUX "mout_topc_cc_pll" mout_topc_cc_pll_ctrl_p MUX_SEL_TOPC0 8 1,
   MUX "mout_topc_mfc_pll" mout_topc_mfc_pll_ctrl_p MUX_SEL_TOPC0 12 1,
   FFACTOR "ffac_topc_bus1_pll_div2" "mout_topc_bus1_pll" 1 2,
   FFACTOR "ffac_topc_cc_pll_div2" "mout_topc_cc_pll" 1 2,
   FFACTOR "ffac_topc_mfc_pll_div2" "mout_topc_mfc_pll" 1 2,
   FFACTOR "ffac_topc_bus0_pll_div2" "mout_topc_bus0_pll" 1 2,
   FFACTOR "ffac_topc_bus0_pll_div4" "ffac_topc_bus0_pll_div2" 1 2,
   MUX "mout_topc_bus0_pll_half" mout_topc_bus0_pll_half_p MUX_SEL_TOPC0 16 2,
   MUX "mout_topc_bus1_pll_half" mout_topc_bus1_pll_half_p MUX_SEL_TOPC0 20 1,
   MUX "mout_topc_cc_pll_half" mout_topc_cc_pll_half_p MUX_SEL_TOPC0 24 1,
   MUX "mout_topc_mfc_pll_half" mout_topc_mfc_pll_half_p MUX_SEL_TOPC0 28 1,
   MUX "mout_topc_bus0_pll_out" mout_topc_bus0_pll_out_p MUX_SEL_TOPC1 16 1,
   MUX "mout_aclk_ccore_133" mout_topc_group2 MUX_SEL_TOPC2 4 2,
   MUX "mout_aclk_mscl_532" mout_topc_group2 MUX_SEL_TOPC3 20 2,
   MUX "mout_aclk_peris_66" mout_topc_group2 MUX_SEL_TOPC3 24 2,
   DIV "dout_aclk_ccore_133" "mout_aclk_ccore_133" DIV_TOPC0 4 4,
   DIV "dout_aclk_mscl_532" "mout_aclk_mscl_532" DIV_TOPC1 20 4,
   DIV "dout_aclk_peris_66" "mout_aclk_peris_66" DIV_TOPC1 24 4,
   DIV "dout_sclk_bus0_pll" "mout_topc_bus0_pll_out" DIV_TOPC3 0 4,
   DIV "dout_sclk_bus1_pll" "mout_topc_bus1_pll" DIV_TOPC3 8 4,
   DIV "dout_sclk_cc_pll" "mout_topc_cc_pll" DIV_TOPC3 12 4,
   DIV "dout_sclk_mfc_pll" "mout_topc_mfc_pll" DIV_TOPC3 16 4,
   DIV "dout_sclk_aud_pll" "mout_topc_aud_pll" DIV_TOPC3 28 4,
   GATE "aclk_ccore_133" "dout_aclk_ccore_133" ENABLE_ACLK_TOPC0 4,
   GATE "aclk_mscl_532" "dout_aclk_mscl_532" ENABLE_ACLK_TOPC1 20,
   GATE "aclk_peris_66" "dout_aclk_peris_66" ENABLE_ACLK_TOPC1 24,
   GATE "sclk_aud_pll" "dout_sclk_aud_pll" ENABLE_SCLK_TOPC1 20,
   GATE "sclk_mfc_pll_b" "dout_sclk_mfc_pll" ENABLE_SCLK_TOPC1 17,
   GATE "sclk_mfc_pll_a" "dout_sclk_mfc_pll" ENABLE_SCLK_TOPC1 16,
   GATE "sclk_bus1_pll_b" "dout_sclk_bus1_pll" ENABLE_SCLK_TOPC1 13,
   GATE "sclk_bus1_pll_a" "dout_sclk_bus1_pll" ENABLE_SCLK_TOPC1 12,
   GATE "sclk_bus0_pll_b" "dout_sclk_bus0_pll" ENABLE_SCLK_TOPC1 5,
   GATE "sclk_bus0_pll_a" "dout_sclk_bus0_pll" ENABLE_SCLK_TOPC1 4,
   GATE "sclk_cc_pll_b" "dout_sclk_cc_pll" ENABLE_SCLK_TOPC1 1,
   GATE "sclk_cc_pll_a" "dout_sclk_cc_pll" ENABLE_SCLK_TOPC1 0]

/-- The function `topc_cmu_probe`; `base` is what `dev_read_addr_ptr` returns. -/
def topc_cmu_probe (panic_returns : Bool) (base : Nat) : probe_outcome :=
  cmu_probe "topc_cmu_probe" topc_clocks panic_returns base

/-! ### `CMU_TOP0` -/

def MUX_SEL_TOP00 : Nat := 0x0200
def MUX_SEL_TOP01 : Nat := 0x0204
def MUX_SEL_TOP03 : Nat := 0x020C
def MUX_SEL_TOP0_PERIC0 : Nat := 0x0230
def MUX_SEL_TOP0_PERIC1 : Nat := 0x0234
def MUX_SEL_TOP0_PERIC2 : Nat := 0x0238
def MUX_SEL_TOP0_PERIC3 : Nat := 0x023C
def DIV_TOP03 : Nat := 0x060C
def DIV_TOP0_PERIC0 : Nat := 0x0630
def DIV_TOP0_PERIC1 : Nat := 0x0634
def DIV_TOP0_PERIC2 : Nat := 0x0638
def DIV_TOP0_PERIC3 : Nat := 0x063C
def ENABLE_ACLK_TOP03 : Nat := 0x080C
def ENABLE_SCLK_TOP0_PERIC0 : Nat := 0x0A30
def ENABLE_SCLK_TOP0_PERIC1 : Nat := 0x0A34
def ENABLE_SCLK_TOP0_PERIC2 : Nat := 0x0A38
def ENABLE_SCLK_TOP0_PERIC3 : Nat := 0x0A3C

def mout_top0_bus0_pll_user_p : List String := ["fin_pll", "sclk_bus0_pll_a"]
def mout_top0_bus1_pll_user_p : List String := ["fin_pll", "sclk_bus1_pll_a"]
def mout_top0_cc_pll_user_p : List String := ["fin_pll", "sclk_cc_pll_a"]
def mout_top0_mfc_pll_user_p : List String := ["fin_pll", "sclk_mfc_pll_a"]
def mout_top0_aud_pll_user_p : List String := ["fin_pll", "sclk_aud_pll"]
def mout_top0_bus0_pll_half_p : List String := ["mout_top0_bus0_pll_user",
  "ffac_top0_bus0_pll_div2"]
def mout_top0_bus1_pll_half_p : List String := ["mout_top0_bus1_pll_user",
  "ffac_top0_bus1_pll_div2"]
def mout_top0_cc_pll_half_p : List String := ["mout_top0_cc_pll_user", "ffac_top0_cc_pll_div2"]
def mout_top0_mfc_pll_half_p : List String := ["mout_top0_mfc_pll_user", "ffac_top0_mfc_pll_div2"]
def mout_top0_group1 : List String := ["mout_top0_bus0_pll_half", "mout_top0_bus1_pll_half",
  "mout_top0_cc_pll_half", "mout_top0_mfc_pll_half"]
def mout_top0_group3 : List String := ["ioclk_audiocdclk0", "ioclk_audiocdclk1",
  "ioclk_spdif_extclk", "mout_top0_aud_pll_user", "mout_top0_bus0_pll_half",
  "mout_top0_bus1_pll_half"]
def mout_top0_group4 : List String := ["ioclk_audiocdclk1", "mout_top0_aud_pll_user",
  "mout_top0_bus0_pll_half", "mout_top0_bus1_pll_half"]

/-- The registrations of `top0_cmu_probe`, in the order of its calls. -/
def top0_clocks : List clk_reg :=
  [MUX "mout_top0_bus1_pll_user" mout_top0_bus1_pll_user_p MUX_SEL_TOP00 12 1,
   MUX "mout_top0_cc_pll_user" mout_top0_cc_pll_user_p MUX_SEL_TOP00 8 1,
   MUX "mout_top0_bus0_pll_user" mout_top0_bus0_pll_user_p MUX_SEL_TOP00 16 1,
   MUX "mout_top0_mfc_pll_user" mout_top0_mfc_pll_user_p MUX_SEL_TOP00 4 1,
   FFACTOR "ffac_top0_bus0_pll_div2" "mout_top0_bus0_pll_user" 1 2,
   FFACTOR "ffac_top0_bus1_pll_div2" "mout_top0_bus1_pll_user" 1 2,
   FFACTOR "ffac_top0_cc_pll_div2" "mout_top0_cc_pll_user" 1 2,
   FFACTOR "ffac_top0_mfc_pll_div2" "mout_top0_mfc_pll_user" 1 2,
   MUX "mout_top0_bus1_pll_half" mout_top0_bus1_pll_half_p MUX_SEL_TOP01 12 1,
   MUX "mout_top0_cc_pll_half" mout_top0_cc_pll_half_p MUX_SEL_TOP01 8 1,
   MUX "mout_top0_aud_pll_user" mout_top0_aud_pll_user_p MUX_SEL_TOP00 0 1,
   MUX "mout_top0_bus0_pll_half" mout_top0_bus0_pll_half_p MUX_SEL_TOP01 16 1,
   MUX "mout_top0_mfc_pll_half" mout_top0_mfc_pll_half_p MUX_SEL_TOP01 4 1,
   MUX "mout_aclk_peric1_66" mout_top0_group1 MUX_SEL_TOP03 12 2,
   MUX "mout_aclk_peric0_66" mout_top0_group1 MUX_SEL_TOP03 20 2,
   MUX "mout_sclk_spdif" mout_top0_group3 MUX_SEL_TOP0_PERIC0 4 3,
   MUX "mout_sclk_pcm1" mout_top0_group4 MUX_SEL_TOP0_PERIC0 8 2,
   MUX "mout_sclk_i2s1" mout_top0_group4 MUX_SEL_TOP0_PERIC0 20 2,
   MUX "mout_sclk_spi1" mout_top0_group1 MUX_SEL_TOP0_PERIC1 8 2,
   MUX "mout_sclk_spi0" mout_top0_group1 MUX_SEL_TOP0_PERIC1 20 2,
   MUX "mout_sclk_spi3" mout_top0_group1 MUX_SEL_TOP0_PERIC2 8 2,
   MUX "mout_sclk_spi2" mout_top0_group1 MUX_SEL_TOP0_PERIC2 20 2,
   MUX "mout_sclk_uart3" mout_top0_group1 MUX_SEL_TOP0_PERIC3 4 2,
   MUX "mout_sclk_uart2" mout_top0_group1 MUX_SEL_TOP0_PERIC3 8 2,
   MUX "mout_sclk_uart1" mout_top0_group1 MUX_SEL_TOP0_PERIC3 12 2,
   MUX "mout_sclk_uart0" mout_top0_group1 MUX_SEL_TOP0_PERIC3 16 2,
   MUX "mout_sclk_spi4" mout_top0_group1 MUX_SEL_TOP0_PERIC3 20 2,
   DIV "dout_aclk_peric1_66" "mout_aclk_peric1_66" DIV_TOP03 12 6,
   DIV "dout_aclk_peric0_66" "mout_aclk_peric0_66" DIV_TOP03 20 6,
   DIV "dout_sclk_spdif" "mout_sclk_spdif" DIV_TOP0_PERIC0 4 4,
   DIV "dout_sclk_pcm1" "mout_sclk_pcm1" DIV_TOP0_PERIC0 8 12,
   DIV "dout_sclk_i2s1" "mout_sclk_i2s1" DIV_TOP0_PERIC0 20 10,
   DIV "dout_sclk_spi1" "mout_sclk_spi1" DIV_TOP0_PERIC1 8 12,
   DIV "dout_sclk_spi0" "mout_sclk_spi0" DIV_TOP0_PERIC1 20 12,
   DIV "dout_sclk_spi3" "mout_sclk_spi3" DIV_TOP0_PERIC2 8 12,
   DIV "dout_sclk_spi2" "mout_sclk_spi2" DIV_TOP0_PERIC2 20 12,
   DIV "dout_sclk_uart3" "mout_sclk_uart3" DIV_TOP0_PERIC3 4 4,
   DIV "dout_sclk_uart2" "mout_sclk_uart2" DIV_TOP0_PERIC3 8 4,
   DIV "dout_sclk_uart1" "mout_sclk_uart1" DIV_TOP0_PERIC3 12 4,
   DIV "dout_sclk_uart0" "mout_sclk_uart0" DIV_TOP0_PERIC3 16 4,
   DIV "dout_sclk_spi4" "mout_sclk_spi4" DIV_TOP0_PERIC3 20 12,
   GATE "aclk_peric0_66" "dout_aclk_peric0_66" ENABLE_ACLK_TOP03 20,
   GATE "aclk_peric1_66" "dout_aclk_peric1_66" ENABLE_ACLK_TOP03 12,
   GATE "sclk_spdif" "dout_sclk_spdif" ENABLE_SCLK_TOP0_PERIC0 4,
   GATE "sclk_pcm1" "dout_sclk_pcm1" ENABLE_SCLK_TOP0_PERIC0 8,
   GATE "sclk_i2s1" "dout_sclk_i2s1" ENABLE_SCLK_TOP0_PERIC0 20,
   GATE "sclk_spi1" "dout_sclk_spi1" ENABLE_SCLK_TOP0_PERIC1 8,
   GATE "sclk_spi0" "dout_sclk_spi0" ENABLE_SCLK_TOP0_PERIC1 20,
   GATE "sclk_spi3" "dout_sclk_spi3" ENABLE_SCLK_TOP0_PERIC2 8,
   GATE "sclk_spi2" "dout_sclk_spi2" ENABLE_SCLK_TOP0_PERIC2 20,
   GATE "sclk_uart3" "dout_sclk_uart3" ENABLE_SCLK_TOP0_PERIC3 4,
   GATE "sclk_uart2" "dout_sclk_uart2" ENABLE_SCLK_TOP0_PERIC3 8,
   GATE "sclk_uart1" "dout_sclk_uart1" ENABLE_SCLK_TOP0_PERIC3 12,
   GATE "sclk_uart0" "dout_sclk_uart0" ENABLE_SCLK_TOP0_PERIC3 16,
   GATE "sclk_spi4" "dout_sclk_spi4" ENABLE_SCLK_TOP0_PERIC3 20]

/-- The function `top0_cmu_probe`; `base` is what `dev_read_addr_ptr` returns. -/
def top0_cmu_probe (panic_returns : Bool) (base : Nat) : probe_outcome :=
  cmu_probe "top0_cmu_probe" top0_clocks panic_returns base

/-! ### `CMU_TOP1` -/

def MUX_SEL_TOP10 : Nat := 0x0200
def MUX_SEL_TOP11 : Nat := 0x0204
def MUX_SEL_TOP13 : Nat := 0x020C
def MUX_SEL_TOP1_FSYS0 : Nat := 0x0224
def MUX_SEL_TOP1_FSYS1 : Nat := 0x0228
def MUX_SEL_TOP1_FSYS11 : Nat := 0x022C
def DIV_TOP13 : Nat := 0x060C
def DIV_TOP1_FSYS0 : Nat := 0x0624
def DIV_TOP1_FSYS1 : Nat := 0x0628
def DIV_TOP1_FSYS11 : Nat := 0x062C
def ENABLE_ACLK_TOP13 : Nat := 0x080C
def ENABLE_SCLK_TOP1_FSYS0 : Nat := 0x0A24
def ENABLE_SCLK_TOP1_FSYS1 : Nat := 0x0A28
def ENABLE_SCLK_TOP1_FSYS11 : Nat := 0x0A2C

def mout_top1_bus0_pll_user_p : List String := ["fin_pll", "sclk_bus0_pll_b"]
def mout_top1_bus1_pll_user_p : List String := ["fin_pll", "sclk_bus1_pll_b"]
def mout_top1_cc_pll_user_p : List String := ["fin_pll", "sclk_cc_pll_b"]
def mout_top1_mfc_pll_user_p : List String := ["fin_pll", "sclk_mfc_pll_b"]
def mout_top1_bus0_pll_half_p : List String := ["mout_top1_bus0_pll_user",
  "ffac_top1_bus0_pll_div2"]
def mout_top1_bus1_pll_half_p : List String := ["mout_top1_bus1_pll_user",
  "ffac_top1_bus1_pll_div2"]
def mout_top1_cc_pll_half_p : List String := ["mout_top1_cc_pll_user", "ffac_top1_cc_pll_div2"]
def mout_top1_mfc_pll_half_p : List String := ["mout_top1_mfc_pll_user", "ffac_top1_mfc_pll_div2"]
def mout_top1_group1 : List String := ["mout_top1_bus0_pll_half", "mout_top1_bus1_pll_half",
  "mout_top1_cc_pll_half", "mout_top1_mfc_pll_half"]

/-- The registrations of `top1_cmu_probe`, in the order of its calls. -/
def top1_clocks : List clk_reg :=
  [MUX "mout_top1_mfc_pll_user" mout_top1_mfc_pll_user_p MUX_SEL_TOP10 4 1,
   MUX "mout_top1_cc_pll_user" mout_top1_cc_pll_user_p MUX_SEL_TOP10 8 1,
   MUX "mout_top1_bus1_pll_user" mout_top1_bus1_pll_user_p MUX_SEL_TOP10 12 1,
   MUX "mout_top1_bus0_pll_user" mout_top1_bus0_pll_user_p MUX_SEL_TOP10 16 1,
   MUX "mout_top1_mfc_pll_half" mout_top1_mfc_pll_half_p MUX_SEL_TOP11 4 1,
   MUX "mout_top1_cc_pll_half" mout_top1_cc_pll_half_p MUX_SEL_TOP11 8 1,
   MUX "mout_top1_bus1_pll_half" mout_top1_bus1_pll_half_p MUX_SEL_TOP11 12 1,
   MUX "mout_top1_bus0_pll_half" mout_top1_bus0_pll_half_p MUX_SEL_TOP11 16 1,
   MUX "mout_aclk_fsys1_200" mout_top1_group1 MUX_SEL_TOP13 24 2,
   MUX "mout_aclk_fsys0_200" mout_top1_group1 MUX_SEL_TOP13 28 2,
   MUX "mout_sclk_phy_fsys0_26m" mout_top1_group1 MUX_SEL_TOP1_FSYS0 0 2,
   MUX "mout_sclk_mmc2" mout_top1_group1 MUX_SEL_TOP1_FSYS0 16 2,
   MUX "mout_sclk_usbdrd300" mout_top1_group1 MUX_SEL_TOP1_FSYS0 28 2,
   MUX "mout_sclk_phy_fsys1" mout_top1_group1 MUX_SEL_TOP1_FSYS1 0 2,
   MUX "mout_sclk_ufsunipro20" mout_top1_group1 MUX_SEL_TOP1_FSYS1 16 2,
   MUX "mout_sclk_mmc1" mout_top1_group1 MUX_SEL_TOP1_FSYS11 0 2,
   MUX "mout_sclk_mmc0" mout_top1_group1 MUX_SEL_TOP1_FSYS11 12 2,
   MUX "mout_sclk_phy_fsys1_26m" mout_top1_group1 MUX_SEL_TOP1_FSYS11 24 2,
   DIV "dout_aclk_fsys1_200" "mout_aclk_fsys1_200" DIV_TOP13 24 4,
   DIV "dout_aclk_fsys0_200" "mout_aclk_fsys0_200" DIV_TOP13 28 4,
   DIV "dout_sclk_phy_fsys1" "mout_sclk_phy_fsys1" DIV_TOP1_FSYS1 0 6,
   DIV "dout_sclk_ufsunipro20" "mout_sclk_ufsunipro20" DIV_TOP1_FSYS1 16 6,
   DIV "dout_sclk_mmc2" "mout_sclk_mmc2" DIV_TOP1_FSYS0 16 10,
   DIV "dout_sclk_usbdrd300" "mout_sclk_usbdrd300" DIV_TOP1_FSYS0 28 4,
   DIV "dout_sclk_mmc1" "mout_sclk_mmc1" DIV_TOP1_FSYS11 0 10,
   DIV "dout_sclk_mmc0" "mout_sclk_mmc0" DIV_TOP1_FSYS11 12 10,
   DIV "dout_sclk_phy_fsys1_26m" "mout_sclk_phy_fsys1_26m" DIV_TOP1_FSYS11 24 6,
   GATE "sclk_mmc2" "dout_sclk_mmc2" ENABLE_SCLK_TOP1_FSYS0 16,
   GATE "sclk_usbdrd300" "dout_sclk_usbdrd300" ENABLE_SCLK_TOP1_FSYS0 28,
   GATE "sclk_phy_fsys1" "dout_sclk_phy_fsys1" ENABLE_SCLK_TOP1_FSYS1 0,
   GATE "sclk_ufsunipro20" "dout_sclk_ufsunipro20" ENABLE_SCLK_TOP1_FSYS1 16,
   GATE "sclk_mmc1" "dout_sclk_mmc1" ENABLE_SCLK_TOP1_FSYS11 0,
   GATE "sclk_mmc0" "dout_sclk_mmc0" ENABLE_SCLK_TOP1_FSYS11 12,
   GATE "aclk_fsys0_200" "dout_aclk_fsys0_200" ENABLE_ACLK_TOP13 28,
   GATE "aclk_fsys1_200" "dout_aclk_fsys1_200" ENABLE_ACLK_TOP13 24,
   GATE "sclk_phy_fsys1_26m" "dout_sclk_phy_fsys1_26m" ENABLE_SCLK_TOP1_FSYS11 24,
   FFACTOR "ffac_top1_bus0_pll_div2" "mout_top1_bus0_pll_user" 1 2,
   FFACTOR "ffac_top1_bus1_pll_div2" "mout_top1_bus1_pll_user" 1 2,
   FFACTOR "ffac_top1_cc_pll_div2" "mout_top1_cc_pll_user" 1 2,
   FFACTOR "ffac_top1_mfc_pll_div2" "mout_top1_mfc_pll_user" 1 2]

/-- The function `top1_cmu_probe`; `base` is what `dev_read_addr_ptr` returns. -/
def top1_cmu_probe (panic_returns : Bool) (base : Nat) : probe_outcome :=
  cmu_probe "top1_cmu_probe" top1_clocks panic_returns base

/-! ### `CMU_CCORE` -/

def MUX_SEL_CCORE : Nat := 0x0200
def ENABLE_PCLK_CCORE : Nat := 0x0900

def mout_aclk_ccore_133_user_p : List String := ["fin_pll", "aclk_ccore_133"]

/-- The registrations of `ccore_cmu_probe`, in the order of its calls. -/
def ccore_clocks : List clk_reg :=
  [MUX "mout_aclk_ccore_133_user" mout_aclk_ccore_133_user_p MUX_SEL_CCORE 1 1,
   GATE "pclk_rtc" "mout_aclk_ccore_133_user" ENABLE_PCLK_CCORE 8]

/-- The function `ccore_cmu_probe`; `base` is what `dev_read_addr_ptr` returns. -/
def ccore_cmu_probe (panic_returns : Bool) (base : Nat) : probe_outcome :=
  cmu_probe "ccore_cmu_probe" ccore_clocks panic_returns base

/-! ### `CMU_PERIC0` -/

def MUX_SEL_PERIC0 : Nat := 0x0200
def ENABLE_PCLK_PERIC0 : Nat := 0x0900
def ENABLE_SCLK_PERIC0 : Nat := 0x0A00

def mout_aclk_peric0_66_user_p : List String := ["fin_pll", "aclk_peric0_66"]
def mout_sclk_uart0_user_p : List String := ["fin_pll", "sclk_uart0"]

/-- The registrations of `peric0_cmu_probe`, in the order of its calls. -/
def peric0_clocks : List clk_reg :=
  [MUX "mout_aclk_peric0_66_user" mout_aclk_peric0_66_user_p MUX_SEL_PERIC0 0 1,
   MUX "mout_sclk_uart0_user" mout_sclk_uart0_user_p MUX_SEL_PERIC0 16 1,
   GATE "pclk_hsi2c0" "mout_aclk_peric0_66_user" ENABLE_PCLK_PERIC0 8,
   GATE "pclk_hsi2c1" "mout_aclk_peric0_66_user" ENABLE_PCLK_PERIC0 9,
   GATE "pclk_hsi2c4" "mout_aclk_peric0_66_user" ENABLE_PCLK_PERIC0 10,
   GATE "pclk_hsi2c5" "mout_aclk_peric0_66_user" ENABLE_PCLK_PERIC0 11,
   GATE "pclk_hsi2c9" "mout_aclk_peric0_66_user" ENABLE_PCLK_PERIC0 12,
   GATE "pclk_hsi2c10" "mout_aclk_peric0_66_user" ENABLE_PCLK_PERIC0 13,
   GATE "pclk_hsi2c11" "mout_aclk_peric0_66_user" ENABLE_PCLK_PERIC0 14,
   GATE "pclk_uart0" "mout_aclk_peric0_66_user" ENABLE_PCLK_PERIC0 16,
   GATE "pclk_adcif" "mout_aclk_peric0_66_user" ENABLE_PCLK_PERIC0 20,
   GATE "pclk_pwm" "mout_aclk_peric0_66_user" ENABLE_PCLK_PERIC0 21,
   GATE "sclk_uart0_user" "mout_sclk_uart0_user" ENABLE_SCLK_PERIC0 16,
   GATE "sclk_pwm" "fin_pll" ENABLE_SCLK_PERIC0 21]

/-- The function `peric0_cmu_probe`; `base` is what `dev_read_addr_ptr` returns. -/
def peric0_cmu_probe (panic_returns : Bool) (base : Nat) : probe_outcome :=
  cmu_probe "peric0_cmu_probe" peric0_clocks panic_returns base

/-! ### `CMU_PERIC1` -/

def MUX_SEL_PERIC10 : Nat := 0x0200
def MUX_SEL_PERIC11 : Nat := 0x0204
def ENABLE_PCLK_PERIC1 : Nat := 0x0900
def ENABLE_SCLK_PERIC10 : Nat := 0x0A00

def mout_aclk_peric1_66_user_p : List String := ["fin_pll", "aclk_peric1_66"]
def mout_sclk_uart1_user_p : List String := ["fin_pll", "sclk_uart1"]
def mout_sclk_uart2_user_p : List String := ["fin_pll", "sclk_uart2"]
def mout_sclk_uart3_user_p : List String := ["fin_pll", "sclk_uart3"]
def mout_sclk_spi0_user_p : List String := ["fin_pll", "sclk_spi0"]
def mout_sclk_spi1_user_p : List String := ["fin_pll", "sclk_spi1"]
def mout_sclk_spi2_user_p : List String := ["fin_pll", "sclk_spi2"]
def mout_sclk_spi3_user_p : List String := ["fin_pll", "sclk_spi3"]
def mout_sclk_spi4_user_p : List String := ["fin_pll", "sclk_spi4"]

/-- The registrations of `peric1_cmu_probe`, in the order of its calls. -/
def peric1_clocks : List clk_reg :=
  [MUX "mout_aclk_peric1_66_user" mout_aclk_peric1_66_user_p MUX_SEL_PERIC10 0 1,
   MUX "mout_sclk_uart1_user" mout_sclk_uart1_user_p MUX_SEL_PERIC11 20 1,
   MUX "mout_sclk_uart2_user" mout_sclk_uart2_user_p MUX_SEL_PERIC11 24 1,
   MUX "mout_sclk_uart3_user" mout_sclk_uart3_user_p MUX_SEL_PERIC11 28 1,
   MUX "mout_sclk_spi0_user" mout_sclk_spi0_user_p MUX_SEL_PERIC11 0 1,
   MUX "mout_sclk_spi1_user" mout_sclk_spi1_user_p MUX_SEL_PERIC11 4 1,
   MUX "mout_sclk_spi2_user" mout_sclk_spi2_user_p MUX_SEL_PERIC11 8 1,
   MUX "mout_sclk_spi3_user" mout_sclk_spi3_user_p MUX_SEL_PERIC11 12 1,
   MUX "mout_sclk_spi4_user" mout_sclk_spi4_user_p MUX_SEL_PERIC11 16 1,
   GATE "pclk_hsi2c2" "mout_aclk_peric1_66_user" ENABLE_PCLK_PERIC1 4,
   GATE "pclk_hsi2c3" "mout_aclk_peric1_66_user" ENABLE_PCLK_PERIC1 5,
   GATE "pclk_hsi2c6" "mout_aclk_peric1_66_user" ENABLE_PCLK_PERIC1 6,
   GATE "pclk_hsi2c7" "mout_aclk_peric1_66_user" ENABLE_PCLK_PERIC1 7,
   GATE "pclk_hsi2c8" "mout_aclk_peric1_66_user" ENABLE_PCLK_PERIC1 8,
   GATE "pclk_uart1" "mout_aclk_peric1_66_user" ENABLE_PCLK_PERIC1 9,
   GATE "pclk_uart2" "mout_aclk_peric1_66_user" ENABLE_PCLK_PERIC1 10,
   GATE "pclk_uart3" "mout_aclk_peric1_66_user" ENABLE_PCLK_PERIC1 11,
   GATE "pclk_spi0" "mout_aclk_peric1_66_user" ENABLE_PCLK_PERIC1 12,
   GATE "pclk_spi1" "mout_aclk_peric1_66_user" ENABLE_PCLK_PERIC1 13,
   GATE "pclk_spi2" "mout_aclk_peric1_66_user" ENABLE_PCLK_PERIC1 14,
   GATE "pclk_spi3" "mout_aclk_peric1_66_user" ENABLE_PCLK_PERIC1 15,
   GATE "pclk_spi4" "mout_aclk_peric1_66_user" ENABLE_PCLK_PERIC1 16,
   GATE "pclk_i2s1" "mout_aclk_peric1_66_user" ENABLE_PCLK_PERIC1 17,
   GATE "pclk_pcm1" "mout_aclk_peric1_66_user" ENABLE_PCLK_PERIC1 18,
   GATE "pclk_spdif" "mout_aclk_peric1_66_user" ENABLE_PCLK_PERIC1 19,
   GATE "sclk_uart1_user" "mout_sclk_uart1_user" ENABLE_SCLK_PERIC10 9,
   GATE "sclk_uart2_user" "mout_sclk_uart2_user" ENABLE_SCLK_PERIC10 10,
   GATE "sclk_uart3_user" "mout_sclk_uart3_user" ENABLE_SCLK_PERIC10 11,
   GATE "sclk_spi0_user" "mout_sclk_spi0_user" ENABLE_SCLK_PERIC10 12,
   GATE "sclk_spi1_user" "mout_sclk_spi1_user" ENABLE_SCLK_PERIC10 13,
   GATE "sclk_spi2_user" "mout_sclk_spi2_user" ENABLE_SCLK_PERIC10 14,
   GATE "sclk_spi3_user" "mout_sclk_spi3_user" ENABLE_SCLK_PERIC10 15,
   GATE "sclk_spi4_user" "mout_sclk_spi4_user" ENABLE_SCLK_PERIC10 16,
   GATE "sclk_i2s1_user" "sclk_i2s1" ENABLE_SCLK_PERIC10 17,
   GATE "sclk_pcm1_user" "sclk_pcm1" ENABLE_SCLK_PERIC10 18,
   GATE "sclk_spdif_user" "sclk_spdif" ENABLE_SCLK_PERIC10 19]

/-- The function `peric1_cmu_probe`; `base` is what `dev_read_addr_ptr` returns. -/
def peric1_cmu_probe (panic_returns : Bool) (base : Nat) : probe_outcome :=
  cmu_probe "peric1_cmu_probe" peric1_clocks panic_returns base

/-! ### `CMU_PERIS` -/

def MUX_SEL_PERIS : Nat := 0x0200
def ENABLE_PCLK_PERIS : Nat := 0x0900
def ENABLE_PCLK_PERIS_SECURE_CHIPID : Nat := 0x0910
def ENABLE_SCLK_PERIS : Nat := 0x0A00
def ENABLE_SCLK_PERIS_SECURE_CHIPID : Nat := 0x0A10

def mout_aclk_peris_66_user_p : List String := ["fin_pll", "aclk_peris_66"]

/-- The registrations of `peris_cmu_probe`, in the order of its calls. -/
def peris_clocks : List clk_reg :=
  [MUX "mout_aclk_peris_66_user" mout_aclk_peris_66_user_p MUX_SEL_PERIS 0 1,
   GATE "pclk_wdt" "mout_aclk_peris_66_user" ENABLE_PCLK_PERIS 6,
   GATE "pclk_mct" "mout_aclk_peris_66_user" ENABLE_PCLK_PERIS 5,
   GATE "pclk_tmu_apbif" "mout_aclk_peris_66_user" ENABLE_PCLK_PERIS 10,
   GATE "pclk_chipid" "mout_aclk_peris_66_user" ENABLE_PCLK_PERIS_SECURE_CHIPID 0,
   GATE "sclk_chipid" "fin_pll" ENABLE_SCLK_PERIS_SECURE_CHIPID 0,
   GATE "sclk_tmu" "fin_pll" ENABLE_SCLK_PERIS 10]

/-- The function `peris_cmu_probe`; `base` is what `dev_read_addr_ptr` returns. -/
def peris_cmu_probe (panic_returns : Bool) (base : Nat) : probe_outcome :=
  cmu_probe "peris_cmu_probe" peris_clocks panic_returns base

/-! ### `CMU_FSYS0` -/

def MUX_SEL_FSYS00 : Nat := 0x0200
def MUX_SEL_FSYS01 : Nat := 0x0204
def MUX_SEL_FSYS02 : Nat := 0x0208
def ENABLE_ACLK_FSYS00 : Nat := 0x0800
def ENABLE_ACLK_FSYS01 : Nat := 0x0804
def ENABLE_SCLK_FSYS01 : Nat := 0x0A04
def ENABLE_SCLK_FSYS02 : Nat := 0x0A08
def ENABLE_SCLK_FSYS04 : Nat := 0x0A10

def mout_aclk_fsys0_200_user_p : List String := ["fin_pll", "aclk_fsys0_200"]
def mout_sclk_mmc2_user_p : List String := ["fin_pll", "sclk_mmc2"]
def mout_sclk_usbdrd300_user_p : List String := ["fin_pll", "sclk_usbdrd300"]
def mout_phyclk_usbdrd300_udrd30_phyclk_user_p : List String := ["fin_pll",
  "phyclk_usbdrd300_udrd30_phyclock"]
def mout_phyclk_usbdrd300_udrd30_pipe_pclk_user_p : List String := ["fin_pll",
  "phyclk_usbdrd300_udrd30_pipe_pclk"]

/-- The registrations of `fsys0_cmu_probe`, in the order of its calls. -/
def fsys0_clocks : List clk_reg :=
  [MUX "mout_phyclk_usbdrd300_udrd30_phyclk_user" mout_phyclk_usbdrd300_udrd30_phyclk_user_p
     MUX_SEL_FSYS02 28 1,
   MUX "mout_aclk_fsys0_200_user" mout_aclk_fsys0_200_user_p MUX_SEL_FSYS00 24 1,
   MUX "mout_phyclk_usbdrd300_udrd30_pipe_pclk_user" mout_phyclk_usbdrd300_udrd30_pipe_pclk_user_p
     MUX_SEL_FSYS02 24 1,
   MUX "mout_sclk_usbdrd300_user" mout_sclk_usbdrd300_user_p MUX_SEL_FSYS01 28 1,
   MUX "mout_sclk_mmc2_user" mout_sclk_mmc2_user_p MUX_SEL_FSYS01 24 1,
   GATE "aclk_axius_usbdrd30x_fsys0x" "mout_aclk_fsys0_200_user" ENABLE_ACLK_FSYS00 19,
   GATE "sclk_usbdrd300_refclk" "fin_pll" ENABLE_SCLK_FSYS01 8,
   GATE "aclk_mmc2" "mout_aclk_fsys0_200_user" ENABLE_ACLK_FSYS01 31,
   GATE "aclk_usbdrd300" "mout_aclk_fsys0_200_user" ENABLE_ACLK_FSYS01 29,
   GATE "phyclk_usbdrd300_udrd30_pipe_pclk_user" "mout_phyclk_usbdrd300_udrd30_pipe_pclk_user"
     ENABLE_SCLK_FSYS02 24,
   GATE "aclk_pdma0" "mout_aclk_fsys0_200_user" ENABLE_ACLK_FSYS00 4,
   GATE "aclk_pdma1" "mout_aclk_fsys0_200_user" ENABLE_ACLK_FSYS00 3,
   GATE "oscclk_phy_clkout_usb30_phy" "fin_pll" ENABLE_SCLK_FSYS04 28,
   GATE "phyclk_usbdrd300_udrd30_phyclk_user" "mout_phyclk_usbdrd300_udrd30_phyclk_user"
     ENABLE_SCLK_FSYS02 28,
   GATE "sclk_usbdrd300_suspendclk" "mout_sclk_usbdrd300_user" ENABLE_SCLK_FSYS01 4]

/-- The function `fsys0_cmu_probe`; `base` is what `dev_read_addr_ptr` returns. -/
def fsys0_cmu_probe (panic_returns : Bool) (base : Nat) : probe_outcome :=
  cmu_probe "fsys0_cmu_probe" fsys0_clocks panic_returns base

/-! ### `CMU_FSYS1` -/

def MUX_SEL_FSYS10 : Nat := 0x0200
def MUX_SEL_FSYS11 : Nat := 0x0204
def MUX_SEL_FSYS12 : Nat := 0x0208
def DIV_FSYS1 : Nat := 0x0600
def ENABLE_ACLK_FSYS1 : Nat := 0x0800
def ENABLE_PCLK_FSYS1 : Nat := 0x0900
def ENABLE_SCLK_FSYS11 : Nat := 0x0A04
def ENABLE_SCLK_FSYS12 : Nat := 0x0A08
def ENABLE_SCLK_FSYS13 : Nat := 0x0A0C

def mout_aclk_fsys1_200_user_p : List String := ["fin_pll", "aclk_fsys1_200"]
def mout_fsys1_group_p : List String := ["fin_pll", "fin_pll_26m", "sclk_phy_fsys1_26m"]
def mout_sclk_mmc0_user_p : List String := ["fin_pll", "sclk_mmc0"]
def mout_sclk_mmc1_user_p : List String := ["fin_pll", "sclk_mmc1"]
def mout_sclk_ufsunipro20_user_p : List String := ["fin_pll", "sclk_ufsunipro20"]
def mout_phyclk_ufs20_tx0_user_p : List String := ["fin_pll", "phyclk_ufs20_tx0_symbol"]
def mout_phyclk_ufs20_rx0_user_p : List String := ["fin_pll", "phyclk_ufs20_rx0_symbol"]
def mout_phyclk_ufs20_rx1_user_p : List String := ["fin_pll", "phyclk_ufs20_rx1_symbol"]

/-- The registrations of `fsys1_cmu_probe`, in the order of its calls. -/
def fsys1_clocks : List clk_reg :=
  [MUX "mout_aclk_fsys1_200_user" mout_aclk_fsys1_200_user_p MUX_SEL_FSYS10 28 1,
   DIV "dout_pclk_fsys1" "mout_aclk_fsys1_200_user" DIV_FSYS1 0 2,
   MUX "mout_fsys1_phyclk_sel1" mout_fsys1_group_p MUX_SEL_FSYS10 16 2,
   MUX "mout_phyclk_ufs20_rx1_symbol_user" mout_phyclk_ufs20_rx1_user_p MUX_SEL_FSYS12 16 1,
   MUX "mout_sclk_ufsunipro20_user" mout_sclk_ufsunipro20_user_p MUX_SEL_FSYS11 20 1,
   MUX "mout_phyclk_ufs20_tx0_symbol_user" mout_phyclk_ufs20_tx0_user_p MUX_SEL_FSYS12 28 1,
   MUX "mout_phyclk_ufs20_rx0_symbol_user" mout_phyclk_ufs20_rx0_user_p MUX_SEL_FSYS12 24 1,
   MUX "mout_sclk_mmc1_user" mout_sclk_mmc1_user_p MUX_SEL_FSYS11 24 1,
   MUX "mout_fsys1_phyclk_sel0" mout_fsys1_group_p MUX_SEL_FSYS10 20 2,
   MUX "mout_sclk_mmc0_user" mout_sclk_mmc0_user_p MUX_SEL_FSYS11 28 1,
   GATE "sclk_ufsunipro20_user" "mout_sclk_ufsunipro20_user" ENABLE_SCLK_FSYS11 20,
   GATE "aclk_mmc1" "mout_aclk_fsys1_200_user" ENABLE_ACLK_FSYS1 29,
   GATE "aclk_mmc0" "mout_aclk_fsys1_200_user" ENABLE_ACLK_FSYS1 30,
   GATE "aclk_ufs20_link" "dout_pclk_fsys1" ENABLE_ACLK_FSYS1 31,
   GATE "pclk_gpio_fsys1" "mout_aclk_fsys1_200_user" ENABLE_PCLK_FSYS1 30,
   GATE "oscclk_phy_clkout_embedded_combo_phy" "fin_pll" ENABLE_SCLK_FSYS12 4,
   GATE "phyclk_ufs20_tx0_symbol_user" "mout_phyclk_ufs20_tx0_symbol_user" ENABLE_SCLK_FSYS12 28,
   GATE "sclk_combo_phy_embedded_26m" "mout_fsys1_phyclk_sel1" ENABLE_SCLK_FSYS13 24,
   GATE "phyclk_ufs20_rx0_symbol_user" "mout_phyclk_ufs20_rx0_symbol_user" ENABLE_SCLK_FSYS12 24,
   GATE "phyclk_ufs20_rx1_symbol_user" "mout_phyclk_ufs20_rx1_symbol_user" ENABLE_SCLK_FSYS12 16]

/-- The function `fsys1_cmu_probe`; `base` is what `dev_read_addr_ptr` returns. -/
def fsys1_cmu_probe (panic_returns : Bool) (base : Nat) : probe_outcome :=
  cmu_probe "fsys1_cmu_probe" fsys1_clocks panic_returns base

/-! ### `CMU_MSCL` -/

def MUX_SEL_MSCL : Nat := 0x0200
def DIV_MSCL : Nat := 0x0600
def ENABLE_ACLK_MSCL : Nat := 0x0800
def ENABLE_PCLK_MSCL : Nat := 0x0900

def mout_aclk_mscl_532_user_p : List String := ["fin_pll", "aclk_mscl_532"]

/-- The registrations of `mscl_cmu_probe`, in the order of its calls. -/
def mscl_clocks : List clk_reg :=
  [MUX "usermux_aclk_mscl_532" mout_aclk_mscl_532_user_p MUX_SEL_MSCL 0 1,
   DIV "dout_pclk_mscl" "usermux_aclk_mscl_532" DIV_MSCL 0 3,
   GATE "pclk_qe_mscl_0" "dout_pclk_mscl" ENABLE_PCLK_MSCL 27,
   GATE "pclk_qe_mscl_1" "dout_pclk_mscl" ENABLE_PCLK_MSCL 26,
   GATE "pclk_axi2acel_bridge" "dout_pclk_mscl" ENABLE_PCLK_MSCL 21,
   GATE "aclk_qe_g2d" "usermux_aclk_mscl_532" ENABLE_ACLK_MSCL 19,
   GATE "aclk_ppmu_mscl_0" "usermux_aclk_mscl_532" ENABLE_ACLK_MSCL 18,
   GATE "pclk_mscl_0" "dout_pclk_mscl" ENABLE_PCLK_MSCL 31,
   GATE "aclk_ppmu_mscl_1" "usermux_aclk_mscl_532" ENABLE_ACLK_MSCL 17,
   GATE "pclk_mscl_1" "dout_pclk_mscl" ENABLE_PCLK_MSCL 30,
   GATE "aclk_g2d" "usermux_aclk_mscl_532" ENABLE_ACLK_MSCL 28,
   GATE "aclk_ahb2apb_mscl1p" "usermux_aclk_mscl_532" ENABLE_ACLK_MSCL 14,
   GATE "aclk_qe_mscl_0" "usermux_aclk_mscl_532" ENABLE_ACLK_MSCL 22,
   GATE "aclk_msclnp_133" "usermux_aclk_mscl_532" ENABLE_ACLK_MSCL 16,
   GATE "aclk_qe_mscl_1" "usermux_aclk_mscl_532" ENABLE_ACLK_MSCL 21,
   GATE "pclk_qe_jpeg" "dout_pclk_mscl" ENABLE_PCLK_MSCL 25,
   GATE "aclk_qe_jpeg" "usermux_aclk_mscl_532" ENABLE_ACLK_MSCL 20,
   GATE "aclk_axi2acel_bridge" "usermux_aclk_mscl_532" ENABLE_ACLK_MSCL 23,
   GATE "aclk_mscl_0" "usermux_aclk_mscl_532" ENABLE_ACLK_MSCL 31,
   GATE "aclk_jpeg" "usermux_aclk_mscl_532" ENABLE_ACLK_MSCL 29,
   GATE "aclk_mscl_1" "usermux_aclk_mscl_532" ENABLE_ACLK_MSCL 30,
   GATE "pclk_g2d" "dout_pclk_mscl" ENABLE_PCLK_MSCL 28,
   GATE "pclk_qe_g2d" "dout_pclk_mscl" ENABLE_PCLK_MSCL 24,
   GATE "aclk_ahb2apb_mscl0p" "usermux_aclk_mscl_532" ENABLE_ACLK_MSCL 15,
   GATE "aclk_xiu_msclx_0" "usermux_aclk_mscl_532" ENABLE_ACLK_MSCL 25,
   GATE "aclk_xiu_msclx_1" "usermux_aclk_mscl_532" ENABLE_ACLK_MSCL 24,
   GATE "pclk_ppmu_mscl_0" "dout_pclk_mscl" ENABLE_PCLK_MSCL 23,
   GATE "pclk_ppmu_mscl_1" "dout_pclk_mscl" ENABLE_PCLK_MSCL 22,
   GATE "pclk_pmu_mscl" "dout_pclk_mscl" ENABLE_PCLK_MSCL 20,
   GATE "aclk_lh_async_si_mscl_1" "usermux_aclk_mscl_532" ENABLE_ACLK_MSCL 26,
   GATE "pclk_jpeg" "dout_pclk_mscl" ENABLE_PCLK_MSCL 29,
   GATE "aclk_lh_async_si_mscl_0" "usermux_aclk_mscl_532" ENABLE_ACLK_MSCL 27]

/-- The function `mscl_cmu_probe`; `base` is what `dev_read_addr_ptr` returns. -/
def mscl_cmu_probe (panic_returns : Bool) (base : Nat) : probe_outcome :=
  cmu_probe "mscl_cmu_probe" mscl_clocks panic_returns base

/-! ### `CMU_AUD` -/

def MUX_SEL_AUD : Nat := 0x0200
def DIV_AUD0 : Nat := 0x0600
def DIV_AUD1 : Nat := 0x0604
def ENABLE_ACLK_AUD : Nat := 0x0800
def ENABLE_PCLK_AUD : Nat := 0x0900
def ENABLE_SCLK_AUD : Nat := 0x0A00

def mout_aud_pll_user_p : List String := ["fin_pll", "fout_aud_pll"]
def mout_aud_group_p : List String := ["dout_aud_cdclk", "ioclk_audiocdclk0"]

/-- The registrations of `aud_cmu_probe`, in the order of its calls. -/
def aud_clocks : List clk_reg :=
  [MUX "mout_aud_pll_user" mout_aud_pll_user_p MUX_SEL_AUD 20 1,
   MUX "mout_sclk_pcm" mout_aud_group_p MUX_SEL_AUD 16 1,
   MUX "mout_sclk_i2s" mout_aud_group_p MUX_SEL_AUD 12 1,
   DIV "dout_aud_cdclk" "mout_aud_pll_user" DIV_AUD1 24 4,
   DIV "dout_aud_ca5" "mout_aud_pll_user" DIV_AUD0 0 4,
   DIV "dout_aud_pclk_dbg" "dout_aud_ca5" DIV_AUD0 8 4,
   DIV "dout_aclk_aud" "dout_aud_ca5" DIV_AUD0 4 4,
   DIV "dout_sclk_i2s" "mout_sclk_i2s" DIV_AUD1 0 4,
   DIV "dout_sclk_uart" "dout_aud_cdclk" DIV_AUD1 12 4,
   DIV "dout_sclk_pcm" "mout_sclk_pcm" DIV_AUD1 4 8,
   DIV "dout_sclk_slimbus" "dout_aud_cdclk" DIV_AUD1 16 5,
   GATE "pclk_smmu_aud" "dout_aclk_aud" ENABLE_PCLK_AUD 31,
   GATE "sclk_uart" "dout_sclk_uart" ENABLE_SCLK_AUD 29,
   GATE "pclk_gpio_aud" "dout_aclk_aud" ENABLE_PCLK_AUD 20,
   GATE "pclk_uart" "dout_aclk_aud" ENABLE_PCLK_AUD 25,
   GATE "pclk_slimbus" "dout_aclk_aud" ENABLE_PCLK_AUD 24,
   GATE "pclk_wdt0" "dout_aclk_aud" ENABLE_PCLK_AUD 23,
   GATE "pclk_wdt1" "dout_aclk_aud" ENABLE_PCLK_AUD 22,
   GATE "pclk_dbg_aud" "dout_aud_pclk_dbg" ENABLE_PCLK_AUD 19,
   GATE "sclk_slimbus" "dout_sclk_slimbus" ENABLE_SCLK_AUD 30,
   GATE "pclk_pcm" "dout_aclk_aud" ENABLE_PCLK_AUD 26,
   GATE "sclk_pcm" "dout_sclk_pcm" ENABLE_SCLK_AUD 27,
   GATE "aclk_smmu_aud" "dout_aclk_aud" ENABLE_ACLK_AUD 27,
   GATE "aclk_dmac" "dout_aclk_aud" ENABLE_ACLK_AUD 31,
   GATE "aclk_acel_lh_async_si_top" "dout_aclk_aud" ENABLE_ACLK_AUD 28,
   GATE "pclk_i2s" "dout_aclk_aud" ENABLE_PCLK_AUD 27,
   GATE "sclk_i2s" "dout_sclk_i2s" ENABLE_SCLK_AUD 28,
   GATE "pclk_timer" "dout_aclk_aud" ENABLE_PCLK_AUD 28]

/-- The function `aud_cmu_probe`; `base` is what `dev_read_addr_ptr` returns. -/
def aud_cmu_probe (panic_returns : Bool) (base : Nat) : probe_outcome :=
  cmu_probe "aud_cmu_probe" aud_clocks panic_returns base

/-- The clock lists of the eleven CMU builders. -/
def cmu_builders : List (List clk_reg) :=
  [topc_clocks, top0_clocks, top1_clocks, ccore_clocks, peric0_clocks, peric1_clocks,
   peris_clocks, fsys0_clocks, fsys1_clocks, mscl_clocks, aud_clocks]

/-- Every clock registered by the eleven CMU builders taken together. -/
def all_clocks : List clk_reg :=
  topc_clocks ++ top0_clocks ++ top1_clocks ++ ccore_clocks ++ peric0_clocks ++
    peric1_clocks ++ peris_clocks ++ fsys0_clocks ++ fsys1_clocks ++ mscl_clocks ++ aud_clocks

/-- The eleven CMU builders, each with the name it gives to `panic`. -/
def cmu_probe_functions : List (String × (Bool → Nat → probe_outcome)) :=
  [("topc_cmu_probe", topc_cmu_probe), ("top0_cmu_probe", top0_cmu_probe),
   ("top1_cmu_probe", top1_cmu_probe), ("ccore_cmu_probe", ccore_cmu_probe),
   ("peric0_cmu_probe", peric0_cmu_probe), ("peric1_cmu_probe", peric1_cmu_probe),
   ("peris_cmu_probe", peris_cmu_probe), ("fsys0_cmu_probe", fsys0_cmu_probe),
   ("fsys1_cmu_probe", fsys1_cmu_probe), ("mscl_cmu_probe", mscl_cmu_probe),
   ("aud_cmu_probe", aud_cmu_probe)]

/-- A declared parent reference: `b` is a parent of the registered clock `a`. -/
def parent_edge (a b : String) : Prop :=
  ∃ c ∈ all_clocks, c.name = a ∧ b ∈ c.parents

/-- Whether the selector field of a mux can address each of its parents. -/
def clk_reg.mux_ok : clk_reg → Bool
  | .mux _ ps _ _ w => decide (1 ≤ ps.length ∧ ps.length ≤ 2 ^ w)
  | _ => true

/-- The bit-field of a registration: its kind (0 mux, 1 divider, 2 gate), its
register offset, its first bit and the bit after its last. -/
def clk_reg.field : clk_reg → Option (Nat × Nat × Nat × Nat)
  | .mux _ _ o s w => some (0, o, s, s + w)
  | .div _ _ o s w => some (1, o, s, s + w)
  | .gate _ _ o b => some (2, o, b, b + 1)
  | _ => none

/-- Whether a bit-field lies within the 32 bits of its register. -/
def clk_reg.field_fits (c : clk_reg) : Bool :=
  match c.field with
  | some (_, _, _, hi) => decide (hi ≤ 32)
  | none => true

/-- Whether two registrations of the same kind at the same register offset have
disjoint bit ranges. -/
def clk_reg.disjoint (a b : clk_reg) : Bool :=
  match a.field, b.field with
  | some (k, o, lo, hi), some (k', o', lo', hi') =>
    decide (k = k' → o = o' → hi ≤ lo' ∨ hi' ≤ lo)
  | _, _ => true

/-- The depth of each registered clock below the external sources: one more
than the largest depth among its parents, an external source having depth 0. -/
def clock_depths : List (String × Nat) :=
  [("fout_bus0_pll", 1), ("fout_cc_pll", 1), ("fout_bus1_pll", 1), ("fout_mfc_pll", 1),
   ("fout_aud_pll", 1), ("mout_topc_aud_pll", 2), ("mout_topc_bus0_pll", 2),
   ("mout_topc_bus1_pll", 2), ("mout_topc_cc_pll", 2), ("mout_topc_mfc_pll", 2),
   ("ffac_topc_bus1_pll_div2", 3), ("ffac_topc_cc_pll_div2", 3), ("ffac_topc_mfc_pll_div2", 3),
   ("ffac_topc_bus0_pll_div2", 3), ("ffac_topc_bus0_pll_div4", 4), ("mout_topc_bus0_pll_half", 5),
   ("mout_topc_bus1_pll_half", 4), ("mout_topc_cc_pll_half", 4), ("mout_topc_mfc_pll_half", 4),
   ("mout_topc_bus0_pll_out", 4), ("mout_aclk_ccore_133", 6), ("mout_aclk_mscl_532", 6),
   ("mout_aclk_peris_66", 6), ("dout_aclk_ccore_133", 7), ("dout_aclk_mscl_532", 7),
   ("dout_aclk_peris_66", 7), ("dout_sclk_bus0_pll", 5), ("dout_sclk_bus1_pll", 3),
   ("dout_sclk_cc_pll", 3), ("dout_sclk_mfc_pll", 3), ("dout_sclk_aud_pll", 3),
   ("aclk_ccore_133", 8), ("aclk_mscl_532", 8), ("aclk_peris_66", 8), ("sclk_aud_pll", 4),
   ("sclk_mfc_pll_b", 4), ("sclk_mfc_pll_a", 4), ("sclk_bus1_pll_b", 4), ("sclk_bus1_pll_a", 4),
   ("sclk_bus0_pll_b", 6), ("sclk_bus0_pll_a", 6), ("sclk_cc_pll_b", 4), ("sclk_cc_pll_a", 4),
   ("mout_top0_bus1_pll_user", 5), ("mout_top0_cc_pll_user", 5), ("mout_top0_bus0_pll_user", 7),
   ("mout_top0_mfc_pll_user", 5), ("ffac_top0_bus0_pll_div2", 8), ("ffac_top0_bus1_pll_div2", 6),
   ("ffac_top0_cc_pll_div2", 6), ("ffac_top0_mfc_pll_div2", 6), ("mout_top0_bus1_pll_half", 7),
   ("mout_top0_cc_pll_half", 7), ("mout_top0_aud_pll_user", 5), ("mout_top0_bus0_pll_half", 9),
   ("mout_top0_mfc_pll_half", 7), ("mout_aclk_peric1_66", 10), ("mout_aclk_peric0_66", 10),
   ("mout_sclk_spdif", 10), ("mout_sclk_pcm1", 10), ("mout_sclk_i2s1", 10),
   ("mout_sclk_spi1", 10), ("mout_sclk_spi0", 10), ("mout_sclk_spi3", 10), ("mout_sclk_spi2", 10),
   ("mout_sclk_uart3", 10), ("mout_sclk_uart2", 10), ("mout_sclk_uart1", 10),
   ("mout_sclk_uart0", 10), ("mout_sclk_spi4", 10), ("dout_aclk_peric1_66", 11),
   ("dout_aclk_peric0_66", 11), ("dout_sclk_spdif", 11), ("dout_sclk_pcm1", 11),
   ("dout_sclk_i2s1", 11), ("dout_sclk_spi1", 11), ("dout_sclk_spi0", 11), ("dout_sclk_spi3", 11),
   ("dout_sclk_spi2", 11), ("dout_sclk_uart3", 11), ("dout_sclk_uart2", 11),
   ("dout_sclk_uart1", 11), ("dout_sclk_uart0", 11), ("dout_sclk_spi4", 11),
   ("aclk_peric0_66", 12), ("aclk_peric1_66", 12), ("sclk_spdif", 12), ("sclk_pcm1", 12),
   ("sclk_i2s1", 12), ("sclk_spi1", 12), ("sclk_spi0", 12), ("sclk_spi3", 12), ("sclk_spi2", 12),
   ("sclk_uart3", 12), ("sclk_uart2", 12), ("sclk_uart1", 12), ("sclk_uart0", 12),
   ("sclk_spi4", 12), ("mout_top1_mfc_pll_user", 5), ("mout_top1_cc_pll_user", 5),
   ("mout_top1_bus1_pll_user", 5), ("mout_top1_bus0_pll_user", 7), ("mout_top1_mfc_pll_half", 7),
   ("mout_top1_cc_pll_half", 7), ("mout_top1_bus1_pll_half", 7), ("mout_top1_bus0_pll_half", 9),
   ("mout_aclk_fsys1_200", 10), ("mout_aclk_fsys0_200", 10), ("mout_sclk_phy_fsys0_26m", 10),
   ("mout_sclk_mmc2", 10), ("mout_sclk_usbdrd300", 10), ("mout_sclk_phy_fsys1", 10),
   ("mout_sclk_ufsunipro20", 10), ("mout_sclk_mmc1", 10), ("mout_sclk_mmc0", 10),
   ("mout_sclk_phy_fsys1_26m", 10), ("dout_aclk_fsys1_200", 11), ("dout_aclk_fsys0_200", 11),
   ("dout_sclk_phy_fsys1", 11), ("dout_sclk_ufsunipro20", 11), ("dout_sclk_mmc2", 11),
   ("dout_sclk_usbdrd300", 11), ("dout_sclk_mmc1", 11), ("dout_sclk_mmc0", 11),
   ("dout_sclk_phy_fsys1_26m", 11), ("sclk_mmc2", 12), ("sclk_usbdrd300", 12),
   ("sclk_phy_fsys1", 12), ("sclk_ufsunipro20", 12), ("sclk_mmc1", 12), ("sclk_mmc0", 12),
   ("aclk_fsys0_200", 12), ("aclk_fsys1_200", 12), ("sclk_phy_fsys1_26m", 12),
   ("ffac_top1_bus0_pll_div2", 8), ("ffac_top1_bus1_pll_div2", 6), ("ffac_top1_cc_pll_div2", 6),
   ("ffac_top1_mfc_pll_div2", 6), ("mout_aclk_ccore_133_user", 9), ("pclk_rtc", 10),
   ("mout_aclk_peric0_66_user", 13), ("mout_sclk_uart0_user", 13), ("pclk_hsi2c0", 14),
   ("pclk_hsi2c1", 14), ("pclk_hsi2c4", 14), ("pclk_hsi2c5", 14), ("pclk_hsi2c9", 14),
   ("pclk_hsi2c10", 14), ("pclk_hsi2c11", 14), ("pclk_uart0", 14), ("pclk_adcif", 14),
   ("pclk_pwm", 14), ("sclk_uart0_user", 14), ("sclk_pwm", 1), ("mout_aclk_peric1_66_user", 13),
   ("mout_sclk_uart1_user", 13), ("mout_sclk_uart2_user", 13), ("mout_sclk_uart3_user", 13),
   ("mout_sclk_spi0_user", 13), ("mout_sclk_spi1_user", 13), ("mout_sclk_spi2_user", 13),
   ("mout_sclk_spi3_user", 13), ("mout_sclk_spi4_user", 13), ("pclk_hsi2c2", 14),
   ("pclk_hsi2c3", 14), ("pclk_hsi2c6", 14), ("pclk_hsi2c7", 14), ("pclk_hsi2c8", 14),
   ("pclk_uart1", 14), ("pclk_uart2", 14), ("pclk_uart3", 14), ("pclk_spi0", 14),
   ("pclk_spi1", 14), ("pclk_spi2", 14), ("pclk_spi3", 14), ("pclk_spi4", 14), ("pclk_i2s1", 14),
   ("pclk_pcm1", 14), ("pclk_spdif", 14), ("sclk_uart1_user", 14), ("sclk_uart2_user", 14),
   ("sclk_uart3_user", 14), ("sclk_spi0_user", 14), ("sclk_spi1_user", 14),
   ("sclk_spi2_user", 14), ("sclk_spi3_user", 14), ("sclk_spi4_user", 14), ("sclk_i2s1_user", 13),
   ("sclk_pcm1_user", 13), ("sclk_spdif_user", 13), ("mout_aclk_peris_66_user", 9),
   ("pclk_wdt", 10), ("pclk_mct", 10), ("pclk_tmu_apbif", 10), ("pclk_chipid", 10),
   ("sclk_chipid", 1), ("sclk_tmu", 1), ("mout_phyclk_usbdrd300_udrd30_phyclk_user", 1),
   ("mout_aclk_fsys0_200_user", 13), ("mout_phyclk_usbdrd300_udrd30_pipe_pclk_user", 1),
   ("mout_sclk_usbdrd300_user", 13), ("mout_sclk_mmc2_user", 13),
   ("aclk_axius_usbdrd30x_fsys0x", 14), ("sclk_usbdrd300_refclk", 1), ("aclk_mmc2", 14),
   ("aclk_usbdrd300", 14), ("phyclk_usbdrd300_udrd30_pipe_pclk_user", 2), ("aclk_pdma0", 14),
   ("aclk_pdma1", 14), ("oscclk_phy_clkout_usb30_phy", 1),
   ("phyclk_usbdrd300_udrd30_phyclk_user", 2), ("sclk_usbdrd300_suspendclk", 14),
   ("mout_aclk_fsys1_200_user", 13), ("dout_pclk_fsys1", 14), ("mout_fsys1_phyclk_sel1", 13),
   ("mout_phyclk_ufs20_rx1_symbol_user", 1), ("mout_sclk_ufsunipro20_user", 13),
   ("mout_phyclk_ufs20_tx0_symbol_user", 1), ("mout_phyclk_ufs20_rx0_symbol_user", 1),
   ("mout_sclk_mmc1_user", 13), ("mout_fsys1_phyclk_sel0", 13), ("mout_sclk_mmc0_user", 13),
   ("sclk_ufsunipro20_user", 14), ("aclk_mmc1", 14), ("aclk_mmc0", 14), ("aclk_ufs20_link", 15),
   ("pclk_gpio_fsys1", 14), ("oscclk_phy_clkout_embedded_combo_phy", 1),
   ("phyclk_ufs20_tx0_symbol_user", 2), ("sclk_combo_phy_embedded_26m", 14),
   ("phyclk_ufs20_rx0_symbol_user", 2), ("phyclk_ufs20_rx1_symbol_user", 2),
   ("usermux_aclk_mscl_532", 9), ("dout_pclk_mscl", 10), ("pclk_qe_mscl_0", 11),
   ("pclk_qe_mscl_1", 11), ("pclk_axi2acel_bridge", 11), ("aclk_qe_g2d", 10),
   ("aclk_ppmu_mscl_0", 10), ("pclk_mscl_0", 11), ("aclk_ppmu_mscl_1", 10), ("pclk_mscl_1", 11),
   ("aclk_g2d", 10), ("aclk_ahb2apb_mscl1p", 10), ("aclk_qe_mscl_0", 10), ("aclk_msclnp_133", 10),
   ("aclk_qe_mscl_1", 10), ("pclk_qe_jpeg", 11), ("aclk_qe_jpeg", 10),
   ("aclk_axi2acel_bridge", 10), ("aclk_mscl_0", 10), ("aclk_jpeg", 10), ("aclk_mscl_1", 10),
   ("pclk_g2d", 11), ("pclk_qe_g2d", 11), ("aclk_ahb2apb_mscl0p", 10), ("aclk_xiu_msclx_0", 10),
   ("aclk_xiu_msclx_1", 10), ("pclk_ppmu_mscl_0", 11), ("pclk_ppmu_mscl_1", 11),
   ("pclk_pmu_mscl", 11), ("aclk_lh_async_si_mscl_1", 10), ("pclk_jpeg", 11),
   ("aclk_lh_async_si_mscl_0", 10), ("mout_aud_pll_user", 2), ("mout_sclk_pcm", 4),
   ("mout_sclk_i2s", 4), ("dout_aud_cdclk", 3), ("dout_aud_ca5", 3), ("dout_aud_pclk_dbg", 4),
   ("dout_aclk_aud", 4), ("dout_sclk_i2s", 5), ("dout_sclk_uart", 4), ("dout_sclk_pcm", 5),
   ("dout_sclk_slimbus", 4), ("pclk_smmu_aud", 5), ("sclk_uart", 5), ("pclk_gpio_aud", 5),
   ("pclk_uart", 5), ("pclk_slimbus", 5), ("pclk_wdt0", 5), ("pclk_wdt1", 5), ("pclk_dbg_aud", 5),
   ("sclk_slimbus", 5), ("pclk_pcm", 5), ("sclk_pcm", 6), ("aclk_smmu_aud", 5), ("aclk_dmac", 5),
   ("aclk_acel_lh_async_si_top", 5), ("pclk_i2s", 5), ("sclk_i2s", 6), ("pclk_timer", 5)]

/-- A number for a name: its characters read as the digits of a numeral in
base 2^21. -/
def name_key (s : String) : Nat := s.data.foldl (fun h c => h * 2 ^ 21 + c.toNat) 0

/-- The table `clock_depths` with each name replaced by its number. -/
def clock_depths_keyed : List (Nat × Nat) := clock_depths.map (fun e => (name_key e.1, e.2))

/-- The depth of a name: that of `clock_depths`, found by the number of the
name, and 0 for any other name. -/
def clock_depth (n : String) : Nat :=
  match clock_depths_keyed.lookup (name_key n) with
  | some k => k
  | none => 0

/-! # Theorems -/

/-! ## Bits -/

theorem testBit_of_lt {x n i : Nat} (h : x < 2 ^ n) (hi : n ≤ i) : x.testBit i = false :=
  Nat.testBit_lt_two_pow (lt_of_lt_of_le h (Nat.pow_le_pow_right (by norm_num) hi))

theorem testBit_u32 (x i : Nat) : (u32 x).testBit i = (decide (i < 32) && x.testBit i) := by
  unfold u32; exact Nat.testBit_mod_two_pow x 32 i

theorem testBit_not32 (x i : Nat) :
    (not32 x).testBit i = (decide (i < 32) ^^ x.testBit i) := by
  unfold not32
  rw [Nat.testBit_xor, show (0xFFFFFFFF : Nat) = 2 ^ 32 - 1 from rfl,
    Nat.testBit_two_pow_sub_one]

theorem eq_of_testBit_lt {x y n : Nat} (hx : x < 2 ^ n) (hy : y < 2 ^ n)
    (h : ∀ i, i < n → x.testBit i = y.testBit i) : x = y := by
  apply Nat.eq_of_testBit_eq
  intro i
  by_cases hi : i < n
  · exact h i hi
  · rw [testBit_of_lt hx (not_lt.mp hi), testBit_of_lt hy (not_lt.mp hi)]

theorem and_not32_lt (x m : Nat) (hx : x < 2 ^ 32) : x &&& not32 m < 2 ^ 32 :=
  lt_of_le_of_lt Nat.and_le_left hx

theorem u32_lt (x : Nat) : u32 x < 2 ^ 32 := Nat.mod_lt _ (by norm_num)

/-- Testing `x & BIT(n)` is testing bit `n` of `x`. -/
theorem and_BIT_ne_zero (x n : Nat) : x &&& BIT n ≠ 0 ↔ x.testBit n = true := by
  unfold BIT
  rw [Nat.shiftLeft_eq, Nat.one_mul, Nat.and_two_pow]
  cases x.testBit n <;> simp

/-- A field of a register, read by shift and mask, in terms of `/` and `%`. -/
theorem field_eq (c sh w : Nat) : (c >>> sh) &&& (2 ^ w - 1) = c / 2 ^ sh % 2 ^ w := by
  rw [Nat.and_pow_two_sub_one_eq_mod, Nat.shiftRight_eq_div_pow]

/-! ## Table lookup -/

theorem get_pll_settings_loop_none (rate : Nat) :
    ∀ (n : Nat) (l : List samsung_pll_rate_table),
      (∀ e ∈ l.take n, e.rate ≠ rate) → get_pll_settings_loop rate n l = none
  | 0, _, _ => by simp [get_pll_settings_loop]
  | _ + 1, [], _ => by simp [get_pll_settings_loop]
  | n + 1, e :: es, h => by
    have he : ¬ rate = e.rate := fun hr => h e (by simp) hr.symm
    have ih := get_pll_settings_loop_none rate n es
      (fun x hx => h x (by simp [List.take_succ_cons, hx]))
    simp [get_pll_settings_loop, he, ih]

theorem get_pll_settings_loop_some (rate : Nat) :
    ∀ (n : Nat) (l : List samsung_pll_rate_table) (e : samsung_pll_rate_table),
      get_pll_settings_loop rate n l = some e → e ∈ l.take n ∧ e.rate = rate
  | 0, _, _, h => by simp [get_pll_settings_loop] at h
  | _ + 1, [], _, h => by simp [get_pll_settings_loop] at h
  | n + 1, x :: xs, e, h => by
    by_cases hx : rate = x.rate
    · simp [get_pll_settings_loop, hx] at h
      subst h
      exact ⟨by simp, hx.symm⟩
    · simp [get_pll_settings_loop, hx] at h
      have ih := get_pll_settings_loop_some rate n xs e h
      exact ⟨by simp [List.take_succ_cons, ih.1], ih.2⟩

theorem get_pll_settings_loop_found (rate : Nat) :
    ∀ (n : Nat) (l : List samsung_pll_rate_table),
      (∃ e ∈ l.take n, e.rate = rate) → ∃ e, get_pll_settings_loop rate n l = some e
  | 0, _, h => by simp at h
  | _ + 1, [], h => by simp at h
  | n + 1, x :: xs, h => by
    by_cases hx : rate = x.rate
    · exact ⟨x, by simp [get_pll_settings_loop, hx]⟩
    · obtain ⟨e, he, hr⟩ := h
      simp only [List.take_succ_cons, List.mem_cons] at he
      rcases he with he | he
      · exact absurd (he ▸ hr.symm) hx
      · obtain ⟨e', he'⟩ := get_pll_settings_loop_found rate n xs ⟨e, he, hr⟩
        exact ⟨e', by simp [get_pll_settings_loop, hx, he']⟩

/-! ## The lock wait -/

theorem poll_loop_seen (hw : Hw) (mask : Nat) :
    ∀ (n i : Nat), (∃ k, k ≤ n ∧ u32 (hw.status (i + k)) &&& mask ≠ 0) →
      (poll_loop hw mask n i).1 = 0
  | 0, i, h => by
    obtain ⟨k, hk, hb⟩ := h
    have : k = 0 := by omega
    subst this
    unfold poll_loop
    simp only [Nat.add_zero] at hb
    simp [hb]
  | n + 1, i, h => by
    unfold poll_loop
    by_cases h0 : u32 (hw.status i) &&& mask ≠ 0
    · simp [h0]
    · obtain ⟨k, hk, hb⟩ := h
      have hk0 : k ≠ 0 := by
        rintro rfl
        exact h0 (by simpa using hb)
      have ih := poll_loop_seen hw mask n (i + 1)
        ⟨k - 1, by omega, by
          have : i + 1 + (k - 1) = i + k := by omega
          rw [this]; exact hb⟩
      simpa [h0] using ih

theorem poll_loop_never (hw : Hw) (mask : Nat) :
    ∀ (n i : Nat), (∀ k, k ≤ n → u32 (hw.status (i + k)) &&& mask = 0) →
      (poll_loop hw mask n i).1 = -(ETIMEDOUT : Int)
  | 0, i, h => by
    have h0 := h 0 (le_refl 0)
    simp only [Nat.add_zero] at h0
    unfold poll_loop
    simp [h0]
  | n + 1, i, h => by
    have h0 := h 0 (Nat.zero_le _)
    simp only [Nat.add_zero] at h0
    unfold poll_loop
    have ih := poll_loop_never hw mask n (i + 1) (fun k hk => by
      have := h (k + 1) (by omega)
      have e : i + 1 + k = i + (k + 1) := by omega
      rw [e]; exact this)
    simpa [h0] using ih

theorem poll_loop_trace (hw : Hw) (mask : Nat) :
    ∀ (n i : Nat), (poll_loop hw mask n i).2 ≠ [] ∧
      ∀ ev ∈ (poll_loop hw mask n i).2, ev.isPoll = true
  | 0, i => by
    unfold poll_loop
    simp [Event.isPoll]
  | n + 1, i => by
    unfold poll_loop
    by_cases h0 : u32 (hw.status i) &&& mask ≠ 0
    · simp [h0, Event.isPoll]
    · have ih := poll_loop_trace hw mask n (i + 1)
      simp only [h0, if_false]
      refine ⟨by simp, ?_⟩
      intro ev hev
      simp only [List.mem_cons] at hev
      rcases hev with rfl | hev
      · rfl
      · exact ih.2 ev hev

/-! ## Register words written by `set_rate` -/

theorem sdiv_write (tmp s : Nat) (ht : tmp < 2 ^ 32) (hs : s < 2 ^ 3) :
    (tmp &&& not32 (0x7 <<< 0)) ||| u32 (s <<< 0) = 2 ^ 3 * (tmp / 2 ^ 3) + s := by
  have hs' : ∀ k, 3 ≤ k → s.testBit k = false := fun k hk => testBit_of_lt hs hk
  apply eq_of_testBit_lt (n := 32)
  · exact Nat.or_lt_two_pow (and_not32_lt _ _ ht) (u32_lt _)
  · omega
  · intro i hi
    rw [Nat.testBit_mul_pow_two_add _ (by omega)]
    simp only [← Nat.shiftRight_eq_div_pow, show (0x7 : Nat) = 2 ^ 3 - 1 from rfl,
      Nat.testBit_and, Nat.testBit_or, Nat.testBit_shiftLeft, testBit_u32,
      testBit_not32, Nat.testBit_shiftRight, Nat.testBit_two_pow_sub_one]
    interval_cases i <;> simp [hs']

theorem pms_write (tmp m p s : Nat) (ht : tmp < 2 ^ 32) (hm : m < 2 ^ 10)
    (hp : p < 2 ^ 6) (hs : s < 2 ^ 3) :
    (tmp &&& not32 ((0x3FF <<< 16) ||| (0x3F <<< 8) ||| (0x7 <<< 0))) |||
      (u32 (m <<< 16) ||| u32 (p <<< 8) ||| u32 (s <<< 0)) =
    2 ^ 26 * (tmp / 2 ^ 26) + (2 ^ 16 * m + (2 ^ 14 * (tmp / 2 ^ 14 % 2 ^ 2) +
      (2 ^ 8 * p + (2 ^ 3 * (tmp / 2 ^ 3 % 2 ^ 5) + s)))) := by
  have hm' : ∀ k, 10 ≤ k → m.testBit k = false := fun k hk => testBit_of_lt hm hk
  have hp' : ∀ k, 6 ≤ k → p.testBit k = false := fun k hk => testBit_of_lt hp hk
  have hs' : ∀ k, 3 ≤ k → s.testBit k = false := fun k hk => testBit_of_lt hs hk
  apply eq_of_testBit_lt (n := 32)
  · exact Nat.or_lt_two_pow (and_not32_lt _ _ ht)
      (Nat.or_lt_two_pow (Nat.or_lt_two_pow (u32_lt _) (u32_lt _)) (u32_lt _))
  · omega
  · intro i hi
    rw [Nat.testBit_mul_pow_two_add _ (by omega), Nat.testBit_mul_pow_two_add _ (by omega),
      Nat.testBit_mul_pow_two_add _ (by omega), Nat.testBit_mul_pow_two_add _ (by omega),
      Nat.testBit_mul_pow_two_add _ (by omega)]
    simp only [← Nat.shiftRight_eq_div_pow, show (0x3FF : Nat) = 2 ^ 10 - 1 from rfl,
      show (0x3F : Nat) = 2 ^ 6 - 1 from rfl, show (0x7 : Nat) = 2 ^ 3 - 1 from rfl,
      Nat.testBit_and, Nat.testBit_or, Nat.testBit_shiftLeft, testBit_u32,
      testBit_not32, Nat.testBit_mod_two_pow, Nat.testBit_shiftRight,
      Nat.testBit_two_pow_sub_one]
    interval_cases i <;> simp [hm', hp', hs']

theorem pll35xx_s_word_eq (tmp : Nat) (rate : samsung_pll_rate_table) (ht : tmp < 2 ^ 32)
    (hs : rate.sdiv < 2 ^ 3) :
    pll35xx_s_word tmp rate = 2 ^ 3 * (tmp / 2 ^ 3) + rate.sdiv :=
  sdiv_write tmp rate.sdiv ht hs

theorem pll35xx_pms_word_eq (tmp : Nat) (rate : samsung_pll_rate_table) (ht : tmp < 2 ^ 32)
    (hm : rate.mdiv < 2 ^ 10) (hp : rate.pdiv < 2 ^ 6) (hs : rate.sdiv < 2 ^ 3) :
    pll35xx_pms_word tmp rate =
      2 ^ 26 * (tmp / 2 ^ 26) + (2 ^ 16 * rate.mdiv + (2 ^ 14 * (tmp / 2 ^ 14 % 2 ^ 2) +
        (2 ^ 8 * rate.pdiv + (2 ^ 3 * (tmp / 2 ^ 3 % 2 ^ 5) + rate.sdiv)))) :=
  pms_write tmp rate.mdiv rate.pdiv rate.sdiv ht hm hp hs

/-! ## The paths of `samsung_pll35xx_set_rate` -/

theorem pll35xx_mp_change_false (rate : samsung_pll_rate_table) (c : Nat) :
    samsung_pll35xx_mp_change rate c = false ↔
      c / 2 ^ 16 % 2 ^ 10 = rate.mdiv ∧ c / 2 ^ 8 % 2 ^ 6 = rate.pdiv := by
  unfold samsung_pll35xx_mp_change PLL35XX_MDIV_SHIFT PLL35XX_PDIV_SHIFT
    PLL35XX_MDIV_MASK PLL35XX_PDIV_MASK
  rw [show (0x3FF : Nat) = 2 ^ 10 - 1 from rfl, show (0x3F : Nat) = 2 ^ 6 - 1 from rfl,
    field_eq, field_eq]
  simp only [decide_eq_false_iff_not, not_or, not_not, ne_eq]
  constructor
  · rintro ⟨h1, h2⟩; exact ⟨h1.symm, h2.symm⟩
  · rintro ⟨h1, h2⟩; exact ⟨h1.symm, h2.symm⟩

theorem pll35xx_set_rate_none (pll : samsung_clk_pll) (hw : Hw) (r : Regs) (drate : Nat)
    (h : samsung_get_pll_settings pll drate = none) :
    samsung_pll35xx_set_rate pll hw r drate =
      { ret := ulong_of_int (-(EINVAL : Int)), regs := r, trace := [] } := by
  simp [samsung_pll35xx_set_rate, h]

theorem pll35xx_set_rate_s_only (pll : samsung_clk_pll) (hw : Hw) (r : Regs) (drate : Nat)
    (e : samsung_pll_rate_table) (h : samsung_get_pll_settings pll drate = some e)
    (hc : samsung_pll35xx_mp_change e r.con = false) :
    samsung_pll35xx_set_rate pll hw r drate =
      { ret := 0, regs := { r with con := pll35xx_s_word r.con e },
        trace := [Event.read Reg.con r.con, Event.write Reg.con (pll35xx_s_word r.con e)] } := by
  simp [samsung_pll35xx_set_rate, h, hc, pll35xx_s_word]

theorem pll35xx_set_rate_full (pll : samsung_clk_pll) (hw : Hw) (r : Regs) (drate : Nat)
    (e : samsung_pll_rate_table) (h : samsung_get_pll_settings pll drate = some e)
    (hc : samsung_pll35xx_mp_change e r.con = true) :
    samsung_pll35xx_set_rate pll hw r drate =
      if pll35xx_pms_word r.con e &&& BIT pll.enable_offs ≠ 0 then
        { ret := ulong_of_int (readl_poll_timeout hw (BIT pll.lock_offs)).1,
          regs := { r with lock := u32 (e.pdiv * PLL35XX_LOCK_FACTOR),
                           con := pll35xx_pms_word r.con e },
          trace := [Event.read Reg.con r.con,
            Event.write Reg.lock (u32 (e.pdiv * PLL35XX_LOCK_FACTOR)),
            Event.write Reg.con (pll35xx_pms_word r.con e)] ++
            (readl_poll_timeout hw (BIT pll.lock_offs)).2 }
      else
        { ret := 0,
          regs := { r with lock := u32 (e.pdiv * PLL35XX_LOCK_FACTOR),
                           con := pll35xx_pms_word r.con e },
          trace := [Event.read Reg.con r.con,
            Event.write Reg.lock (u32 (e.pdiv * PLL35XX_LOCK_FACTOR)),
            Event.write Reg.con (pll35xx_pms_word r.con e)] } := by
  simp [samsung_pll35xx_set_rate, h, hc, pll35xx_pms_word]

/-- After `samsung_pll35xx_set_rate` has found an entry whose fields fit the
field widths, the control word holds the fields of that entry. -/
theorem pll35xx_set_rate_fields (pll : samsung_clk_pll) (hw : Hw) (r : Regs) (drate : Nat)
    (e : samsung_pll_rate_table) (h : samsung_get_pll_settings pll drate = some e)
    (hcon : r.con < 2 ^ 32) (hm : e.mdiv < 2 ^ 10) (hp : e.pdiv < 2 ^ 6)
    (hs : e.sdiv < 2 ^ 3) :
    (samsung_pll35xx_set_rate pll hw r drate).regs.con / 2 ^ 16 % 2 ^ 10 = e.mdiv ∧
    (samsung_pll35xx_set_rate pll hw r drate).regs.con / 2 ^ 8 % 2 ^ 6 = e.pdiv ∧
    (samsung_pll35xx_set_rate pll hw r drate).regs.con % 2 ^ 3 = e.sdiv := by
  cases hc : samsung_pll35xx_mp_change e r.con
  · rw [pll35xx_set_rate_s_only pll hw r drate e h hc]
    obtain ⟨h1, h2⟩ := (pll35xx_mp_change_false e r.con).mp hc
    simp only [pll35xx_s_word_eq r.con e hcon hs]
    omega
  · rw [pll35xx_set_rate_full pll hw r drate e h hc]
    have hw := pll35xx_pms_word_eq r.con e hcon hm hp hs
    split <;> simp only [hw] <;> omega

/-! ## `samsung_pll35xx_recalc_rate` -/

theorem pll35xx_recalc_of_fields (fin : Nat) (r : Regs)
    (hp : r.con / 2 ^ 8 % 2 ^ 6 ≠ 0) (hf : fin * (r.con / 2 ^ 16 % 2 ^ 10) < 2 ^ 64) :
    samsung_pll35xx_recalc_rate fin r =
      some (fin * (r.con / 2 ^ 16 % 2 ^ 10) /
        ((r.con / 2 ^ 8 % 2 ^ 6) * 2 ^ (r.con % 2 ^ 3))) := by
  unfold samsung_pll35xx_recalc_rate PLL35XX_MDIV_SHIFT PLL35XX_PDIV_SHIFT PLL35XX_SDIV_SHIFT
    PLL35XX_MDIV_MASK PLL35XX_PDIV_MASK PLL35XX_SDIV_MASK
  rw [show (0x3FF : Nat) = 2 ^ 10 - 1 from rfl, show (0x3F : Nat) = 2 ^ 6 - 1 from rfl,
    show (0x7 : Nat) = 2 ^ 3 - 1 from rfl]
  simp only [field_eq, Nat.pow_zero, Nat.div_one]
  have hs : r.con % 2 ^ 3 < 8 := Nat.mod_lt _ (by norm_num)
  have hp6 : r.con / 2 ^ 8 % 2 ^ 6 < 64 := Nat.mod_lt _ (by norm_num)
  have h2 : 2 ^ (r.con % 2 ^ 3) ≤ 2 ^ 7 := Nat.pow_le_pow_right (by norm_num) (by omega)
  have h21 : 1 ≤ 2 ^ (r.con % 2 ^ 3) := Nat.one_le_two_pow
  have hprod : (r.con / 2 ^ 8 % 2 ^ 6) * 2 ^ (r.con % 2 ^ 3) < 2 ^ 32 := by
    calc (r.con / 2 ^ 8 % 2 ^ 6) * 2 ^ (r.con % 2 ^ 3) ≤ 63 * 2 ^ 7 :=
          Nat.mul_le_mul (by omega) h2
      _ < 2 ^ 32 := by norm_num
  have hpos : (r.con / 2 ^ 8 % 2 ^ 6) * 2 ^ (r.con % 2 ^ 3) ≠ 0 :=
    Nat.mul_ne_zero hp (by omega)
  have hmul : u64 (u64 fin * (r.con / 2 ^ 16 % 2 ^ 10)) = fin * (r.con / 2 ^ 16 % 2 ^ 10) := by
    unfold u64
    rw [Nat.mod_mul_mod, Nat.mod_eq_of_lt hf]
  rw [hmul, Nat.shiftLeft_eq]
  unfold do_div u32
  rw [Nat.mod_eq_of_lt hprod, if_neg hpos]

/-! ## Claims -/

/-- C1: for every PLL sub-type, every rate table and every register state, a
`set_rate` to a rate that no entry of the PLL's table has fails with `-EINVAL`
(as an `unsigned long`, `2 ^ 64 - 22`) and accesses no register at all: the
registers are unchanged and the trace is empty. -/
theorem set_rate_invalid_rate (pll : samsung_clk_pll) (hw : Hw) (r : Regs) (drate : Nat)
    (h : ∀ e ∈ pll.rate_table.take pll.rate_count, e.rate ≠ drate) :
    pll_set_rate pll hw r drate =
      some { ret := ulong_of_int (-(EINVAL : Int)), regs := r, trace := [] } ∧
    ulong_of_int (-(EINVAL : Int)) = 2 ^ 64 - 22 := by
  have hnone : samsung_get_pll_settings pll drate = none :=
    get_pll_settings_loop_none drate pll.rate_count pll.rate_table h
  refine ⟨?_, by decide⟩
  unfold pll_set_rate
  cases ht : pll.type <;>
    simp [driver_ops, clk_pll3xxx_ops, clk_pll1460x_ops, samsung_pll35xx_set_rate,
      clk_pll46xx_set_rate, hnone]

theorem set_rate_invalid_rate_witness :
    (pll_set_rate sample_pll35xx hw_never ⟨0, 0x80C80301, 0⟩ 600000000 =
      some { ret := ulong_of_int (-(EINVAL : Int)), regs := ⟨0, 0x80C80301, 0⟩, trace := [] } ∧
      ulong_of_int (-(EINVAL : Int)) = 2 ^ 64 - 22) ∧
    (pll_set_rate fout_aud_pll hw_never ⟨0, 0, 0⟩ 0 =
      some { ret := ulong_of_int (-(EINVAL : Int)), regs := ⟨0, 0, 0⟩, trace := [] } ∧
      ulong_of_int (-(EINVAL : Int)) = 2 ^ 64 - 22) :=
  ⟨set_rate_invalid_rate sample_pll35xx hw_never ⟨0, 0x80C80301, 0⟩ 600000000 (by decide),
   set_rate_invalid_rate fout_aud_pll hw_never ⟨0, 0, 0⟩ 0 (by decide)⟩

/-- C2: integer PLL round trip.  For every reference rate `fin`, every initial
content of the control register and every rate table whose entries (with an
`unsigned int` rate) satisfy `m < 2^10`, `1 <= p < 2^6`, `s < 2^3` and
`rate = fin * m / (p << s)`: if `samsung_pll35xx_set_rate` succeeds for a rate
`R` of the table, then `samsung_pll35xx_recalc_rate` returns exactly `R` on the
resulting registers, whatever the hardware made of the lock-status bit. -/
theorem pll35xx_set_rate_round_trip (pll : samsung_clk_pll) (hw : Hw) (r : Regs)
    (fin R : Nat) (hcon : r.con < 2 ^ 32)
    (htbl : ∀ e ∈ pll.rate_table.take pll.rate_count,
      e.rate < 2 ^ 32 ∧ e.mdiv < 2 ^ 10 ∧ 1 ≤ e.pdiv ∧ e.pdiv < 2 ^ 6 ∧ e.sdiv < 2 ^ 3 ∧
        e.rate = fin * e.mdiv / (e.pdiv <<< e.sdiv))
    (hR : ∃ e ∈ pll.rate_table.take pll.rate_count, e.rate = R)
    (_hok : (samsung_pll35xx_set_rate pll hw r R).ret = 0) (c : Nat)
    (hc : same_but_lock_stat c (samsung_pll35xx_set_rate pll hw r R).regs.con) :
    samsung_pll35xx_recalc_rate fin
      { (samsung_pll35xx_set_rate pll hw r R).regs with con := c } = some R := by
  obtain ⟨e, hfound⟩ := get_pll_settings_loop_found R pll.rate_count pll.rate_table hR
  obtain ⟨hmem, hrate⟩ := get_pll_settings_loop_some R _ _ e hfound
  obtain ⟨hr32, hm, hp1, hp, hs, hinv⟩ := htbl e hmem
  obtain ⟨f1, f2, f3⟩ := pll35xx_set_rate_fields pll hw r R e hfound hcon hm hp hs
  obtain ⟨c1, c2⟩ := hc
  have g1 : c / 2 ^ 16 % 2 ^ 10 = e.mdiv := by omega
  have g2 : c / 2 ^ 8 % 2 ^ 6 = e.pdiv := by omega
  have g3 : c % 2 ^ 3 = e.sdiv := by omega
  rw [Nat.shiftLeft_eq] at hinv
  have h2 : 2 ^ e.sdiv ≤ 2 ^ 7 := Nat.pow_le_pow_right (by norm_num) (by omega)
  have hden : e.pdiv * 2 ^ e.sdiv ≤ 63 * 2 ^ 7 := Nat.mul_le_mul (by omega) h2
  have hdpos : 0 < e.pdiv * 2 ^ e.sdiv := Nat.mul_pos (by omega) (Nat.two_pow_pos _)
  have hlt : fin * e.mdiv < 2 ^ 64 := by
    have h3 : fin * e.mdiv / (e.pdiv * 2 ^ e.sdiv) < 2 ^ 32 := by omega
    have h4 := (Nat.div_lt_iff_lt_mul hdpos).mp h3
    calc fin * e.mdiv < 2 ^ 32 * (e.pdiv * 2 ^ e.sdiv) := h4
      _ ≤ 2 ^ 32 * (63 * 2 ^ 7) := Nat.mul_le_mul_left _ hden
      _ < 2 ^ 64 := by norm_num
  have hrec := pll35xx_recalc_of_fields fin
    { (samsung_pll35xx_set_rate pll hw r R).regs with con := c }
    (by simp only [g2]; omega) (by simp only [g1]; exact hlt)
  rw [hrec]
  simp only [g1, g2, g3]
  rw [← hinv, hrate]

theorem pll35xx_set_rate_round_trip_witness :
    samsung_pll35xx_recalc_rate 24000000
      { (samsung_pll35xx_set_rate sample_pll35xx hw_late ⟨0, 0x80000000, 0⟩ 800000000).regs
        with con := 0xA0C80301 } = some 800000000 :=
  pll35xx_set_rate_round_trip sample_pll35xx hw_late ⟨0, 0x80000000, 0⟩ 24000000 800000000
    (by decide) (by decide) (by decide) (by decide) 0xA0C80301 (by decide)

/-- C4: integer PLL, change of the post-divider only.  For every table entry
`e` found for the requested rate, with `e.s < 2^3`: if the M field (bits 25:16)
and the P field (bits 13:8) of the control register equal `e.m` and `e.p`, then
`samsung_pll35xx_set_rate` returns 0 after one read and exactly one write, to
the control register, of the old value with bits 2:0 replaced by `e.s`; it
writes no lock register and polls nothing. -/
theorem pll35xx_set_rate_sdiv_only (pll : samsung_clk_pll) (hw : Hw) (r : Regs)
    (drate : Nat) (e : samsung_pll_rate_table)
    (hfound : samsung_get_pll_settings pll drate = some e) (hcon : r.con < 2 ^ 32)
    (hs : e.sdiv < 2 ^ 3) (hm : r.con / 2 ^ 16 % 2 ^ 10 = e.mdiv)
    (hp : r.con / 2 ^ 8 % 2 ^ 6 = e.pdiv) :
    samsung_pll35xx_set_rate pll hw r drate =
      { ret := 0, regs := { r with con := 2 ^ 3 * (r.con / 2 ^ 3) + e.sdiv },
        trace := [Event.read Reg.con r.con,
          Event.write Reg.con (2 ^ 3 * (r.con / 2 ^ 3) + e.sdiv)] } ∧
    (2 ^ 3 * (r.con / 2 ^ 3) + e.sdiv) / 2 ^ 3 = r.con / 2 ^ 3 ∧
    (2 ^ 3 * (r.con / 2 ^ 3) + e.sdiv) % 2 ^ 3 = e.sdiv := by
  have hc : samsung_pll35xx_mp_change e r.con = false :=
    (pll35xx_mp_change_false e r.con).mpr ⟨hm, hp⟩
  rw [pll35xx_set_rate_s_only pll hw r drate e hfound hc, pll35xx_s_word_eq r.con e hcon hs]
  refine ⟨rfl, ?_, ?_⟩ <;> omega

theorem pll35xx_set_rate_sdiv_only_witness :
    samsung_pll35xx_set_rate sample_pll35xx hw_never ⟨0, 0xA0C80301, 0⟩ 400000000 =
      { ret := 0, regs := { (⟨0, 0xA0C80301, 0⟩ : Regs) with con := 0xA0C80302 },
        trace := [Event.read Reg.con 0xA0C80301, Event.write Reg.con 0xA0C80302] } ∧
    0xA0C80302 / 2 ^ 3 = 0xA0C80301 / 2 ^ 3 ∧ 0xA0C80302 % 2 ^ 3 = 2 :=
  pll35xx_set_rate_sdiv_only sample_pll35xx hw_never ⟨0, 0xA0C80301, 0⟩ 400000000
    { rate := 400000000, pdiv := 3, mdiv := 200, sdiv := 2, kdiv := 0,
      afc := 0, mfr := 0, mrr := 0, vsel := 0 }
    (by decide) (by decide) (by decide) (by decide) (by decide)

/-- C8: integer PLL `get_rate`.  For every control-register value `c` with a
non-zero P field and every parent rate `fin` with `fin * 1023 < 2^64`,
`samsung_pll35xx_recalc_rate` returns `fin * m / (p * 2^s)` rounded down, with
`m` = bits 25:16, `p` = bits 13:8 and `s` = bits 2:0 of `c`; no other bit of
`c` and no other register has a part in the result. -/
theorem pll35xx_recalc_rate_formula (fin c lock con1 c' lock' con1' : Nat)
    (hp : c / 2 ^ 8 % 2 ^ 6 ≠ 0) (hf : fin * 1023 < 2 ^ 64)
    (e1 : c' / 2 ^ 16 % 2 ^ 10 = c / 2 ^ 16 % 2 ^ 10)
    (e2 : c' / 2 ^ 8 % 2 ^ 6 = c / 2 ^ 8 % 2 ^ 6) (e3 : c' % 2 ^ 3 = c % 2 ^ 3) :
    samsung_pll35xx_recalc_rate fin { lock := lock, con := c, con1 := con1 } =
      some (fin * (c / 2 ^ 16 % 2 ^ 10) / ((c / 2 ^ 8 % 2 ^ 6) * 2 ^ (c % 2 ^ 3))) ∧
    samsung_pll35xx_recalc_rate fin { lock := lock', con := c', con1 := con1' } =
      samsung_pll35xx_recalc_rate fin { lock := lock, con := c, con1 := con1 } := by
  have hm : c / 2 ^ 16 % 2 ^ 10 ≤ 1023 := by omega
  have hlt : fin * (c / 2 ^ 16 % 2 ^ 10) < 2 ^ 64 :=
    lt_of_le_of_lt (Nat.mul_le_mul_left fin hm) hf
  have h0 := pll35xx_recalc_of_fields fin { lock := lock, con := c, con1 := con1 } hp hlt
  refine ⟨h0, ?_⟩
  rw [h0, pll35xx_recalc_of_fields fin { lock := lock', con := c', con1 := con1' }
    (by rw [e2]; exact hp) (by rw [e1]; exact hlt)]
  simp only [e1, e2, e3]

theorem pll35xx_recalc_rate_formula_witness :
    samsung_pll35xx_recalc_rate 24000000 { lock := 0, con := 0xA0C80301, con1 := 0 } =
      some (24000000 * (0xA0C80301 / 2 ^ 16 % 2 ^ 10) /
        ((0xA0C80301 / 2 ^ 8 % 2 ^ 6) * 2 ^ (0xA0C80301 % 2 ^ 3))) ∧
    samsung_pll35xx_recalc_rate 24000000 { lock := 17, con := 0x5CC8C3F9, con1 := 99 } =
      samsung_pll35xx_recalc_rate 24000000 { lock := 0, con := 0xA0C80301, con1 := 0 } :=
  pll35xx_recalc_rate_formula 24000000 0xA0C80301 0 0 0x5CC8C3F9 17 99
    (by decide) (by decide) (by decide) (by decide) (by decide)

/-! ## The fractional PLL -/

theorem kmm_write (c k mfr mrr : Nat) (hc : c < 2 ^ 32) (hk : k < 2 ^ 16)
    (hf : mfr < 2 ^ 6) (hr : mrr < 2 ^ 5) :
    (c &&& not32 ((0xFFFF <<< 0) ||| (0x3F <<< 16) ||| (0x1F <<< 24))) |||
      (u32 (k <<< 0) ||| u32 (mfr <<< 16) ||| u32 (mrr <<< 24)) =
    2 ^ 29 * (c / 2 ^ 29) + (2 ^ 24 * mrr + (2 ^ 22 * (c / 2 ^ 22 % 2 ^ 2) +
      (2 ^ 16 * mfr + k))) := by
  have hk' : ∀ i, 16 ≤ i → k.testBit i = false := fun i hi => testBit_of_lt hk hi
  have hf' : ∀ i, 6 ≤ i → mfr.testBit i = false := fun i hi => testBit_of_lt hf hi
  have hr' : ∀ i, 5 ≤ i → mrr.testBit i = false := fun i hi => testBit_of_lt hr hi
  apply eq_of_testBit_lt (n := 32)
  · exact Nat.or_lt_two_pow (and_not32_lt _ _ hc)
      (Nat.or_lt_two_pow (Nat.or_lt_two_pow (u32_lt _) (u32_lt _)) (u32_lt _))
  · omega
  · intro i hi
    rw [Nat.testBit_mul_pow_two_add _ (by omega), Nat.testBit_mul_pow_two_add _ (by omega),
      Nat.testBit_mul_pow_two_add _ (by omega), Nat.testBit_mul_pow_two_add _ (by omega)]
    simp only [← Nat.shiftRight_eq_div_pow, show (0xFFFF : Nat) = 2 ^ 16 - 1 from rfl,
      show (0x3F : Nat) = 2 ^ 6 - 1 from rfl, show (0x1F : Nat) = 2 ^ 5 - 1 from rfl,
      Nat.testBit_and, Nat.testBit_or, Nat.testBit_shiftLeft, testBit_u32,
      testBit_not32, Nat.testBit_mod_two_pow, Nat.testBit_shiftRight,
      Nat.testBit_two_pow_sub_one]
    interval_cases i <;> simp [hk', hf', hr']

theorem pms_bit31 (tmp m p s : Nat) (hm : m < 2 ^ 15) (hp : p < 2 ^ 23) (hs : s < 2 ^ 31) :
    ((tmp &&& not32 ((0x3FF <<< 16) ||| (0x3F <<< 8) ||| (0x7 <<< 0))) |||
      (u32 (m <<< 16) ||| u32 (p <<< 8) ||| u32 (s <<< 0))).testBit 31 = tmp.testBit 31 := by
  have hm' : m.testBit 15 = false := testBit_of_lt hm (le_refl _)
  have hp' : p.testBit 23 = false := testBit_of_lt hp (le_refl _)
  have hs' : s.testBit 31 = false := testBit_of_lt hs (le_refl _)
  simp only [show (0x3FF : Nat) = 2 ^ 10 - 1 from rfl,
    show (0x3F : Nat) = 2 ^ 6 - 1 from rfl, show (0x7 : Nat) = 2 ^ 3 - 1 from rfl,
    Nat.testBit_and, Nat.testBit_or, Nat.testBit_shiftLeft, testBit_u32,
    testBit_not32, Nat.testBit_two_pow_sub_one]
  simp [hm', hp', hs']

theorem pll35xx_pms_word_bit31 (tmp : Nat) (rate : samsung_pll_rate_table)
    (hm : rate.mdiv < 2 ^ 15) (hp : rate.pdiv < 2 ^ 23) (hs : rate.sdiv < 2 ^ 31) :
    (pll35xx_pms_word tmp rate).testBit 31 = tmp.testBit 31 :=
  pms_bit31 tmp rate.mdiv rate.pdiv rate.sdiv hm hp hs

theorem pll46xx_con0_word_eq (c : Nat) (rate : samsung_pll_rate_table) (hc : c < 2 ^ 32)
    (hm : rate.mdiv < 2 ^ 10) (hp : rate.pdiv < 2 ^ 6) (hs : rate.sdiv < 2 ^ 3) :
    pll46xx_con0_word c rate =
      2 ^ 26 * (c / 2 ^ 26) + (2 ^ 16 * rate.mdiv + (2 ^ 14 * (c / 2 ^ 14 % 2 ^ 2) +
        (2 ^ 8 * rate.pdiv + (2 ^ 3 * (c / 2 ^ 3 % 2 ^ 5) + rate.sdiv)))) :=
  pms_write c rate.mdiv rate.pdiv rate.sdiv hc hm hp hs

theorem pll46xx_con1_word_eq (c : Nat) (rate : samsung_pll_rate_table) (hc : c < 2 ^ 32)
    (hk : rate.kdiv < 2 ^ 16) (hf : rate.mfr < 2 ^ 6) (hr : rate.mrr < 2 ^ 5) :
    pll46xx_con1_word c rate =
      2 ^ 29 * (c / 2 ^ 29) + (2 ^ 24 * rate.mrr + (2 ^ 22 * (c / 2 ^ 22 % 2 ^ 2) +
        (2 ^ 16 * rate.mfr + rate.kdiv))) :=
  kmm_write c rate.kdiv rate.mfr rate.mrr hc hk hf hr

theorem pll46xx_recalc_of_fields (fin : Nat) (r : Regs)
    (hp : r.con / 2 ^ 8 % 2 ^ 6 ≠ 0)
    (hf : fin * ((r.con / 2 ^ 16 % 2 ^ 10) * 2 ^ 16 + r.con1 % 2 ^ 16) < 2 ^ 64) :
    clk_pll46xx_recalc_rate fin r =
      some (fin * ((r.con / 2 ^ 16 % 2 ^ 10) * 2 ^ 16 + r.con1 % 2 ^ 16) /
        ((r.con / 2 ^ 8 % 2 ^ 6) * 2 ^ (r.con % 2 ^ 3)) / 2 ^ 16) := by
  unfold clk_pll46xx_recalc_rate PLL46XX_MDIV_SHIFT PLL46XX_PDIV_SHIFT PLL46XX_SDIV_SHIFT
    PLL1460X_MDIV_MASK PLL46XX_PDIV_MASK PLL46XX_SDIV_MASK PLL46XX_KDIV_MASK
  rw [show (0x3FF : Nat) = 2 ^ 10 - 1 from rfl, show (0x3F : Nat) = 2 ^ 6 - 1 from rfl,
    show (0x7 : Nat) = 2 ^ 3 - 1 from rfl, show (0xFFFF : Nat) = 2 ^ 16 - 1 from rfl]
  simp only [Nat.and_pow_two_sub_one_eq_mod, Nat.shiftRight_eq_div_pow, Nat.pow_zero,
    Nat.div_one]
  have hs : r.con % 2 ^ 3 < 8 := Nat.mod_lt _ (by norm_num)
  have hm10 : r.con / 2 ^ 16 % 2 ^ 10 < 1024 := Nat.mod_lt _ (by norm_num)
  have hk16 : r.con1 % 2 ^ 16 < 65536 := Nat.mod_lt _ (by norm_num)
  have h2 : 2 ^ (r.con % 2 ^ 3) ≤ 2 ^ 7 := Nat.pow_le_pow_right (by norm_num) (by omega)
  have hprod : (r.con / 2 ^ 8 % 2 ^ 6) * 2 ^ (r.con % 2 ^ 3) < 2 ^ 32 := by
    calc (r.con / 2 ^ 8 % 2 ^ 6) * 2 ^ (r.con % 2 ^ 3) ≤ 63 * 2 ^ 7 :=
          Nat.mul_le_mul (by omega) h2
      _ < 2 ^ 32 := by norm_num
  have hpos : (r.con / 2 ^ 8 % 2 ^ 6) * 2 ^ (r.con % 2 ^ 3) ≠ 0 :=
    Nat.mul_ne_zero hp (by have := Nat.two_pow_pos (r.con % 2 ^ 3); omega)
  have hmk : u32 (u32 ((r.con / 2 ^ 16 % 2 ^ 10) <<< 16) + r.con1 % 2 ^ 16) =
      (r.con / 2 ^ 16 % 2 ^ 10) * 2 ^ 16 + r.con1 % 2 ^ 16 := by
    unfold u32
    rw [Nat.shiftLeft_eq]
    omega
  have hmul : u64 (u64 fin * ((r.con / 2 ^ 16 % 2 ^ 10) * 2 ^ 16 + r.con1 % 2 ^ 16)) =
      fin * ((r.con / 2 ^ 16 % 2 ^ 10) * 2 ^ 16 + r.con1 % 2 ^ 16) := by
    unfold u64
    rw [Nat.mod_mul_mod, Nat.mod_eq_of_lt hf]
  rw [hmk, hmul, Nat.shiftLeft_eq]
  unfold do_div u32
  rw [Nat.mod_eq_of_lt hprod, if_neg hpos, Option.map_some']

theorem pll46xx_set_rate_s_only (pll : samsung_clk_pll) (hw : Hw) (r : Regs) (drate : Nat)
    (e : samsung_pll_rate_table) (h : samsung_get_pll_settings pll drate = some e)
    (hc : clk_pll46xx_mpk_change r.con r.con1 e = false) :
    clk_pll46xx_set_rate pll hw r drate =
      { ret := 0, regs := { r with con := pll46xx_s_word r.con e },
        trace := [Event.read Reg.con r.con, Event.read Reg.con1 r.con1,
          Event.write Reg.con (pll46xx_s_word r.con e)] } := by
  simp [clk_pll46xx_set_rate, h, hc, pll46xx_s_word]

theorem pll46xx_set_rate_full (pll : samsung_clk_pll) (hw : Hw) (r : Regs) (drate : Nat)
    (e : samsung_pll_rate_table) (h : samsung_get_pll_settings pll drate = some e)
    (hc : clk_pll46xx_mpk_change r.con r.con1 e = true) :
    clk_pll46xx_set_rate pll hw r drate =
      { ret := ulong_of_int (readl_poll_timeout hw PLL46XX_LOCKED).1,
        regs := { lock := pll46xx_lock_word e, con := pll46xx_con0_word r.con e,
                  con1 := pll46xx_con1_word r.con1 e },
        trace := [Event.read Reg.con r.con, Event.read Reg.con1 r.con1,
          Event.read Reg.con1 r.con1, Event.write Reg.lock (pll46xx_lock_word e),
          Event.write Reg.con (pll46xx_con0_word r.con e),
          Event.write Reg.con1 (pll46xx_con1_word r.con1 e)] ++
          (readl_poll_timeout hw PLL46XX_LOCKED).2 } := by
  simp [clk_pll46xx_set_rate, h, hc, pll46xx_lock_word, pll46xx_con0_word, pll46xx_con1_word]

/-- The lock wait returns 0 when bit `n` is seen set within the time-out. -/
theorem readl_poll_timeout_seen (hw : Hw) (n : Nat)
    (h : ∃ k, k ≤ hw.budget ∧ (u32 (hw.status k)).testBit n = true) :
    (readl_poll_timeout hw (BIT n)).1 = 0 := by
  obtain ⟨k, hk, hb⟩ := h
  exact poll_loop_seen hw (BIT n) hw.budget 0
    ⟨k, hk, by rw [Nat.zero_add]; exact (and_BIT_ne_zero _ _).mpr hb⟩

/-- The lock wait returns `-ETIMEDOUT` when bit `n` is never seen set. -/
theorem readl_poll_timeout_never (hw : Hw) (n : Nat)
    (h : ∀ k, k ≤ hw.budget → (u32 (hw.status k)).testBit n = false) :
    (readl_poll_timeout hw (BIT n)).1 = -(ETIMEDOUT : Int) := by
  refine poll_loop_never hw (BIT n) hw.budget 0 (fun k hk => ?_)
  rw [Nat.zero_add]
  by_contra hne
  have := (and_BIT_ne_zero _ _).mp hne
  rw [h k hk] at this
  exact Bool.false_ne_true this

/-- C3 (the code departs from the claim): the shipped table satisfies the
hypotheses of the fractional round trip, yet with `M = 532 = 512 + 20` latched
in the control register `clk_pll46xx_set_rate(491519897)` succeeds after
rewriting the S field only, and `clk_pll46xx_recalc_rate` then returns
12779519897.  `clk_pll46xx_mpk_change` masks M with the nine-bit
`PLL46XX_MDIV_MASK` where the other two functions use the ten-bit
`PLL1460X_MDIV_MASK`. -/
theorem pll46xx_round_trip_breaks :
    (∀ e ∈ fout_aud_pll.rate_table.take fout_aud_pll.rate_count,
      e.mdiv < 2 ^ 10 ∧ 1 ≤ e.pdiv ∧ e.pdiv < 2 ^ 6 ∧ e.sdiv < 2 ^ 3 ∧ e.kdiv < 2 ^ 16 ∧
        PLL_RATE (24 * MHZ) e.mdiv e.pdiv e.sdiv e.kdiv 16 = some e.rate) ∧
    clk_pll46xx_mpk_change 0x02140100 31457 aud_entry = false ∧
    clk_pll46xx_set_rate fout_aud_pll hw_never ⟨0, 0x02140100, 31457⟩ 491519897 =
      { ret := 0, regs := ⟨0, 0x02140100, 31457⟩,
        trace := [Event.read Reg.con 0x02140100, Event.read Reg.con1 31457,
          Event.write Reg.con 0x02140100] } ∧
    clk_pll46xx_recalc_rate (24 * MHZ) ⟨0, 0x02140100, 31457⟩ = some 12779519897 := by
  decide

/-- C5 (the code departs from the claim): the entry `m = 600, p = 3, s = 1,
k = 0` fits the field widths and the latched M, P and K fields, as
`clk_pll46xx_recalc_rate` decodes them, equal `m`, `p` and `k`; all the same
`clk_pll46xx_set_rate` takes the full-rewrite path: it writes the lock register
and `con_reg + 4`, polls the lock status and, on hardware that never locks,
returns `-ETIMEDOUT`.  `clk_pll46xx_mpk_change` sees `600 & 0x1FF = 88`. -/
theorem pll46xx_sdiv_only_breaks :
    (0x02580300 / 2 ^ 16 % 2 ^ 10 = 600 ∧ 0x02580300 / 2 ^ 8 % 2 ^ 6 = 3 ∧
      0 % 2 ^ 16 = 0) ∧
    samsung_get_pll_settings sample_pll1460x 2400000000 =
      some { rate := 2400000000, pdiv := 3, mdiv := 600, sdiv := 1, kdiv := 0,
             afc := 0, mfr := 0, mrr := 0, vsel := 0 } ∧
    PLL_RATE (24 * MHZ) 600 3 1 0 16 = some 2400000000 ∧
    clk_pll46xx_set_rate sample_pll1460x hw_never ⟨0, 0x02580300, 0⟩ 2400000000 =
      { ret := 2 ^ 64 - 110, regs := ⟨9000, 0x02580301, 0⟩,
        trace := [Event.read Reg.con 0x02580300, Event.read Reg.con1 0,
          Event.read Reg.con1 0, Event.write Reg.lock 9000,
          Event.write Reg.con 0x02580301, Event.write Reg.con1 0,
          Event.poll 0, Event.poll 0, Event.poll 0, Event.poll 0] } := by
  decide

/-- C6, as the code has it: on the full-rewrite path of
`samsung_pll35xx_set_rate`, for an entry whose fields cannot reach bit 31 of the
control word (`m < 2^15`, `p < 2^23`, `s < 2^31`, so every entry that fits the
field widths): with the enable bit (bit 31) clear the call returns 0 and polls
nothing, whatever the lock status does; with the enable bit set it polls, returns
0 when the lock-status bit (bit 29) is seen set within the time-out and
`-ETIMEDOUT` (`2^64 - 110`) when it is never seen set. -/
theorem pll35xx_set_rate_lock_wait (pll : samsung_clk_pll) (hw : Hw) (r : Regs)
    (drate : Nat) (e : samsung_pll_rate_table)
    (hen : pll.enable_offs = PLL35XX_ENABLE_SHIFT)
    (hlk : pll.lock_offs = PLL35XX_LOCK_STAT_SHIFT)
    (hfound : samsung_get_pll_settings pll drate = some e)
    (hchg : samsung_pll35xx_mp_change e r.con = true)
    (hm : e.mdiv < 2 ^ 15) (hp : e.pdiv < 2 ^ 23) (hs : e.sdiv < 2 ^ 31) :
    (r.con.testBit 31 = false →
      (samsung_pll35xx_set_rate pll hw r drate).ret = 0 ∧
      ∀ ev ∈ (samsung_pll35xx_set_rate pll hw r drate).trace, ev.isPoll = false) ∧
    (r.con.testBit 31 = true →
      (∃ ev ∈ (samsung_pll35xx_set_rate pll hw r drate).trace, ev.isPoll = true) ∧
      ((∃ k, k ≤ hw.budget ∧ (u32 (hw.status k)).testBit 29 = true) →
        (samsung_pll35xx_set_rate pll hw r drate).ret = 0) ∧
      ((∀ k, k ≤ hw.budget → (u32 (hw.status k)).testBit 29 = false) →
        (samsung_pll35xx_set_rate pll hw r drate).ret = 2 ^ 64 - 110)) := by
  have hbit : pll35xx_pms_word r.con e &&& BIT pll.enable_offs ≠ 0 ↔
      r.con.testBit 31 = true := by
    rw [hen, and_BIT_ne_zero]
    unfold PLL35XX_ENABLE_SHIFT
    rw [pll35xx_pms_word_bit31 r.con e hm hp hs]
  rw [pll35xx_set_rate_full pll hw r drate e hfound hchg, hlk]
  unfold PLL35XX_LOCK_STAT_SHIFT
  constructor
  · intro h0
    have hn : ¬ (pll35xx_pms_word r.con e &&& BIT pll.enable_offs ≠ 0) := by
      rw [hbit, h0]; simp
    rw [if_neg hn]
    simp [Event.isPoll]
  · intro h1
    rw [if_pos (hbit.mpr h1)]
    refine ⟨?_, ?_, ?_⟩
    · obtain ⟨hne, hall⟩ := poll_loop_trace hw (BIT 29) hw.budget 0
      obtain ⟨ev, hev⟩ := List.exists_mem_of_ne_nil _ hne
      exact ⟨ev, by simp [readl_poll_timeout, hev], hall ev hev⟩
    · intro hseen
      simp only [readl_poll_timeout_seen hw 29 hseen]
      decide
    · intro hnever
      simp only [readl_poll_timeout_never hw 29 hnever]
      decide

theorem pll35xx_set_rate_lock_wait_witness :
    ((0x80000000 : Nat).testBit 31 = false →
      (samsung_pll35xx_set_rate sample_pll35xx hw_late ⟨0, 0x80000000, 0⟩ 800000000).ret = 0 ∧
      ∀ ev ∈ (samsung_pll35xx_set_rate sample_pll35xx hw_late
        ⟨0, 0x80000000, 0⟩ 800000000).trace, ev.isPoll = false) ∧
    ((0x80000000 : Nat).testBit 31 = true →
      (∃ ev ∈ (samsung_pll35xx_set_rate sample_pll35xx hw_late
        ⟨0, 0x80000000, 0⟩ 800000000).trace, ev.isPoll = true) ∧
      ((∃ k, k ≤ hw_late.budget ∧ (u32 (hw_late.status k)).testBit 29 = true) →
        (samsung_pll35xx_set_rate sample_pll35xx hw_late
          ⟨0, 0x80000000, 0⟩ 800000000).ret = 0) ∧
      ((∀ k, k ≤ hw_late.budget → (u32 (hw_late.status k)).testBit 29 = false) →
        (samsung_pll35xx_set_rate sample_pll35xx hw_late
          ⟨0, 0x80000000, 0⟩ 800000000).ret = 2 ^ 64 - 110)) :=
  pll35xx_set_rate_lock_wait sample_pll35xx hw_late ⟨0, 0x80000000, 0⟩ 800000000
    { rate := 800000000, pdiv := 3, mdiv := 200, sdiv := 1, kdiv := 0,
      afc := 0, mfr := 0, mrr := 0, vsel := 0 }
    (by decide) (by decide) (by decide) (by decide) (by decide) (by decide) (by decide)

/-- C6 as stated fails: the table entry `m = 0x8000` differs from the latched M
field, the enable bit of the control register is clear, and yet
`samsung_pll35xx_set_rate` polls the lock status and, on hardware that never
locks, returns `-ETIMEDOUT`: `m << 16` sets bit 31 of the word it tests. -/
theorem pll35xx_set_rate_lock_wait_spill :
    (0 : Nat).testBit 31 = false ∧
    spill_pll35xx.enable_offs = PLL35XX_ENABLE_SHIFT ∧
    spill_pll35xx.lock_offs = PLL35XX_LOCK_STAT_SHIFT ∧
    samsung_get_pll_settings spill_pll35xx 100 =
      some { rate := 100, pdiv := 1, mdiv := 0x8000, sdiv := 0, kdiv := 0,
             afc := 0, mfr := 0, mrr := 0, vsel := 0 } ∧
    samsung_pll35xx_mp_change
      { rate := 100, pdiv := 1, mdiv := 0x8000, sdiv := 0, kdiv := 0,
        afc := 0, mfr := 0, mrr := 0, vsel := 0 } 0 = true ∧
    samsung_pll35xx_set_rate spill_pll35xx hw_never ⟨0, 0, 0⟩ 100 =
      { ret := 2 ^ 64 - 110, regs := ⟨270, 0x80000100, 0⟩,
        trace := [Event.read Reg.con 0, Event.write Reg.lock 270,
          Event.write Reg.con 0x80000100,
          Event.poll 0, Event.poll 0, Event.poll 0, Event.poll 0] } := by
  decide

/-- C7, as the code has it: for the pll_1460x type, a `set_rate` that rewrites
the m/p/s/k fields writes the lock time, the control register and control
register + 4 and then always polls the lock-status bit (bit 29), whether the
enable bit (bit 31) is set or clear: it returns 0 when the bit is seen set within
the time-out and `-ETIMEDOUT` (`2^64 - 110`) when it is never seen set.  For an
entry that fits the field widths the registers then hold its m, p, s and k. -/
theorem pll46xx_set_rate_always_waits (pll : samsung_clk_pll) (hw : Hw) (r : Regs)
    (drate : Nat) (e : samsung_pll_rate_table)
    (hfound : samsung_get_pll_settings pll drate = some e)
    (hchg : clk_pll46xx_mpk_change r.con r.con1 e = true)
    (hc0 : r.con < 2 ^ 32) (hc1 : r.con1 < 2 ^ 32) :
    (clk_pll46xx_set_rate pll hw r drate).trace =
      [Event.read Reg.con r.con, Event.read Reg.con1 r.con1, Event.read Reg.con1 r.con1,
        Event.write Reg.lock (clk_pll46xx_set_rate pll hw r drate).regs.lock,
        Event.write Reg.con (clk_pll46xx_set_rate pll hw r drate).regs.con,
        Event.write Reg.con1 (clk_pll46xx_set_rate pll hw r drate).regs.con1] ++
        (readl_poll_timeout hw PLL46XX_LOCKED).2 ∧
    (∃ ev ∈ (readl_poll_timeout hw PLL46XX_LOCKED).2, ev.isPoll = true) ∧
    ((∃ k, k ≤ hw.budget ∧ (u32 (hw.status k)).testBit 29 = true) →
      (clk_pll46xx_set_rate pll hw r drate).ret = 0) ∧
    ((∀ k, k ≤ hw.budget → (u32 (hw.status k)).testBit 29 = false) →
      (clk_pll46xx_set_rate pll hw r drate).ret = 2 ^ 64 - 110) ∧
    (e.mdiv < 2 ^ 10 → e.pdiv < 2 ^ 6 → e.sdiv < 2 ^ 3 → e.kdiv < 2 ^ 16 →
      e.mfr < 2 ^ 6 → e.mrr < 2 ^ 5 →
      (clk_pll46xx_set_rate pll hw r drate).regs.con / 2 ^ 16 % 2 ^ 10 = e.mdiv ∧
      (clk_pll46xx_set_rate pll hw r drate).regs.con / 2 ^ 8 % 2 ^ 6 = e.pdiv ∧
      (clk_pll46xx_set_rate pll hw r drate).regs.con % 2 ^ 3 = e.sdiv ∧
      (clk_pll46xx_set_rate pll hw r drate).regs.con1 % 2 ^ 16 = e.kdiv ∧
      (clk_pll46xx_set_rate pll hw r drate).regs.con.testBit 31 = r.con.testBit 31) := by
  rw [pll46xx_set_rate_full pll hw r drate e hfound hchg]
  refine ⟨rfl, ?_, ?_, ?_, ?_⟩
  · obtain ⟨hne, hall⟩ := poll_loop_trace hw PLL46XX_LOCKED hw.budget 0
    obtain ⟨ev, hev⟩ := List.exists_mem_of_ne_nil _ hne
    exact ⟨ev, hev, hall ev hev⟩
  · intro hseen
    have h := readl_poll_timeout_seen hw 29 hseen
    simp only [PLL46XX_LOCKED, h]
    decide
  · intro hnever
    have h := readl_poll_timeout_never hw 29 hnever
    simp only [PLL46XX_LOCKED, h]
    decide
  · intro hm hp hs hk hf hr
    have hb : (pll46xx_con0_word r.con e).testBit 31 = r.con.testBit 31 :=
      pms_bit31 r.con e.mdiv e.pdiv e.sdiv (by omega) (by omega) (by omega)
    refine ⟨?_, ?_, ?_, ?_, hb⟩
    · simp only [pll46xx_con0_word_eq r.con e hc0 hm hp hs]; omega
    · simp only [pll46xx_con0_word_eq r.con e hc0 hm hp hs]; omega
    · simp only [pll46xx_con0_word_eq r.con e hc0 hm hp hs]; omega
    · simp only [pll46xx_con1_word_eq r.con1 e hc1 hk hf hr]; omega

theorem pll46xx_set_rate_always_waits_witness :
    (clk_pll46xx_set_rate fout_aud_pll hw_late ⟨0, 0, 0⟩ 491519897).trace =
      [Event.read Reg.con 0, Event.read Reg.con1 0, Event.read Reg.con1 0,
        Event.write Reg.lock
          (clk_pll46xx_set_rate fout_aud_pll hw_late ⟨0, 0, 0⟩ 491519897).regs.lock,
        Event.write Reg.con
          (clk_pll46xx_set_rate fout_aud_pll hw_late ⟨0, 0, 0⟩ 491519897).regs.con,
        Event.write Reg.con1
          (clk_pll46xx_set_rate fout_aud_pll hw_late ⟨0, 0, 0⟩ 491519897).regs.con1] ++
        (readl_poll_timeout hw_late PLL46XX_LOCKED).2 ∧
    (∃ ev ∈ (readl_poll_timeout hw_late PLL46XX_LOCKED).2, ev.isPoll = true) ∧
    ((∃ k, k ≤ hw_late.budget ∧ (u32 (hw_late.status k)).testBit 29 = true) →
      (clk_pll46xx_set_rate fout_aud_pll hw_late ⟨0, 0, 0⟩ 491519897).ret = 0) ∧
    ((∀ k, k ≤ hw_late.budget → (u32 (hw_late.status k)).testBit 29 = false) →
      (clk_pll46xx_set_rate fout_aud_pll hw_late ⟨0, 0, 0⟩ 491519897).ret = 2 ^ 64 - 110) ∧
    (aud_entry.mdiv < 2 ^ 10 → aud_entry.pdiv < 2 ^ 6 → aud_entry.sdiv < 2 ^ 3 →
      aud_entry.kdiv < 2 ^ 16 → aud_entry.mfr < 2 ^ 6 → aud_entry.mrr < 2 ^ 5 →
      (clk_pll46xx_set_rate fout_aud_pll hw_late ⟨0, 0, 0⟩ 491519897).regs.con
        / 2 ^ 16 % 2 ^ 10 = aud_entry.mdiv ∧
      (clk_pll46xx_set_rate fout_aud_pll hw_late ⟨0, 0, 0⟩ 491519897).regs.con
        / 2 ^ 8 % 2 ^ 6 = aud_entry.pdiv ∧
      (clk_pll46xx_set_rate fout_aud_pll hw_late ⟨0, 0, 0⟩ 491519897).regs.con
        % 2 ^ 3 = aud_entry.sdiv ∧
      (clk_pll46xx_set_rate fout_aud_pll hw_late ⟨0, 0, 0⟩ 491519897).regs.con1
        % 2 ^ 16 = aud_entry.kdiv ∧
      (clk_pll46xx_set_rate fout_aud_pll hw_late ⟨0, 0, 0⟩ 491519897).regs.con.testBit 31 =
        (0 : Nat).testBit 31) :=
  pll46xx_set_rate_always_waits fout_aud_pll hw_late ⟨0, 0, 0⟩ 491519897 aud_entry
    (by decide) (by decide) (by decide) (by decide)

/-- C7 as stated fails: `fout_aud_pll` with the enable bit (bit 31) of its
control register clear and a lock status that is never asserted.
`clk_pll46xx_set_rate(491519897)` rewrites the fields, polls the lock status four
times and returns `-ETIMEDOUT` instead of success. -/
theorem pll46xx_set_rate_disabled_times_out :
    (0 : Nat).testBit 31 = false ∧
    samsung_get_pll_settings fout_aud_pll 491519897 = some aud_entry ∧
    clk_pll46xx_mpk_change 0 0 aud_entry = true ∧
    clk_pll46xx_set_rate fout_aud_pll hw_never ⟨0, 0, 0⟩ 491519897 =
      { ret := 2 ^ 64 - 110, regs := ⟨3000, 0x00140100, 31457⟩,
        trace := [Event.read Reg.con 0, Event.read Reg.con1 0, Event.read Reg.con1 0,
          Event.write Reg.lock 3000, Event.write Reg.con 0x00140100,
          Event.write Reg.con1 31457,
          Event.poll 0, Event.poll 0, Event.poll 0, Event.poll 0] } := by
  decide

/-- C9: fractional PLL `get_rate`.  For every pair of register values (`c0` at
`con_reg`, `c1` at `con_reg + 4`) with a non-zero P field and every parent rate
`fin < 2^32`, `clk_pll46xx_recalc_rate` returns
`fin * (m * 2^16 + k) / (p * 2^s) / 2^16`, both divisions rounded down, with
`m` = bits 25:16, `p` = bits 13:8, `s` = bits 2:0 of `c0` and `k` = bits 15:0 of
`c1`; the product stays below `2^64`, so nothing wraps. -/
theorem pll46xx_recalc_rate_formula (fin c0 c1 lock : Nat)
    (hp : c0 / 2 ^ 8 % 2 ^ 6 ≠ 0) (hf : fin < 2 ^ 32) :
    clk_pll46xx_recalc_rate fin { lock := lock, con := c0, con1 := c1 } =
      some (fin * ((c0 / 2 ^ 16 % 2 ^ 10) * 2 ^ 16 + c1 % 2 ^ 16) /
        ((c0 / 2 ^ 8 % 2 ^ 6) * 2 ^ (c0 % 2 ^ 3)) / 2 ^ 16) ∧
    fin * ((c0 / 2 ^ 16 % 2 ^ 10) * 2 ^ 16 + c1 % 2 ^ 16) < 2 ^ 64 := by
  have hmk : (c0 / 2 ^ 16 % 2 ^ 10) * 2 ^ 16 + c1 % 2 ^ 16 < 2 ^ 27 := by omega
  have hlt : fin * ((c0 / 2 ^ 16 % 2 ^ 10) * 2 ^ 16 + c1 % 2 ^ 16) < 2 ^ 64 := by
    calc fin * ((c0 / 2 ^ 16 % 2 ^ 10) * 2 ^ 16 + c1 % 2 ^ 16)
        ≤ 2 ^ 32 * 2 ^ 27 := Nat.mul_le_mul (le_of_lt hf) (le_of_lt hmk)
      _ < 2 ^ 64 := by norm_num
  exact ⟨pll46xx_recalc_of_fields fin { lock := lock, con := c0, con1 := c1 } hp hlt, hlt⟩

theorem pll46xx_recalc_rate_formula_witness :
    clk_pll46xx_recalc_rate 24000000 { lock := 3000, con := 0xA0140100, con1 := 31457 } =
      some (24000000 * ((0xA0140100 / 2 ^ 16 % 2 ^ 10) * 2 ^ 16 + 31457 % 2 ^ 16) /
        ((0xA0140100 / 2 ^ 8 % 2 ^ 6) * 2 ^ (0xA0140100 % 2 ^ 3)) / 2 ^ 16) ∧
    24000000 * ((0xA0140100 / 2 ^ 16 % 2 ^ 10) * 2 ^ 16 + 31457 % 2 ^ 16) < 2 ^ 64 :=
  pll46xx_recalc_rate_formula 24000000 0xA0140100 31457 3000 (by decide) (by decide)

/-- C10: the one shipped rate table, `pll1460x_24mhz_tbl`, satisfies the table
invariant: `PLL_RATE(24000000, 20, 1, 0, 31457, 16)`, that is
`24000000 * (2^16 * 20 + 31457) / 2^16 / (1 << 0)`, is exactly the declared rate
491519897, so the build-time check passes and the table is its entry followed
by the sentinel; and `clk_pll46xx_recalc_rate` returns 491519897 on any
registers that hold these fields, for `fin` = 24 MHz. -/
theorem pll1460x_24mhz_tbl_valid (lock c0 c1 : Nat)
    (hM : c0 / 2 ^ 16 % 2 ^ 10 = 20) (hP : c0 / 2 ^ 8 % 2 ^ 6 = 1)
    (hS : c0 % 2 ^ 3 = 0) (hK : c1 % 2 ^ 16 = 31457) :
    PLL_RATE (24 * MHZ) 20 1 0 31457 16 = some 491519897 ∧
    24000000 * (2 ^ 16 * 20 + 31457) / 2 ^ 16 / (1 <<< 0) = 491519897 ∧
    pll1460x_24mhz_tbl = [aud_entry, sentinel] ∧
    samsung_clk_register_pll .pll_1460x (some pll1460x_24mhz_tbl) = some fout_aud_pll ∧
    (∀ e ∈ fout_aud_pll.rate_table,
      PLL_RATE (24 * MHZ) e.mdiv e.pdiv e.sdiv e.kdiv 16 = some e.rate) ∧
    clk_pll46xx_recalc_rate (24 * MHZ) { lock := lock, con := c0, con1 := c1 } =
      some 491519897 := by
  refine ⟨by decide, by decide, by decide, by decide, by decide, ?_⟩
  have hlt : 24 * MHZ * ((c0 / 2 ^ 16 % 2 ^ 10) * 2 ^ 16 + c1 % 2 ^ 16) < 2 ^ 64 := by
    rw [hM, hK]; decide
  rw [pll46xx_recalc_of_fields (24 * MHZ) { lock := lock, con := c0, con1 := c1 }
    (by simp only [hP]; decide) hlt]
  simp only [hM, hP, hS, hK]
  decide

theorem pll1460x_24mhz_tbl_valid_witness :
    PLL_RATE (24 * MHZ) 20 1 0 31457 16 = some 491519897 ∧
    24000000 * (2 ^ 16 * 20 + 31457) / 2 ^ 16 / (1 <<< 0) = 491519897 ∧
    pll1460x_24mhz_tbl = [aud_entry, sentinel] ∧
    samsung_clk_register_pll .pll_1460x (some pll1460x_24mhz_tbl) = some fout_aud_pll ∧
    (∀ e ∈ fout_aud_pll.rate_table,
      PLL_RATE (24 * MHZ) e.mdiv e.pdiv e.sdiv e.kdiv 16 = some e.rate) ∧
    clk_pll46xx_recalc_rate (24 * MHZ) { lock := 3000, con := 0xA0140100, con1 := 31457 } =
      some 491519897 :=
  pll1460x_24mhz_tbl_valid 3000 0xA0140100 31457 (by decide) (by decide) (by decide)
    (by decide)

/-! ## Lookup by index -/

theorem get_pll_settings_loop_index (rate : Nat) :
    ∀ (n : Nat) (l : List samsung_pll_rate_table) (e : samsung_pll_rate_table),
      get_pll_settings_loop rate n l = some e →
      e.rate = rate ∧ ∃ i, i < n ∧ l[i]? = some e ∧
        ∀ j, j < i → ∀ e', l[j]? = some e' → e'.rate ≠ rate
  | 0, _, _, h => by simp [get_pll_settings_loop] at h
  | _ + 1, [], _, h => by simp [get_pll_settings_loop] at h
  | n + 1, x :: xs, e, h => by
    by_cases hx : rate = x.rate
    · simp [get_pll_settings_loop, hx] at h
      subst h
      exact ⟨hx.symm, 0, Nat.succ_pos n, by simp, fun j hj => absurd hj (Nat.not_lt_zero j)⟩
    · simp [get_pll_settings_loop, hx] at h
      obtain ⟨hr, i, hi, hget, hmin⟩ := get_pll_settings_loop_index rate n xs e h
      refine ⟨hr, i + 1, Nat.succ_lt_succ hi, by simpa using hget, ?_⟩
      intro j hj e' he'
      cases j with
      | zero =>
        simp at he'
        subst he'
        exact fun heq => hx heq.symm
      | succ j => exact hmin j (Nat.lt_of_succ_lt_succ hj) e' (by simpa using he')

theorem get_pll_settings_loop_of_index (rate : Nat) :
    ∀ (n : Nat) (l : List samsung_pll_rate_table),
      (∃ i e, i < n ∧ l[i]? = some e ∧ e.rate = rate) →
      ∃ e, get_pll_settings_loop rate n l = some e
  | 0, _, h => by
    obtain ⟨i, _, hi, _⟩ := h
    exact absurd hi (Nat.not_lt_zero i)
  | _ + 1, [], h => by
    obtain ⟨i, e, _, hget, _⟩ := h
    simp at hget
  | n + 1, x :: xs, h => by
    by_cases hx : rate = x.rate
    · exact ⟨x, by simp [get_pll_settings_loop, hx]⟩
    · obtain ⟨i, e, hi, hget, hr⟩ := h
      cases i with
      | zero =>
        simp at hget
        subst hget
        exact absurd hr.symm hx
      | succ i =>
        obtain ⟨e', he'⟩ := get_pll_settings_loop_of_index rate n xs
          ⟨i, e, Nat.lt_of_succ_lt_succ hi, by simpa using hget, hr⟩
        exact ⟨e', by simp [get_pll_settings_loop, hx, he']⟩

/-- C11: the rate-table lookup is by exact match.  For every table and every
target rate, `samsung_get_pll_settings` returns an entry if and only if some
entry among the first `rate_count` has a rate equal to the target; the entry
returned has exactly the target rate and is the one of smallest index with that
rate. -/
theorem samsung_get_pll_settings_exact (pll : samsung_clk_pll) (rate : Nat) :
    ((∃ e, samsung_get_pll_settings pll rate = some e) ↔
      ∃ i e, i < pll.rate_count ∧ pll.rate_table[i]? = some e ∧ e.rate = rate) ∧
    (∀ e, samsung_get_pll_settings pll rate = some e →
      e.rate = rate ∧ ∃ i, i < pll.rate_count ∧ pll.rate_table[i]? = some e ∧
        ∀ j, j < i → ∀ e', pll.rate_table[j]? = some e' → e'.rate ≠ rate) := by
  refine ⟨⟨?_, ?_⟩, ?_⟩
  · rintro ⟨e, he⟩
    obtain ⟨hr, i, hi, hget, _⟩ :=
      get_pll_settings_loop_index rate pll.rate_count pll.rate_table e he
    exact ⟨i, e, hi, hget, hr⟩
  · exact get_pll_settings_loop_of_index rate pll.rate_count pll.rate_table
  · exact get_pll_settings_loop_index rate pll.rate_count pll.rate_table

/-! ## Return values of `set_rate` -/

/-- C13: the lock time of the fractional PLL is bounded.  On the full-rewrite
path of `clk_pll46xx_set_rate` the value written to the lock register is
`min (3000 * p mod 2^32) 0xFFFF` for every table entry: it never exceeds
`0xFFFF`, it is `3000 * p` for `p <= 21` and `0xFFFF` for `22 <= p <= 63`. -/
theorem pll46xx_lock_time_bounded (pll : samsung_clk_pll) (hw : Hw) (r : Regs)
    (drate : Nat) (e : samsung_pll_rate_table)
    (hfound : samsung_get_pll_settings pll drate = some e)
    (hchg : clk_pll46xx_mpk_change r.con r.con1 e = true) :
    (clk_pll46xx_set_rate pll hw r drate).regs.lock = min (3000 * e.pdiv % 2 ^ 32) 0xFFFF ∧
    Event.write Reg.lock (min (3000 * e.pdiv % 2 ^ 32) 0xFFFF) ∈
      (clk_pll46xx_set_rate pll hw r drate).trace ∧
    (clk_pll46xx_set_rate pll hw r drate).regs.lock ≤ 0xFFFF ∧
    (e.pdiv ≤ 21 → (clk_pll46xx_set_rate pll hw r drate).regs.lock = 3000 * e.pdiv) ∧
    (22 ≤ e.pdiv → e.pdiv ≤ 63 →
      (clk_pll46xx_set_rate pll hw r drate).regs.lock = 0xFFFF) := by
  have hl : pll46xx_lock_word e = min (3000 * e.pdiv % 2 ^ 32) 0xFFFF := by
    unfold pll46xx_lock_word u32 PLL46XX_LOCK_FACTOR
    rw [Nat.mul_comm e.pdiv 3000]
    generalize 3000 * e.pdiv % 2 ^ 32 = x
    split <;> omega
  rw [pll46xx_set_rate_full pll hw r drate e hfound hchg]
  simp only [hl]
  refine ⟨trivial, by simp, Nat.min_le_right _ _, ?_, ?_⟩
  · intro hp
    rw [Nat.mod_eq_of_lt (by omega)]
    omega
  · intro hp hp'
    rw [Nat.mod_eq_of_lt (by omega)]
    omega

theorem pll46xx_lock_time_bounded_witness :
    (clk_pll46xx_set_rate fout_aud_pll hw_late ⟨0, 0, 0⟩ 491519897).regs.lock =
      min (3000 * aud_entry.pdiv % 2 ^ 32) 0xFFFF ∧
    Event.write Reg.lock (min (3000 * aud_entry.pdiv % 2 ^ 32) 0xFFFF) ∈
      (clk_pll46xx_set_rate fout_aud_pll hw_late ⟨0, 0, 0⟩ 491519897).trace ∧
    (clk_pll46xx_set_rate fout_aud_pll hw_late ⟨0, 0, 0⟩ 491519897).regs.lock ≤ 0xFFFF ∧
    (aud_entry.pdiv ≤ 21 →
      (clk_pll46xx_set_rate fout_aud_pll hw_late ⟨0, 0, 0⟩ 491519897).regs.lock =
        3000 * aud_entry.pdiv) ∧
    (22 ≤ aud_entry.pdiv → aud_entry.pdiv ≤ 63 →
      (clk_pll46xx_set_rate fout_aud_pll hw_late ⟨0, 0, 0⟩ 491519897).regs.lock = 0xFFFF) :=
  pll46xx_lock_time_bounded fout_aud_pll hw_late ⟨0, 0, 0⟩ 491519897 aud_entry
    (by decide) (by decide)

/-! ## The full rewrite -/

theorem pll35xx_mp_change_true (rate : samsung_pll_rate_table) (c : Nat)
    (h : rate.mdiv ≠ c / 2 ^ 16 % 2 ^ 10 ∨ rate.pdiv ≠ c / 2 ^ 8 % 2 ^ 6) :
    samsung_pll35xx_mp_change rate c = true := by
  cases hc : samsung_pll35xx_mp_change rate c
  · obtain ⟨h1, h2⟩ := (pll35xx_mp_change_false rate c).mp hc
    rcases h with h | h
    · exact absurd h1.symm h
    · exact absurd h2.symm h
  · rfl

/-- C14, as the code has it: when the requested entry's `m` or `p` differs
from the latched M or P field, `samsung_pll35xx_set_rate` reads the control
register, writes `270 * p mod 2^32` to the lock register (`270 * p`, at most
17010 and below `2^16`, for every `p <= 63`) and then writes the control
register once, before any poll; for every entry with `m < 2^10`, `p < 2^6`,
`s < 2^3` the M, P and S fields of that word are the entry's `m`, `p`, `s` and
every other bit, the enable bit 31 among them, is as before. -/
theorem pll35xx_set_rate_full_rewrite (pll : samsung_clk_pll) (hw : Hw) (r : Regs)
    (drate : Nat) (e : samsung_pll_rate_table)
    (hfound : samsung_get_pll_settings pll drate = some e)
    (hdiff : e.mdiv ≠ r.con / 2 ^ 16 % 2 ^ 10 ∨ e.pdiv ≠ r.con / 2 ^ 8 % 2 ^ 6)
    (hcon : r.con < 2 ^ 32) :
    (∃ polls, (samsung_pll35xx_set_rate pll hw r drate).trace =
        [Event.read Reg.con r.con, Event.write Reg.lock (270 * e.pdiv % 2 ^ 32),
          Event.write Reg.con (samsung_pll35xx_set_rate pll hw r drate).regs.con] ++ polls ∧
        ∀ ev ∈ polls, ev.isPoll = true) ∧
    (samsung_pll35xx_set_rate pll hw r drate).regs.lock = 270 * e.pdiv % 2 ^ 32 ∧
    (samsung_pll35xx_set_rate pll hw r drate).regs.con1 = r.con1 ∧
    (e.pdiv ≤ 63 → 270 * e.pdiv % 2 ^ 32 = 270 * e.pdiv ∧ 270 * e.pdiv ≤ 17010 ∧
      270 * e.pdiv < 2 ^ 16) ∧
    (e.mdiv < 2 ^ 10 → e.pdiv < 2 ^ 6 → e.sdiv < 2 ^ 3 →
      (samsung_pll35xx_set_rate pll hw r drate).regs.con / 2 ^ 16 % 2 ^ 10 = e.mdiv ∧
      (samsung_pll35xx_set_rate pll hw r drate).regs.con / 2 ^ 8 % 2 ^ 6 = e.pdiv ∧
      (samsung_pll35xx_set_rate pll hw r drate).regs.con % 2 ^ 3 = e.sdiv ∧
      (samsung_pll35xx_set_rate pll hw r drate).regs.con / 2 ^ 26 = r.con / 2 ^ 26 ∧
      (samsung_pll35xx_set_rate pll hw r drate).regs.con / 2 ^ 14 % 2 ^ 2 =
        r.con / 2 ^ 14 % 2 ^ 2 ∧
      (samsung_pll35xx_set_rate pll hw r drate).regs.con / 2 ^ 3 % 2 ^ 5 =
        r.con / 2 ^ 3 % 2 ^ 5 ∧
      (samsung_pll35xx_set_rate pll hw r drate).regs.con.testBit 31 = r.con.testBit 31) := by
  have hchg := pll35xx_mp_change_true e r.con hdiff
  have hlock : u32 (e.pdiv * PLL35XX_LOCK_FACTOR) = 270 * e.pdiv % 2 ^ 32 := by
    unfold u32 PLL35XX_LOCK_FACTOR
    rw [Nat.mul_comm]
  have hcases : samsung_pll35xx_set_rate pll hw r drate =
      { ret := ulong_of_int (readl_poll_timeout hw (BIT pll.lock_offs)).1,
        regs := { r with lock := 270 * e.pdiv % 2 ^ 32, con := pll35xx_pms_word r.con e },
        trace := [Event.read Reg.con r.con, Event.write Reg.lock (270 * e.pdiv % 2 ^ 32),
          Event.write Reg.con (pll35xx_pms_word r.con e)] ++
          (readl_poll_timeout hw (BIT pll.lock_offs)).2 } ∨
      samsung_pll35xx_set_rate pll hw r drate =
      { ret := 0,
        regs := { r with lock := 270 * e.pdiv % 2 ^ 32, con := pll35xx_pms_word r.con e },
        trace := [Event.read Reg.con r.con, Event.write Reg.lock (270 * e.pdiv % 2 ^ 32),
          Event.write Reg.con (pll35xx_pms_word r.con e)] } := by
    rw [pll35xx_set_rate_full pll hw r drate e hfound hchg, hlock]
    split
    · exact Or.inl rfl
    · exact Or.inr rfl
  have hfields : e.mdiv < 2 ^ 10 → e.pdiv < 2 ^ 6 → e.sdiv < 2 ^ 3 →
      pll35xx_pms_word r.con e / 2 ^ 16 % 2 ^ 10 = e.mdiv ∧
      pll35xx_pms_word r.con e / 2 ^ 8 % 2 ^ 6 = e.pdiv ∧
      pll35xx_pms_word r.con e % 2 ^ 3 = e.sdiv ∧
      pll35xx_pms_word r.con e / 2 ^ 26 = r.con / 2 ^ 26 ∧
      pll35xx_pms_word r.con e / 2 ^ 14 % 2 ^ 2 = r.con / 2 ^ 14 % 2 ^ 2 ∧
      pll35xx_pms_word r.con e / 2 ^ 3 % 2 ^ 5 = r.con / 2 ^ 3 % 2 ^ 5 ∧
      (pll35xx_pms_word r.con e).testBit 31 = r.con.testBit 31 := by
    intro hm hp hs
    have hb := pll35xx_pms_word_bit31 r.con e (by omega) (by omega) (by omega)
    rw [pll35xx_pms_word_eq r.con e hcon hm hp hs] at hb ⊢
    refine ⟨?_, ?_, ?_, ?_, ?_, ?_, hb⟩ <;> omega
  have hp63 : e.pdiv ≤ 63 → 270 * e.pdiv % 2 ^ 32 = 270 * e.pdiv ∧ 270 * e.pdiv ≤ 17010 ∧
      270 * e.pdiv < 2 ^ 16 := by
    intro hp
    rw [Nat.mod_eq_of_lt (by omega)]
    omega
  rcases hcases with h | h
  · rw [h]
    refine ⟨⟨(readl_poll_timeout hw (BIT pll.lock_offs)).2, rfl, ?_⟩, rfl, rfl, hp63, hfields⟩
    exact (poll_loop_trace hw (BIT pll.lock_offs) hw.budget 0).2
  · rw [h]
    exact ⟨⟨[], rfl, by simp⟩, rfl, rfl, hp63, hfields⟩

theorem pll35xx_set_rate_full_rewrite_witness :
    (∃ polls, (samsung_pll35xx_set_rate sample_pll35xx hw_late
        ⟨0, 0x80000000, 0⟩ 800000000).trace =
        [Event.read Reg.con 0x80000000, Event.write Reg.lock (270 * 3 % 2 ^ 32),
          Event.write Reg.con (samsung_pll35xx_set_rate sample_pll35xx hw_late
            ⟨0, 0x80000000, 0⟩ 800000000).regs.con] ++ polls ∧
        ∀ ev ∈ polls, ev.isPoll = true) ∧
    (samsung_pll35xx_set_rate sample_pll35xx hw_late
      ⟨0, 0x80000000, 0⟩ 800000000).regs.lock = 270 * 3 % 2 ^ 32 ∧
    (samsung_pll35xx_set_rate sample_pll35xx hw_late
      ⟨0, 0x80000000, 0⟩ 800000000).regs.con1 = 0 ∧
    (3 ≤ 63 → 270 * 3 % 2 ^ 32 = 270 * 3 ∧ 270 * 3 ≤ 17010 ∧ 270 * 3 < 2 ^ 16) ∧
    (200 < 2 ^ 10 → 3 < 2 ^ 6 → 1 < 2 ^ 3 →
      (samsung_pll35xx_set_rate sample_pll35xx hw_late
        ⟨0, 0x80000000, 0⟩ 800000000).regs.con / 2 ^ 16 % 2 ^ 10 = 200 ∧
      (samsung_pll35xx_set_rate sample_pll35xx hw_late
        ⟨0, 0x80000000, 0⟩ 800000000).regs.con / 2 ^ 8 % 2 ^ 6 = 3 ∧
      (samsung_pll35xx_set_rate sample_pll35xx hw_late
        ⟨0, 0x80000000, 0⟩ 800000000).regs.con % 2 ^ 3 = 1 ∧
      (samsung_pll35xx_set_rate sample_pll35xx hw_late
        ⟨0, 0x80000000, 0⟩ 800000000).regs.con / 2 ^ 26 = 0x80000000 / 2 ^ 26 ∧
      (samsung_pll35xx_set_rate sample_pll35xx hw_late
        ⟨0, 0x80000000, 0⟩ 800000000).regs.con / 2 ^ 14 % 2 ^ 2 =
        0x80000000 / 2 ^ 14 % 2 ^ 2 ∧
      (samsung_pll35xx_set_rate sample_pll35xx hw_late
        ⟨0, 0x80000000, 0⟩ 800000000).regs.con / 2 ^ 3 % 2 ^ 5 =
        0x80000000 / 2 ^ 3 % 2 ^ 5 ∧
      (samsung_pll35xx_set_rate sample_pll35xx hw_late
        ⟨0, 0x80000000, 0⟩ 800000000).regs.con.testBit 31 =
        (0x80000000 : Nat).testBit 31) :=
  pll35xx_set_rate_full_rewrite sample_pll35xx hw_late ⟨0, 0x80000000, 0⟩ 800000000
    { rate := 800000000, pdiv := 3, mdiv := 200, sdiv := 1, kdiv := 0,
      afc := 0, mfr := 0, mrr := 0, vsel := 0 }
    (by decide) (by decide) (by decide)

/-- C14 as stated fails: the entry `p = 2^31` (an `unsigned int`) has an `m`
that differs from the latched M field, and `samsung_pll35xx_set_rate` writes 0
to the lock register, not `270 * p`: the product is computed in 32 bits. -/
theorem pll35xx_set_rate_lock_time_wraps :
    samsung_get_pll_settings wrap_pll35xx 100 =
      some { rate := 100, pdiv := 2 ^ 31, mdiv := 1, sdiv := 0, kdiv := 0,
             afc := 0, mfr := 0, mrr := 0, vsel := 0 } ∧
    (1 : Nat) ≠ 0 / 2 ^ 16 % 2 ^ 10 ∧
    samsung_pll35xx_set_rate wrap_pll35xx hw_never ⟨7, 0, 0⟩ 100 =
      { ret := 0, regs := ⟨0, 0x10000, 0⟩,
        trace := [Event.read Reg.con 0, Event.write Reg.lock 0,
          Event.write Reg.con 0x10000] } ∧
    270 * 2 ^ 31 ≠ 0 := by
  decide

/-- On the path that `clk_pll46xx_mpk_change` selects for a full rewrite, an
entry that fits the field widths is written as it is: M, P, S in the control
register and K, MFR, MRR in control register + 4, every other bit as before. -/
theorem pll46xx_full_rewrite_words (pll : samsung_clk_pll) (hw : Hw) (r : Regs)
    (drate : Nat) (e : samsung_pll_rate_table)
    (hfound : samsung_get_pll_settings pll drate = some e)
    (hchg : clk_pll46xx_mpk_change r.con r.con1 e = true)
    (hc0 : r.con < 2 ^ 32) (hc1 : r.con1 < 2 ^ 32)
    (hm : e.mdiv < 2 ^ 10) (hp : e.pdiv < 2 ^ 6) (hs : e.sdiv < 2 ^ 3)
    (hk : e.kdiv < 2 ^ 16) (hf : e.mfr < 2 ^ 6) (hr : e.mrr < 2 ^ 5) :
    ((clk_pll46xx_set_rate pll hw r drate).regs.con / 2 ^ 16 % 2 ^ 10 = e.mdiv ∧
      (clk_pll46xx_set_rate pll hw r drate).regs.con / 2 ^ 8 % 2 ^ 6 = e.pdiv ∧
      (clk_pll46xx_set_rate pll hw r drate).regs.con % 2 ^ 3 = e.sdiv ∧
      (clk_pll46xx_set_rate pll hw r drate).regs.con / 2 ^ 26 = r.con / 2 ^ 26 ∧
      (clk_pll46xx_set_rate pll hw r drate).regs.con / 2 ^ 14 % 2 ^ 2 =
        r.con / 2 ^ 14 % 2 ^ 2 ∧
      (clk_pll46xx_set_rate pll hw r drate).regs.con / 2 ^ 3 % 2 ^ 5 =
        r.con / 2 ^ 3 % 2 ^ 5) ∧
    ((clk_pll46xx_set_rate pll hw r drate).regs.con1 % 2 ^ 16 = e.kdiv ∧
      (clk_pll46xx_set_rate pll hw r drate).regs.con1 / 2 ^ 16 % 2 ^ 6 = e.mfr ∧
      (clk_pll46xx_set_rate pll hw r drate).regs.con1 / 2 ^ 24 % 2 ^ 5 = e.mrr ∧
      (clk_pll46xx_set_rate pll hw r drate).regs.con1 / 2 ^ 29 = r.con1 / 2 ^ 29 ∧
      (clk_pll46xx_set_rate pll hw r drate).regs.con1 / 2 ^ 22 % 2 ^ 2 =
        r.con1 / 2 ^ 22 % 2 ^ 2) := by
  rw [pll46xx_set_rate_full pll hw r drate e hfound hchg]
  simp only [pll46xx_con0_word_eq r.con e hc0 hm hp hs,
    pll46xx_con1_word_eq r.con1 e hc1 hk hf hr]
  refine ⟨⟨?_, ?_, ?_, ?_, ?_, ?_⟩, ?_, ?_, ?_, ?_, ?_⟩ <;> omega

/-- C15 (the code departs from the claim): the entry of the shipped table fits
the field widths and its `m = 20` differs from the latched M field 532 (bits
25:16), so the claim has the control register written with `M = 20` and
control register + 4 with `MFR = MRR = 0`.  `clk_pll46xx_set_rate` writes the
control register with the old M and never writes control register + 4:
`clk_pll46xx_mpk_change` compares `532 & 0x1FF = 20` with `m`. -/
theorem pll46xx_full_rewrite_skipped :
    aud_entry.mdiv ≠ 0x02140100 / 2 ^ 16 % 2 ^ 10 ∧
    (aud_entry.mdiv < 2 ^ 10 ∧ aud_entry.pdiv < 2 ^ 6 ∧ aud_entry.sdiv < 2 ^ 3 ∧
      aud_entry.kdiv < 2 ^ 16 ∧ aud_entry.mfr < 2 ^ 6 ∧ aud_entry.mrr < 2 ^ 5) ∧
    samsung_get_pll_settings fout_aud_pll 491519897 = some aud_entry ∧
    clk_pll46xx_set_rate fout_aud_pll hw_late ⟨0, 0x02140100, 0x1F3F7AE1⟩ 491519897 =
      { ret := 0, regs := ⟨0, 0x02140100, 0x1F3F7AE1⟩,
        trace := [Event.read Reg.con 0x02140100, Event.read Reg.con1 0x1F3F7AE1,
          Event.write Reg.con 0x02140100] } ∧
    0x02140100 / 2 ^ 16 % 2 ^ 10 = 532 ∧
    0x1F3F7AE1 / 2 ^ 16 % 2 ^ 6 = 63 ∧ 0x1F3F7AE1 / 2 ^ 24 % 2 ^ 5 = 31 := by
  decide

/-! ## Enable and disable -/

theorem register_pll_offs (t : samsung_pll_type)
    (tbl : Option (List samsung_pll_rate_table)) (pll : samsung_clk_pll)
    (hreg : samsung_clk_register_pll t tbl = some pll) (ht : t ≠ .pll_1460x) :
    pll.enable_offs = 31 ∧ pll.lock_offs = 29 ∧ pll.type = t := by
  unfold samsung_clk_register_pll at hreg
  simp only [Option.map_eq_some'] at hreg
  obtain ⟨ct, _, hpll⟩ := hreg
  cases t
  · subst hpll; exact ⟨rfl, rfl, rfl⟩
  · subst hpll; exact ⟨rfl, rfl, rfl⟩
  · exact absurd rfl ht

theorem enable_word (c : Nat) :
    u32 (c ||| BIT 31) = 2 ^ 31 * 1 + c % 2 ^ 31 := by
  apply eq_of_testBit_lt (n := 32)
  · exact u32_lt _
  · omega
  · intro i hi
    rw [Nat.testBit_mul_pow_two_add _ (by omega)]
    unfold BIT
    simp only [testBit_u32, Nat.testBit_or, Nat.testBit_shiftLeft, Nat.testBit_mod_two_pow]
    interval_cases i <;> simp

theorem disable_word (c : Nat) (hc : c < 2 ^ 32) :
    c &&& not32 (BIT 31) = c % 2 ^ 31 := by
  apply eq_of_testBit_lt (n := 32)
  · exact and_not32_lt _ _ hc
  · omega
  · intro i hi
    unfold BIT
    simp only [Nat.testBit_and, testBit_not32, Nat.testBit_shiftLeft, Nat.testBit_mod_two_pow]
    interval_cases i <;> simp

theorem pll35xx_recalc_congr (fin : Nat) (r r' : Regs)
    (h1 : r'.con / 2 ^ 16 % 2 ^ 10 = r.con / 2 ^ 16 % 2 ^ 10)
    (h2 : r'.con / 2 ^ 8 % 2 ^ 6 = r.con / 2 ^ 8 % 2 ^ 6)
    (h3 : r'.con % 2 ^ 3 = r.con % 2 ^ 3) :
    samsung_pll35xx_recalc_rate fin r' = samsung_pll35xx_recalc_rate fin r := by
  unfold samsung_pll35xx_recalc_rate PLL35XX_MDIV_SHIFT PLL35XX_PDIV_SHIFT PLL35XX_SDIV_SHIFT
    PLL35XX_MDIV_MASK PLL35XX_PDIV_MASK PLL35XX_SDIV_MASK
  rw [show (0x3FF : Nat) = 2 ^ 10 - 1 from rfl, show (0x3F : Nat) = 2 ^ 6 - 1 from rfl,
    show (0x7 : Nat) = 2 ^ 3 - 1 from rfl]
  simp only [field_eq, Nat.pow_zero, Nat.div_one, h1, h2, h3]

/-- C16: integer PLL enable.  For a PLL registered as pll_1451x or pll_1452x
and every control-register value `c`, `samsung_pll3xxx_enable` reads `c`, writes
`c` with bit 31 set and every other bit unchanged to the control register,
writes no other register, and then polls: it returns 0 if the lock-status bit
(bit 29) is seen set within the time-out and `-ETIMEDOUT` if it is never seen
set. -/
theorem pll3xxx_enable_sets_enable_bit (t : samsung_pll_type)
    (tbl : Option (List samsung_pll_rate_table)) (pll : samsung_clk_pll) (hw : Hw)
    (r : Regs) (hreg : samsung_clk_register_pll t tbl = some pll)
    (ht : t ≠ .pll_1460x) (hc : r.con < 2 ^ 32) :
    (samsung_pll3xxx_enable pll hw r).2.1 = { r with con := 2 ^ 31 + r.con % 2 ^ 31 } ∧
    (samsung_pll3xxx_enable pll hw r).2.2 =
      [Event.read Reg.con r.con, Event.write Reg.con (2 ^ 31 + r.con % 2 ^ 31)] ++
        (readl_poll_timeout hw (BIT 29)).2 ∧
    ((readl_poll_timeout hw (BIT 29)).2 ≠ [] ∧
      ∀ ev ∈ (readl_poll_timeout hw (BIT 29)).2, ev.isPoll = true) ∧
    ((2 ^ 31 + r.con % 2 ^ 31).testBit 31 = true ∧
      (2 ^ 31 + r.con % 2 ^ 31) % 2 ^ 31 = r.con % 2 ^ 31 ∧
      (2 ^ 31 + r.con % 2 ^ 31) / 2 ^ 32 = r.con / 2 ^ 32) ∧
    ((∃ k, k ≤ hw.budget ∧ (u32 (hw.status k)).testBit 29 = true) →
      (samsung_pll3xxx_enable pll hw r).1 = 0) ∧
    ((∀ k, k ≤ hw.budget → (u32 (hw.status k)).testBit 29 = false) →
      (samsung_pll3xxx_enable pll hw r).1 = -(ETIMEDOUT : Int)) := by
  obtain ⟨hen, hlk, _⟩ := register_pll_offs t tbl pll hreg ht
  have hw31 : u32 (r.con ||| BIT 31) = 2 ^ 31 + r.con % 2 ^ 31 := by
    rw [enable_word, Nat.mul_one]
  have hbit : (2 ^ 31 + r.con % 2 ^ 31).testBit 31 = true := by
    rw [Nat.testBit_two_pow_add_eq,
      testBit_of_lt (Nat.mod_lt r.con (Nat.two_pow_pos 31)) (le_refl 31)]
    rfl
  unfold samsung_pll3xxx_enable
  simp only [hen, hlk, hw31]
  refine ⟨trivial, trivial, poll_loop_trace hw (BIT 29) hw.budget 0,
    ⟨hbit, by omega, by omega⟩,
    readl_poll_timeout_seen hw 29, readl_poll_timeout_never hw 29⟩

theorem pll3xxx_enable_sets_enable_bit_witness :
    (samsung_pll3xxx_enable sample_pll35xx hw_late ⟨0, 0x00C80301, 0⟩).2.1 =
      { (⟨0, 0x00C80301, 0⟩ : Regs) with con := 2 ^ 31 + 0x00C80301 % 2 ^ 31 } ∧
    (samsung_pll3xxx_enable sample_pll35xx hw_late ⟨0, 0x00C80301, 0⟩).2.2 =
      [Event.read Reg.con 0x00C80301,
        Event.write Reg.con (2 ^ 31 + 0x00C80301 % 2 ^ 31)] ++
        (readl_poll_timeout hw_late (BIT 29)).2 ∧
    ((readl_poll_timeout hw_late (BIT 29)).2 ≠ [] ∧
      ∀ ev ∈ (readl_poll_timeout hw_late (BIT 29)).2, ev.isPoll = true) ∧
    ((2 ^ 31 + 0x00C80301 % 2 ^ 31).testBit 31 = true ∧
      (2 ^ 31 + 0x00C80301 % 2 ^ 31) % 2 ^ 31 = 0x00C80301 % 2 ^ 31 ∧
      (2 ^ 31 + 0x00C80301 % 2 ^ 31) / 2 ^ 32 = 0x00C80301 / 2 ^ 32) ∧
    ((∃ k, k ≤ hw_late.budget ∧ (u32 (hw_late.status k)).testBit 29 = true) →
      (samsung_pll3xxx_enable sample_pll35xx hw_late ⟨0, 0x00C80301, 0⟩).1 = 0) ∧
    ((∀ k, k ≤ hw_late.budget → (u32 (hw_late.status k)).testBit 29 = false) →
      (samsung_pll3xxx_enable sample_pll35xx hw_late ⟨0, 0x00C80301, 0⟩).1 =
        -(ETIMEDOUT : Int)) :=
  pll3xxx_enable_sets_enable_bit .pll_1452x
    (some (sample_pll35xx.rate_table ++ [sentinel])) sample_pll35xx hw_late
    ⟨0, 0x00C80301, 0⟩ (by decide) (by decide) (by decide)

/-- C17: integer PLL disable.  For a PLL registered as pll_1451x or pll_1452x
and every control-register value `c`, `samsung_pll3xxx_disable` reads `c`,
writes `c` with bit 31 cleared and every other bit unchanged to the control
register, writes no other register, polls nothing and returns 0; a second
disable writes the same word again, and `samsung_pll35xx_recalc_rate` returns
after the disable what it returned before. -/
theorem pll3xxx_disable_clears_enable_bit (t : samsung_pll_type)
    (tbl : Option (List samsung_pll_rate_table)) (pll : samsung_clk_pll)
    (r : Regs) (fin : Nat) (hreg : samsung_clk_register_pll t tbl = some pll)
    (ht : t ≠ .pll_1460x) (hc : r.con < 2 ^ 32) :
    samsung_pll3xxx_disable pll r =
      (0, { r with con := r.con % 2 ^ 31 },
        [Event.read Reg.con r.con, Event.write Reg.con (r.con % 2 ^ 31)]) ∧
    ((r.con % 2 ^ 31).testBit 31 = false ∧ (r.con % 2 ^ 31) % 2 ^ 31 = r.con % 2 ^ 31 ∧
      r.con % 2 ^ 31 < 2 ^ 32) ∧
    (samsung_pll3xxx_disable pll (samsung_pll3xxx_disable pll r).2.1).2.1 =
      (samsung_pll3xxx_disable pll r).2.1 ∧
    (samsung_pll3xxx_disable pll (samsung_pll3xxx_disable pll r).2.1).1 = 0 ∧
    samsung_pll35xx_recalc_rate fin (samsung_pll3xxx_disable pll r).2.1 =
      samsung_pll35xx_recalc_rate fin r := by
  obtain ⟨hen, _, _⟩ := register_pll_offs t tbl pll hreg ht
  have hdis : ∀ r' : Regs, r'.con < 2 ^ 32 → samsung_pll3xxx_disable pll r' =
      (0, { r' with con := r'.con % 2 ^ 31 },
        [Event.read Reg.con r'.con, Event.write Reg.con (r'.con % 2 ^ 31)]) := by
    intro r' h'
    unfold samsung_pll3xxx_disable
    simp only [hen, disable_word r'.con h']
  have hlt : r.con % 2 ^ 31 < 2 ^ 32 := by omega
  refine ⟨hdis r hc, ⟨testBit_of_lt (Nat.mod_lt r.con (Nat.two_pow_pos 31)) (le_refl 31),
    Nat.mod_mod _ _, hlt⟩, ?_, ?_, ?_⟩
  · rw [hdis r hc, hdis { r with con := r.con % 2 ^ 31 } hlt]
    simp only [Nat.mod_mod]
  · rw [hdis r hc, hdis { r with con := r.con % 2 ^ 31 } hlt]
  · rw [hdis r hc]
    apply pll35xx_recalc_congr <;> simp only <;> omega

theorem pll3xxx_disable_clears_enable_bit_witness :
    samsung_pll3xxx_disable sample_pll35xx ⟨0, 0xA0C80301, 0⟩ =
      (0, { (⟨0, 0xA0C80301, 0⟩ : Regs) with con := 0xA0C80301 % 2 ^ 31 },
        [Event.read Reg.con 0xA0C80301, Event.write Reg.con (0xA0C80301 % 2 ^ 31)]) ∧
    ((0xA0C80301 % 2 ^ 31).testBit 31 = false ∧
      (0xA0C80301 % 2 ^ 31) % 2 ^ 31 = 0xA0C80301 % 2 ^ 31 ∧
      0xA0C80301 % 2 ^ 31 < 2 ^ 32) ∧
    (samsung_pll3xxx_disable sample_pll35xx
      (samsung_pll3xxx_disable sample_pll35xx ⟨0, 0xA0C80301, 0⟩).2.1).2.1 =
      (samsung_pll3xxx_disable sample_pll35xx ⟨0, 0xA0C80301, 0⟩).2.1 ∧
    (samsung_pll3xxx_disable sample_pll35xx
      (samsung_pll3xxx_disable sample_pll35xx ⟨0, 0xA0C80301, 0⟩).2.1).1 = 0 ∧
    samsung_pll35xx_recalc_rate 24000000
      (samsung_pll3xxx_disable sample_pll35xx ⟨0, 0xA0C80301, 0⟩).2.1 =
      samsung_pll35xx_recalc_rate 24000000 ⟨0, 0xA0C80301, 0⟩ :=
  pll3xxx_disable_clears_enable_bit .pll_1452x
    (some (sample_pll35xx.rate_table ++ [sentinel])) sample_pll35xx
    ⟨0, 0xA0C80301, 0⟩ 24000000 (by decide) (by decide) (by decide)

/-! ## Traces and registers agree -/

theorem write_back_polls : ∀ (l : List Event) (r : Regs),
    (∀ ev ∈ l, ev.isPoll = true) → write_back r l = r
  | [], _, _ => rfl
  | Event.poll _ :: t, r, h => by
    simpa [write_back] using write_back_polls t r (fun ev hev => h ev (List.mem_cons_of_mem _ hev))
  | Event.read _ _ :: _, _, h => by
    have := h _ (List.mem_cons_self _ _)
    simp [Event.isPoll] at this
  | Event.write _ _ :: _, _, h => by
    have := h _ (List.mem_cons_self _ _)
    simp [Event.isPoll] at this

/-- The registers `samsung_pll35xx_set_rate` returns are those its writes leave. -/
theorem pll35xx_set_rate_write_back (pll : samsung_clk_pll) (hw : Hw) (r : Regs)
    (drate : Nat) :
    (samsung_pll35xx_set_rate pll hw r drate).regs =
      write_back r (samsung_pll35xx_set_rate pll hw r drate).trace := by
  cases hf : samsung_get_pll_settings pll drate with
  | none => rw [pll35xx_set_rate_none pll hw r drate hf]; rfl
  | some e =>
    cases hc : samsung_pll35xx_mp_change e r.con
    · rw [pll35xx_set_rate_s_only pll hw r drate e hf hc]; rfl
    · rw [pll35xx_set_rate_full pll hw r drate e hf hc]
      split
      · simp only [List.cons_append, List.nil_append, write_back]
        exact (write_back_polls _ _ (poll_loop_trace hw _ hw.budget 0).2).symm
      · rfl

/-- The registers `clk_pll46xx_set_rate` returns are those its writes leave. -/
theorem pll46xx_set_rate_write_back (pll : samsung_clk_pll) (hw : Hw) (r : Regs)
    (drate : Nat) :
    (clk_pll46xx_set_rate pll hw r drate).regs =
      write_back r (clk_pll46xx_set_rate pll hw r drate).trace := by
  cases hf : samsung_get_pll_settings pll drate with
  | none => simp [clk_pll46xx_set_rate, hf, write_back]
  | some e =>
    cases hc : clk_pll46xx_mpk_change r.con r.con1 e
    · rw [pll46xx_set_rate_s_only pll hw r drate e hf hc]; rfl
    · rw [pll46xx_set_rate_full pll hw r drate e hf hc]
      simp only [List.cons_append, List.nil_append, write_back]
      exact (write_back_polls _ _ (poll_loop_trace hw _ hw.budget 0).2).symm

/-- C18: `get_rate` is idempotent for both PLL families.
`samsung_pll35xx_recalc_rate` and `clk_pll46xx_recalc_rate` only read: their
traces hold no write, the registers are left as they were, and a second call
on the registers the first one leaves returns the same value with the same
registers, for every register state and parent rate. -/
theorem get_rate_idempotent (fin : Nat) (r : Regs) :
    ((∀ ev ∈ (samsung_pll35xx_get_rate fin r).trace, ev.isWrite = false) ∧
      (samsung_pll35xx_get_rate fin r).regs = r ∧
      (samsung_pll35xx_get_rate fin (samsung_pll35xx_get_rate fin r).regs).ret =
        (samsung_pll35xx_get_rate fin r).ret ∧
      (samsung_pll35xx_get_rate fin (samsung_pll35xx_get_rate fin r).regs).regs = r) ∧
    ((∀ ev ∈ (clk_pll46xx_get_rate fin r).trace, ev.isWrite = false) ∧
      (clk_pll46xx_get_rate fin r).regs = r ∧
      (clk_pll46xx_get_rate fin (clk_pll46xx_get_rate fin r).regs).ret =
        (clk_pll46xx_get_rate fin r).ret ∧
      (clk_pll46xx_get_rate fin (clk_pll46xx_get_rate fin r).regs).regs = r) := by
  have h35 : (samsung_pll35xx_get_rate fin r).regs = r := rfl
  have h46 : (clk_pll46xx_get_rate fin r).regs = r := rfl
  refine ⟨⟨?_, h35, by rw [h35], by rw [h35]; rfl⟩, ?_, h46, by rw [h46], by rw [h46]; rfl⟩
  · intro ev hev
    simp only [samsung_pll35xx_get_rate, List.mem_singleton] at hev
    subst hev
    rfl
  · intro ev hev
    simp only [clk_pll46xx_get_rate, List.mem_cons, List.mem_singleton, List.mem_nil_iff,
      or_false] at hev
    rcases hev with rfl | rfl <;> rfl

/-! ## Operation tables -/

theorem pll3xxx_enable_eq (pll : samsung_clk_pll) (hw : Hw) (r : Regs)
    (hen : pll.enable_offs = 31) (hlk : pll.lock_offs = 29) :
    samsung_pll3xxx_enable pll hw r =
      ((readl_poll_timeout hw (BIT 29)).1, { r with con := 2 ^ 31 + r.con % 2 ^ 31 },
        [Event.read Reg.con r.con, Event.write Reg.con (2 ^ 31 + r.con % 2 ^ 31)] ++
          (readl_poll_timeout hw (BIT 29)).2) := by
  have hw31 : u32 (r.con ||| BIT 31) = 2 ^ 31 + r.con % 2 ^ 31 := by
    rw [enable_word, Nat.mul_one]
  unfold samsung_pll3xxx_enable
  simp only [hen, hlk, hw31]

theorem pll3xxx_disable_eq (pll : samsung_clk_pll) (r : Regs)
    (hen : pll.enable_offs = 31) (hc : r.con < 2 ^ 32) :
    samsung_pll3xxx_disable pll r =
      (0, { r with con := r.con % 2 ^ 31 },
        [Event.read Reg.con r.con, Event.write Reg.con (r.con % 2 ^ 31)]) := by
  unfold samsung_pll3xxx_disable
  simp only [hen, disable_word r.con hc]

theorem testBit_31_set (x : Nat) : (2 ^ 31 + x % 2 ^ 31).testBit 31 = true := by
  rw [Nat.testBit_two_pow_add_eq,
    testBit_of_lt (Nat.mod_lt x (Nat.two_pow_pos 31)) (le_refl 31)]
  rfl

/-- C19, as the code has it: a PLL registered as pll_1451x or pll_1452x is bound
to an operation table with an enable operation, which sets the enable bit (bit
31) and then waits for lock by polling, and a disable operation, which clears
that bit; a PLL registered as pll_1460x is bound to a table with `get_rate` and
`set_rate` only, without enable or disable. -/
theorem pll_enable_disable_ops (t : samsung_pll_type)
    (tbl : Option (List samsung_pll_rate_table)) (pll : samsung_clk_pll) (hw : Hw)
    (r : Regs) (hreg : samsung_clk_register_pll t tbl = some pll)
    (hc : r.con < 2 ^ 32) :
    (t ≠ .pll_1460x →
      (driver_ops pll.type).enable = some samsung_pll3xxx_enable ∧
      (driver_ops pll.type).disable = some samsung_pll3xxx_disable ∧
      (samsung_pll3xxx_enable pll hw r).2.1.con.testBit 31 = true ∧
      (∃ ev ∈ (samsung_pll3xxx_enable pll hw r).2.2, ev.isPoll = true) ∧
      (samsung_pll3xxx_disable pll r).2.1.con.testBit 31 = false) ∧
    (t = .pll_1460x →
      (driver_ops pll.type).enable = none ∧ (driver_ops pll.type).disable = none ∧
      (driver_ops pll.type).get_rate = some clk_pll46xx_recalc_rate ∧
      (driver_ops pll.type).set_rate = some clk_pll46xx_set_rate) := by
  constructor
  · intro ht
    obtain ⟨hen, hlk, hty⟩ := register_pll_offs t tbl pll hreg ht
    have hops : driver_ops pll.type = clk_pll3xxx_ops := by
      rw [hty]
      cases t
      · rfl
      · rfl
      · exact absurd rfl ht
    rw [hops, pll3xxx_enable_eq pll hw r hen hlk, pll3xxx_disable_eq pll r hen hc]
    refine ⟨rfl, rfl, testBit_31_set r.con, ?_,
      testBit_of_lt (Nat.mod_lt r.con (Nat.two_pow_pos 31)) (le_refl 31)⟩
    obtain ⟨hne, hall⟩ := poll_loop_trace hw (BIT 29) hw.budget 0
    obtain ⟨ev, hev⟩ := List.exists_mem_of_ne_nil _ hne
    exact ⟨ev, by simp [readl_poll_timeout, hev], hall ev hev⟩
  · intro ht
    subst ht
    unfold samsung_clk_register_pll at hreg
    simp only [Option.map_eq_some'] at hreg
    obtain ⟨ct, _, hpll⟩ := hreg
    subst hpll
    exact ⟨rfl, rfl, rfl, rfl⟩

theorem pll_enable_disable_ops_witness :
    ((samsung_pll_type.pll_1452x ≠ .pll_1460x →
      (driver_ops sample_pll35xx.type).enable = some samsung_pll3xxx_enable ∧
      (driver_ops sample_pll35xx.type).disable = some samsung_pll3xxx_disable ∧
      (samsung_pll3xxx_enable sample_pll35xx hw_late
        ⟨0, 0x00C80301, 0⟩).2.1.con.testBit 31 = true ∧
      (∃ ev ∈ (samsung_pll3xxx_enable sample_pll35xx hw_late ⟨0, 0x00C80301, 0⟩).2.2,
        ev.isPoll = true) ∧
      (samsung_pll3xxx_disable sample_pll35xx ⟨0, 0x00C80301, 0⟩).2.1.con.testBit 31 =
        false) ∧
    (samsung_pll_type.pll_1452x = .pll_1460x →
      (driver_ops sample_pll35xx.type).enable = none ∧
      (driver_ops sample_pll35xx.type).disable = none ∧
      (driver_ops sample_pll35xx.type).get_rate = some clk_pll46xx_recalc_rate ∧
      (driver_ops sample_pll35xx.type).set_rate = some clk_pll46xx_set_rate)) ∧
    ((samsung_pll_type.pll_1460x ≠ .pll_1460x →
      (driver_ops fout_aud_pll.type).enable = some samsung_pll3xxx_enable ∧
      (driver_ops fout_aud_pll.type).disable = some samsung_pll3xxx_disable ∧
      (samsung_pll3xxx_enable fout_aud_pll hw_late ⟨0, 0, 0⟩).2.1.con.testBit 31 = true ∧
      (∃ ev ∈ (samsung_pll3xxx_enable fout_aud_pll hw_late ⟨0, 0, 0⟩).2.2,
        ev.isPoll = true) ∧
      (samsung_pll3xxx_disable fout_aud_pll ⟨0, 0, 0⟩).2.1.con.testBit 31 = false) ∧
    (samsung_pll_type.pll_1460x = .pll_1460x →
      (driver_ops fout_aud_pll.type).enable = none ∧
      (driver_ops fout_aud_pll.type).disable = none ∧
      (driver_ops fout_aud_pll.type).get_rate = some clk_pll46xx_recalc_rate ∧
      (driver_ops fout_aud_pll.type).set_rate = some clk_pll46xx_set_rate)) :=
  ⟨pll_enable_disable_ops .pll_1452x (some (sample_pll35xx.rate_table ++ [sentinel]))
      sample_pll35xx hw_late ⟨0, 0x00C80301, 0⟩ (by decide) (by decide),
   pll_enable_disable_ops .pll_1460x (some pll1460x_24mhz_tbl) fout_aud_pll hw_late
      ⟨0, 0, 0⟩ (by decide) (by decide)⟩

/-- C19 as stated fails: `fout_aud_pll` is registered as pll_1460x, and the
operation table bound to that sub-type has neither an enable nor a disable
operation. -/
theorem pll1460x_has_no_enable :
    samsung_clk_register_pll .pll_1460x (some pll1460x_24mhz_tbl) = some fout_aud_pll ∧
    (driver_ops fout_aud_pll.type).enable = none ∧
    (driver_ops fout_aud_pll.type).disable = none :=
  ⟨by decide, rfl, rfl⟩

/-! ## `clk.c`: unknown clocks -/

/-- C20: unknown clock on the by-id surface.  For each of
`samsung_clk_get_rate`, `samsung_clk_set_rate`, `samsung_clk_enable`,
`samsung_clk_disable` and `samsung_clk_set_parent`, when `clk_get_by_id` fails
for the clock's id the function returns that error (as an `unsigned long` for
the first two) after the one lookup: no node operation is called and the state
is untouched.  `samsung_clk_set_parent` looks the child up first; when that
succeeds and the lookup of the parent fails, it returns the parent's error
after the two lookups, again without a node operation. -/
theorem samsung_clk_unknown_id {C S : Type} (u : clk_uclass C S) (id pid rate : Nat)
    (s : S) :
    ((u.clk_get_by_id id).1 ≠ 0 →
      samsung_clk_get_rate u id s =
        { ret := ulong_of_int (u.clk_get_by_id id).1, state := s,
          calls := [Call.get_by_id id] } ∧
      samsung_clk_set_rate u id rate s =
        { ret := ulong_of_int (u.clk_get_by_id id).1, state := s,
          calls := [Call.get_by_id id] } ∧
      samsung_clk_enable u id s =
        { ret := (u.clk_get_by_id id).1, state := s, calls := [Call.get_by_id id] } ∧
      samsung_clk_disable u id s =
        { ret := (u.clk_get_by_id id).1, state := s, calls := [Call.get_by_id id] } ∧
      samsung_clk_set_parent u id pid s =
        { ret := (u.clk_get_by_id id).1, state := s, calls := [Call.get_by_id id] }) ∧
    ((u.clk_get_by_id id).1 = 0 → (u.clk_get_by_id pid).1 ≠ 0 →
      samsung_clk_set_parent u id pid s =
        { ret := (u.clk_get_by_id pid).1, state := s,
          calls := [Call.get_by_id id, Call.get_by_id pid] }) ∧
    (∀ c ∈ [Call.get_by_id id, Call.get_by_id pid], Call.isNodeOp (C := C) c = false) := by
  refine ⟨fun h => ⟨?_, ?_, ?_, ?_, ?_⟩, fun h0 hp => ?_, ?_⟩
  · simp [samsung_clk_get_rate, h]
  · simp [samsung_clk_set_rate, h]
  · simp [samsung_clk_enable, __samsung_clk_enable, h]
  · simp [samsung_clk_disable, __samsung_clk_enable, h]
  · simp [samsung_clk_set_parent, h]
  · simp [samsung_clk_set_parent, h0, hp]
  · intro c hc
    simp only [List.mem_cons, List.mem_singleton, List.mem_nil_iff, or_false] at hc
    rcases hc with rfl | rfl <;> rfl

theorem samsung_clk_unknown_id_witness :
    (samsung_clk_get_rate sample_uclass 7 5).ret = 2 ^ 64 - 2 ∧
    (samsung_clk_get_rate sample_uclass 7 5).state = 5 ∧
    (samsung_clk_set_parent sample_uclass 1 9 5).ret = -2 ∧
    (samsung_clk_set_parent sample_uclass 1 9 5).state = 5 := by
  have h1 := (samsung_clk_unknown_id sample_uclass 7 9 1000 5).1 (by decide)
  have h2 := (samsung_clk_unknown_id sample_uclass 1 9 1000 5).2.1 (by decide) (by decide)
  rw [h1.1, h2]
  exact ⟨by decide, rfl, by decide, rfl⟩

/-! ## The two rate formulas -/

theorem ulong_of_int_of_bits (x : Nat) (h : x < 2 ^ 31) :
    ulong_of_int (int_of_bits x) = x := by
  unfold ulong_of_int int_of_bits
  have h32 : x % 2 ^ 32 = x := Nat.mod_eq_of_lt (by omega)
  rw [h32, if_pos h]
  omega

theorem PLL_RATE_eq (fin m p s k : Nat) (hp : 1 ≤ p) (hps : p <<< s < 2 ^ 31)
    (hov : fin * (2 ^ 16 * m + k) < 2 ^ 64) :
    PLL_RATE fin m p s k 16 = some (fin * (2 ^ 16 * m + k) / 2 ^ 16 / (p <<< s)) := by
  have hpos : p <<< s ≠ 0 := by
    rw [Nat.shiftLeft_eq]
    exact Nat.pos_iff_ne_zero.mp (Nat.mul_pos hp (Nat.two_pow_pos s))
  unfold PLL_RATE u64 BIT
  simp only [ulong_of_int_of_bits _ hps, if_neg hpos]
  rw [show (1 <<< 16 : Nat) = 2 ^ 16 from rfl, Nat.mod_eq_of_lt hov]

theorem div_div_swap (x a b : Nat) : x / a / b = x / b / a := by
  rw [Nat.div_div_eq_div_mul, Nat.div_div_eq_div_mul, Nat.mul_comm]

/-- C24 (as stated, refuted): `fin = 2^47`, `m = 1`, `p = 1`, `s = 31`, `k = 0`
satisfy `p >= 1` and `fin * (2^16 * m + k) < 2^64`, and the three formulas of
the claim give 65536; but the macro shifts `1 << 31` in an `int`, which leaves
`-2^31`, and divides by its conversion to `u64`, `2^64 - 2^31`:
`PLL_RATE(2^47, 1, 1, 31, 0, 16)` is 0. -/
theorem PLL_RATE_shift_overflows :
    (1 ≤ 1 ∧ 2 ^ 47 * (2 ^ 16 * 1 + 0) < 2 ^ 64) ∧
    int_of_bits (1 <<< 31) = -2 ^ 31 ∧
    ulong_of_int (int_of_bits (1 <<< 31)) = 2 ^ 64 - 2 ^ 31 ∧
    PLL_RATE (2 ^ 47) 1 1 31 0 16 = some 0 ∧
    2 ^ 47 * (2 ^ 16 * 1 + 0) / 2 ^ 16 / (1 <<< 31) = 65536 ∧
    (2 ^ 47 * ((1 <<< 16) + 0) / (1 <<< 31)) >>> 16 = 65536 ∧
    2 ^ 47 * 1 / (1 <<< 31) = 65536 := by
  decide

/-- C24 (amended): the build-time formula and the read-back formula agree where
the shift of the macro stays within an `int`.  For all `fin`, `m`, `k`,
`p >= 1` and `s` with `p << s < 2^31` and `fin * (2^16 * m + k) < 2^64`,
`PLL_RATE(fin, m, p, s, k, 16)` has the value
`fin * (2^16 * m + k) / 2^16 / (p << s)`, which divides by `2^16` first, and
this equals `(fin * ((m << 16) + k) / (p << s)) >> 16`, which divides by
`p << s` first and is what `clk_pll46xx_recalc_rate` returns on registers
holding `m`, `p`, `s`, `k`; with `k = 0` both equal `fin * m / (p << s)`, which
is what `samsung_pll35xx_recalc_rate` returns on such registers. -/
theorem PLL_RATE_agrees_with_recalc (fin m p s k : Nat) (r : Regs) (hp : 1 ≤ p)
    (hps : p <<< s < 2 ^ 31) (hov : fin * (2 ^ 16 * m + k) < 2 ^ 64) :
    PLL_RATE fin m p s k 16 = some (fin * (2 ^ 16 * m + k) / 2 ^ 16 / (p <<< s)) ∧
    PLL_RATE fin m p s k 16 = some ((fin * ((m <<< 16) + k) / (p <<< s)) >>> 16) ∧
    (r.con / 2 ^ 16 % 2 ^ 10 = m → r.con / 2 ^ 8 % 2 ^ 6 = p → r.con % 2 ^ 3 = s →
      r.con1 % 2 ^ 16 = k →
      clk_pll46xx_recalc_rate fin r = PLL_RATE fin m p s k 16) ∧
    (k = 0 → PLL_RATE fin m p s k 16 = some (fin * m / (p <<< s))) ∧
    (k = 0 → r.con / 2 ^ 16 % 2 ^ 10 = m → r.con / 2 ^ 8 % 2 ^ 6 = p → r.con % 2 ^ 3 = s →
      samsung_pll35xx_recalc_rate fin r = PLL_RATE fin m p s k 16) := by
  have h1 := PLL_RATE_eq fin m p s k hp hps hov
  have hk0 : k = 0 → PLL_RATE fin m p s k 16 = some (fin * m / (p <<< s)) := by
    intro hk
    rw [h1, hk, Nat.add_zero, Nat.mul_comm (2 ^ 16) m, ← Nat.mul_assoc,
      Nat.mul_div_cancel _ (Nat.two_pow_pos 16)]
  refine ⟨h1, ?_, ?_, hk0, ?_⟩
  · rw [h1, Nat.shiftRight_eq_div_pow, Nat.shiftLeft_eq m 16, Nat.mul_comm m (2 ^ 16)]
    exact congrArg some (div_div_swap _ _ _)
  · intro hM hP hS hK
    have hov' : fin * ((r.con / 2 ^ 16 % 2 ^ 10) * 2 ^ 16 + r.con1 % 2 ^ 16) < 2 ^ 64 := by
      rw [hM, hK, Nat.mul_comm m (2 ^ 16)]; exact hov
    rw [pll46xx_recalc_of_fields fin r (by rw [hP]; omega) hov', h1, hM, hP, hS, hK,
      Nat.shiftLeft_eq, Nat.mul_comm m (2 ^ 16)]
    exact congrArg some (div_div_swap _ _ _)
  · intro hk hM hP hS
    have hle : fin * m ≤ fin * (2 ^ 16 * m + k) :=
      Nat.mul_le_mul_left fin (by omega)
    have hov' : fin * (r.con / 2 ^ 16 % 2 ^ 10) < 2 ^ 64 := by
      rw [hM]; exact lt_of_le_of_lt hle hov
    rw [pll35xx_recalc_of_fields fin r (by rw [hP]; omega) hov', hk0 hk, hM, hP, hS,
      Nat.shiftLeft_eq]

theorem PLL_RATE_agrees_with_recalc_witness :
    PLL_RATE 24000000 20 1 0 31457 16 =
      some (24000000 * (2 ^ 16 * 20 + 31457) / 2 ^ 16 / (1 <<< 0)) ∧
    PLL_RATE 24000000 20 1 0 31457 16 =
      some ((24000000 * ((20 <<< 16) + 31457) / (1 <<< 0)) >>> 16) ∧
    ((⟨0, 0x00140100, 31457⟩ : Regs).con / 2 ^ 16 % 2 ^ 10 = 20 →
      (⟨0, 0x00140100, 31457⟩ : Regs).con / 2 ^ 8 % 2 ^ 6 = 1 →
      (⟨0, 0x00140100, 31457⟩ : Regs).con % 2 ^ 3 = 0 →
      (⟨0, 0x00140100, 31457⟩ : Regs).con1 % 2 ^ 16 = 31457 →
      clk_pll46xx_recalc_rate 24000000 ⟨0, 0x00140100, 31457⟩ =
        PLL_RATE 24000000 20 1 0 31457 16) ∧
    (31457 = 0 → PLL_RATE 24000000 20 1 0 31457 16 = some (24000000 * 20 / (1 <<< 0))) ∧
    (31457 = 0 → (⟨0, 0x00140100, 31457⟩ : Regs).con / 2 ^ 16 % 2 ^ 10 = 20 →
      (⟨0, 0x00140100, 31457⟩ : Regs).con / 2 ^ 8 % 2 ^ 6 = 1 →
      (⟨0, 0x00140100, 31457⟩ : Regs).con % 2 ^ 3 = 0 →
      samsung_pll35xx_recalc_rate 24000000 ⟨0, 0x00140100, 31457⟩ =
        PLL_RATE 24000000 20 1 0 31457 16) :=
  PLL_RATE_agrees_with_recalc 24000000 20 1 0 31457 ⟨0, 0x00140100, 31457⟩
    (by decide) (by decide) (by decide)

/-- C25: integer PLL `set_rate` is idempotent.  For every initial
control-register value and every table entry with `m < 2^10`, `p < 2^6`,
`s < 2^3` found for `R`: after one successful `samsung_pll35xx_set_rate(R)`,
whatever the hardware made of the lock-status bit, a second
`samsung_pll35xx_set_rate(R)` reads the control register and writes the very
value it read, writes no lock register, polls nothing and returns 0. -/
theorem pll35xx_set_rate_idempotent (pll : samsung_clk_pll) (hw hw' : Hw) (r : Regs)
    (R : Nat) (e : samsung_pll_rate_table) (c' : Nat)
    (hfound : samsung_get_pll_settings pll R = some e) (hcon : r.con < 2 ^ 32)
    (hm : e.mdiv < 2 ^ 10) (hp : e.pdiv < 2 ^ 6) (hs : e.sdiv < 2 ^ 3)
    (_hok : (samsung_pll35xx_set_rate pll hw r R).ret = 0)
    (hc' : same_but_lock_stat c' (samsung_pll35xx_set_rate pll hw r R).regs.con)
    (hc32 : c' < 2 ^ 32) :
    samsung_pll35xx_set_rate pll hw'
        { (samsung_pll35xx_set_rate pll hw r R).regs with con := c' } R =
      { ret := 0, regs := { (samsung_pll35xx_set_rate pll hw r R).regs with con := c' },
        trace := [Event.read Reg.con c', Event.write Reg.con c'] } := by
  obtain ⟨f1, f2, f3⟩ := pll35xx_set_rate_fields pll hw r R e hfound hcon hm hp hs
  obtain ⟨c1, c2⟩ := hc'
  generalize (samsung_pll35xx_set_rate pll hw r R).regs = r1 at f1 f2 f3 c1 c2 ⊢
  have g1 : c' / 2 ^ 16 % 2 ^ 10 = e.mdiv := by omega
  have g2 : c' / 2 ^ 8 % 2 ^ 6 = e.pdiv := by omega
  have g3 : c' % 2 ^ 3 = e.sdiv := by omega
  have hc : samsung_pll35xx_mp_change e ({ r1 with con := c' } : Regs).con = false :=
    (pll35xx_mp_change_false e c').mpr ⟨g1, g2⟩
  have hword : pll35xx_s_word c' e = c' := by
    rw [pll35xx_s_word_eq c' e hc32 hs]; omega
  rw [pll35xx_set_rate_s_only pll hw' { r1 with con := c' } R e hfound hc]
  simp only [hword]

theorem pll35xx_set_rate_idempotent_witness :
    samsung_pll35xx_set_rate sample_pll35xx hw_never
        { (samsung_pll35xx_set_rate sample_pll35xx hw_late
            ⟨0, 0x80000000, 0⟩ 800000000).regs with con := 0xA0C80301 } 800000000 =
      { ret := 0,
        regs := { (samsung_pll35xx_set_rate sample_pll35xx hw_late
            ⟨0, 0x80000000, 0⟩ 800000000).regs with con := 0xA0C80301 },
        trace := [Event.read Reg.con 0xA0C80301, Event.write Reg.con 0xA0C80301] } :=
  pll35xx_set_rate_idempotent sample_pll35xx hw_late hw_never ⟨0, 0x80000000, 0⟩ 800000000
    { rate := 800000000, pdiv := 3, mdiv := 200, sdiv := 1, kdiv := 0,
      afc := 0, mfr := 0, mrr := 0, vsel := 0 } 0xA0C80301
    (by decide) (by decide) (by decide) (by decide) (by decide) (by decide) (by decide)
    (by decide)

/-! ## Registration and the sentinel -/

theorem rate_table_len_spec :
    ∀ (tbl : List samsung_pll_rate_table), (∃ e ∈ tbl, e.rate = 0) →
      ∃ n, rate_table_len tbl = some n ∧
        (∃ e, tbl[n]? = some e ∧ e.rate = 0) ∧
        ∀ j, j < n → ∀ e, tbl[j]? = some e → e.rate ≠ 0
  | [], h => by
    obtain ⟨e, he, _⟩ := h
    exact absurd he (List.not_mem_nil e)
  | x :: xs, h => by
    by_cases hx : x.rate = 0
    · refine ⟨0, by simp [rate_table_len, hx], ⟨x, by simp, hx⟩, ?_⟩
      intro j hj
      exact absurd hj (Nat.not_lt_zero j)
    · have hxs : ∃ e ∈ xs, e.rate = 0 := by
        obtain ⟨e, he, hr⟩ := h
        rcases List.mem_cons.mp he with rfl | he'
        · exact absurd hr hx
        · exact ⟨e, he', hr⟩
      obtain ⟨n, hn, ⟨e0, hget, h0⟩, hmin⟩ := rate_table_len_spec xs hxs
      refine ⟨n + 1, by simp [rate_table_len, hx, hn], ⟨e0, by simpa using hget, h0⟩, ?_⟩
      intro j hj e he
      cases j with
      | zero =>
        simp at he
        subst he
        exact hx
      | succ j => exact hmin j (Nat.lt_of_succ_lt_succ hj) e (by simpa using he)

theorem register_pll_table (t : samsung_pll_type) (tbl : List samsung_pll_rate_table)
    (n : Nat) (hn : rate_table_len tbl = some n) :
    ∃ pll, samsung_clk_register_pll t (some tbl) = some pll ∧ pll.rate_count = n ∧
      pll.rate_table = tbl.take n ∧ pll.type = t := by
  unfold samsung_clk_register_pll
  simp only [hn, Option.map_some']
  cases t <;> exact ⟨_, rfl, rfl, rfl, rfl⟩

theorem pll_set_rate_none (pll : samsung_clk_pll) (hw : Hw) (r : Regs) (drate : Nat)
    (hnone : samsung_get_pll_settings pll drate = none) :
    pll_set_rate pll hw r drate =
      some { ret := ulong_of_int (-(EINVAL : Int)), regs := r, trace := [] } := by
  unfold pll_set_rate
  cases ht : pll.type <;>
    simp [driver_ops, clk_pll3xxx_ops, clk_pll1460x_ops, samsung_pll35xx_set_rate,
      clk_pll46xx_set_rate, hnone]

/-- C26: the rate table is cut at its zero-rate sentinel.  For every PLL type
and every table with an entry of rate 0, the counting loop of
`samsung_clk_register_pll` ends with `rate_count` the index of the first entry
of rate 0; the lookup then returns only entries before that index, and
`set_rate(0)` fails with `-EINVAL` without touching a register. -/
theorem register_pll_cuts_at_sentinel (t : samsung_pll_type)
    (tbl : List samsung_pll_rate_table) (hw : Hw) (r : Regs)
    (hz : ∃ e ∈ tbl, e.rate = 0) :
    ∃ n pll, rate_table_len tbl = some n ∧
      samsung_clk_register_pll t (some tbl) = some pll ∧ pll.rate_count = n ∧
      (∃ e, tbl[n]? = some e ∧ e.rate = 0) ∧
      (∀ j, j < n → ∀ e, tbl[j]? = some e → e.rate ≠ 0) ∧
      (∀ rate e, samsung_get_pll_settings pll rate = some e →
        ∃ i, i < n ∧ tbl[i]? = some e) ∧
      pll_set_rate pll hw r 0 =
        some { ret := ulong_of_int (-(EINVAL : Int)), regs := r, trace := [] } := by
  obtain ⟨n, hn, hsent, hmin⟩ := rate_table_len_spec tbl hz
  obtain ⟨pll, hreg, hcount, htable, _⟩ := register_pll_table t tbl n hn
  have hlook : ∀ rate e, samsung_get_pll_settings pll rate = some e →
      ∃ i, i < n ∧ tbl[i]? = some e := by
    intro rate e he
    obtain ⟨_, i, hi, hget, _⟩ :=
      get_pll_settings_loop_index rate pll.rate_count pll.rate_table e he
    rw [hcount] at hi
    rw [htable, List.getElem?_take_of_lt hi] at hget
    exact ⟨i, hi, hget⟩
  refine ⟨n, pll, hn, hreg, hcount, hsent, hmin, hlook, ?_⟩
  apply pll_set_rate_none
  cases hres : samsung_get_pll_settings pll 0 with
  | none => rfl
  | some e =>
    obtain ⟨i, hi, hget⟩ := hlook 0 e hres
    have hr : e.rate = 0 :=
      (get_pll_settings_loop_index 0 pll.rate_count pll.rate_table e hres).1
    exact absurd hr (hmin i hi e hget)

theorem register_pll_cuts_at_sentinel_witness :
    ∃ n pll, rate_table_len pll1460x_24mhz_tbl = some n ∧
      samsung_clk_register_pll .pll_1460x (some pll1460x_24mhz_tbl) = some pll ∧
      pll.rate_count = n ∧
      (∃ e, pll1460x_24mhz_tbl[n]? = some e ∧ e.rate = 0) ∧
      (∀ j, j < n → ∀ e, pll1460x_24mhz_tbl[j]? = some e → e.rate ≠ 0) ∧
      (∀ rate e, samsung_get_pll_settings pll rate = some e →
        ∃ i, i < n ∧ pll1460x_24mhz_tbl[i]? = some e) ∧
      pll_set_rate pll hw_never ⟨0, 0, 0⟩ 0 =
        some { ret := ulong_of_int (-(EINVAL : Int)), regs := ⟨0, 0, 0⟩, trace := [] } :=
  register_pll_cuts_at_sentinel .pll_1460x pll1460x_24mhz_tbl hw_never ⟨0, 0, 0⟩
    (by decide)

/-- C27: a PLL registered without a rate table cannot be reprogrammed.  Given a
null rate table, `samsung_clk_register_pll` leaves `rate_count` at 0 for every
PLL type, and `set_rate` then fails with `-EINVAL` (`2^64 - 22`) for every
requested rate with no register access at all; `topc_cmu_probe` registers
`fout_bus0_pll`, `fout_cc_pll`, `fout_bus1_pll` and `fout_mfc_pll` so. -/
theorem register_pll_without_table (t : samsung_pll_type) (hw : Hw) (r : Regs)
    (drate : Nat) :
    (∃ pll, samsung_clk_register_pll t none = some pll ∧ pll.rate_count = 0 ∧
      pll_set_rate pll hw r drate =
        some { ret := ulong_of_int (-(EINVAL : Int)), regs := r, trace := [] } ∧
      ulong_of_int (-(EINVAL : Int)) = 2 ^ 64 - 22) ∧
    clk_reg.pll .pll_1451x "fout_bus0_pll" "fin_pll" 0x0004 0x0110 none ∈ topc_clocks ∧
    clk_reg.pll .pll_1452x "fout_cc_pll" "fin_pll" 0x0000 0x0100 none ∈ topc_clocks ∧
    clk_reg.pll .pll_1452x "fout_bus1_pll" "fin_pll" 0x0008 0x0120 none ∈ topc_clocks ∧
    clk_reg.pll .pll_1452x "fout_mfc_pll" "fin_pll" 0x000C 0x0130 none ∈ topc_clocks := by
  have hreg : ∃ pll, samsung_clk_register_pll t none = some pll ∧ pll.rate_count = 0 := by
    cases t <;> exact ⟨_, rfl, rfl⟩
  obtain ⟨pll, hreg, hcount⟩ := hreg
  refine ⟨⟨pll, hreg, hcount, ?_, by decide⟩, List.Mem.head _,
    List.Mem.tail _ (List.Mem.head _), List.Mem.tail _ (List.Mem.tail _ (List.Mem.head _)),
    List.Mem.tail _ (List.Mem.tail _ (List.Mem.tail _ (List.Mem.head _)))⟩
  apply pll_set_rate_none
  unfold samsung_get_pll_settings
  rw [hcount]
  rfl

/-! ## The post-divider -/

theorem shiftLeft_succ_eq (p s : Nat) : p <<< (s + 1) = (p <<< s) * 2 := by
  rw [Nat.shiftLeft_eq, Nat.shiftLeft_eq, Nat.pow_succ, Nat.mul_assoc]

/-- C28: each post-divider step halves the PLL output.  For registers that
differ in the S field by one (`s < 7` in the first, `s + 1` in the second) and
agree in M, P and K, with `p >= 1` and no 64-bit overflow, both
`samsung_pll35xx_recalc_rate` and `clk_pll46xx_recalc_rate` return for `s + 1`
the half, rounded down, of what they return for `s`, so the rate does not
increase with `s`; as formulas, `fin * m / (p << (s+1)) = fin * m / (p << s) / 2`
and likewise for the fractional formula, for all `fin`, `m`, `k`, `p`, `s`. -/
theorem recalc_rate_halves (fin m k p s : Nat) (r r' : Regs)
    (hM : r'.con / 2 ^ 16 % 2 ^ 10 = r.con / 2 ^ 16 % 2 ^ 10)
    (hP : r'.con / 2 ^ 8 % 2 ^ 6 = r.con / 2 ^ 8 % 2 ^ 6)
    (hS : r'.con % 2 ^ 3 = r.con % 2 ^ 3 + 1)
    (hK : r'.con1 % 2 ^ 16 = r.con1 % 2 ^ 16)
    (hp : 1 ≤ r.con / 2 ^ 8 % 2 ^ 6)
    (hov : fin * ((r.con / 2 ^ 16 % 2 ^ 10) * 2 ^ 16 + r.con1 % 2 ^ 16) < 2 ^ 64) :
    (fin * m / (p <<< (s + 1)) = fin * m / (p <<< s) / 2 ∧
      (fin * ((m <<< 16) + k) / (p <<< (s + 1))) >>> 16 =
        ((fin * ((m <<< 16) + k) / (p <<< s)) >>> 16) / 2) ∧
    (∃ v, samsung_pll35xx_recalc_rate fin r = some v ∧
      samsung_pll35xx_recalc_rate fin r' = some (v / 2) ∧ v / 2 ≤ v) ∧
    (∃ w, clk_pll46xx_recalc_rate fin r = some w ∧
      clk_pll46xx_recalc_rate fin r' = some (w / 2) ∧ w / 2 ≤ w) := by
  have hle : fin * (r.con / 2 ^ 16 % 2 ^ 10) ≤
      fin * ((r.con / 2 ^ 16 % 2 ^ 10) * 2 ^ 16 + r.con1 % 2 ^ 16) :=
    Nat.mul_le_mul_left fin (by omega)
  have hov35 : fin * (r.con / 2 ^ 16 % 2 ^ 10) < 2 ^ 64 := lt_of_le_of_lt hle hov
  have hpow : 2 ^ (r.con % 2 ^ 3 + 1) = 2 ^ (r.con % 2 ^ 3) * 2 := Nat.pow_succ ..
  refine ⟨⟨?_, ?_⟩, ?_, ?_⟩
  · rw [shiftLeft_succ_eq p s, Nat.div_div_eq_div_mul]
  · rw [shiftLeft_succ_eq p s, Nat.shiftRight_eq_div_pow, Nat.shiftRight_eq_div_pow,
      ← Nat.div_div_eq_div_mul, div_div_swap _ 2 (2 ^ 16)]
  · refine ⟨_, pll35xx_recalc_of_fields fin r (by omega) hov35, ?_, Nat.div_le_self _ _⟩
    rw [pll35xx_recalc_of_fields fin r' (by rw [hP]; omega) (by rw [hM]; exact hov35),
      hM, hP, hS, hpow, ← Nat.mul_assoc, Nat.div_div_eq_div_mul]
  · refine ⟨_, pll46xx_recalc_of_fields fin r (by omega) hov, ?_, Nat.div_le_self _ _⟩
    rw [pll46xx_recalc_of_fields fin r' (by rw [hP]; omega) (by rw [hM, hK]; exact hov),
      hM, hP, hS, hK, hpow, ← Nat.mul_assoc, ← Nat.div_div_eq_div_mul _ _ 2,
      div_div_swap _ 2 (2 ^ 16)]

theorem recalc_rate_halves_witness :
    (24000000 * 200 / (3 <<< (1 + 1)) = 24000000 * 200 / (3 <<< 1) / 2 ∧
      (24000000 * ((200 <<< 16) + 0) / (3 <<< (1 + 1))) >>> 16 =
        ((24000000 * ((200 <<< 16) + 0) / (3 <<< 1)) >>> 16) / 2) ∧
    (∃ v, samsung_pll35xx_recalc_rate 24000000 ⟨0, 0xA0C80301, 0⟩ = some v ∧
      samsung_pll35xx_recalc_rate 24000000 ⟨0, 0xA0C80302, 0⟩ = some (v / 2) ∧ v / 2 ≤ v) ∧
    (∃ w, clk_pll46xx_recalc_rate 24000000 ⟨0, 0xA0C80301, 0⟩ = some w ∧
      clk_pll46xx_recalc_rate 24000000 ⟨0, 0xA0C80302, 0⟩ = some (w / 2) ∧ w / 2 ≤ w) :=
  recalc_rate_halves 24000000 200 0 3 1 ⟨0, 0xA0C80301, 0⟩ ⟨0, 0xA0C80302, 0⟩
    (by decide) (by decide) (by decide) (by decide) (by decide) (by decide)

/-! ## The clock topology of the CMU builders -/

theorem lookup_le (B n k : Nat) :
    ∀ (l : List (Nat × Nat)), (∀ e ∈ l, e.2 ≤ B) → l.lookup n = some k → k ≤ B
  | [], _, hk => by simp at hk
  | (a, b) :: l, h, hk => by
    simp only [List.lookup] at hk
    split at hk
    · have hb : b = k := by simpa using hk
      rw [← hb]
      exact h (a, b) (List.mem_cons_self _ _)
    · exact lookup_le B n k l (fun e he => h e (List.mem_cons_of_mem _ he)) hk

theorem clock_depths_le : ∀ e ∈ clock_depths_keyed, e.2 ≤ 15 := by decide!

theorem clock_depth_le (n : String) : clock_depth n ≤ 15 := by
  unfold clock_depth
  cases h : clock_depths_keyed.lookup (name_key n) with
  | none => exact Nat.zero_le _
  | some k => exact lookup_le 15 (name_key n) k clock_depths_keyed clock_depths_le h

theorem mem_all_clocks (c : clk_reg) (h : c ∈ all_clocks) :
    c ∈ topc_clocks ∨ c ∈ top0_clocks ∨ c ∈ top1_clocks ∨ c ∈ ccore_clocks ∨
      c ∈ peric0_clocks ∨ c ∈ peric1_clocks ∨ c ∈ peris_clocks ∨ c ∈ fsys0_clocks ∨
      c ∈ fsys1_clocks ∨ c ∈ mscl_clocks ∨ c ∈ aud_clocks := by
  simpa only [all_clocks, List.mem_append, or_assoc] using h

theorem depth_decreases_topc :
    ∀ c ∈ topc_clocks, ∀ p ∈ c.parents, clock_depth p < clock_depth c.name := by decide!

theorem depth_decreases_top0 :
    ∀ c ∈ top0_clocks, ∀ p ∈ c.parents, clock_depth p < clock_depth c.name := by decide!

theorem depth_decreases_top1 :
    ∀ c ∈ top1_clocks, ∀ p ∈ c.parents, clock_depth p < clock_depth c.name := by decide!

theorem depth_decreases_ccore :
    ∀ c ∈ ccore_clocks, ∀ p ∈ c.parents, clock_depth p < clock_depth c.name := by decide!

theorem depth_decreases_peric0 :
    ∀ c ∈ peric0_clocks, ∀ p ∈ c.parents, clock_depth p < clock_depth c.name := by decide!

theorem depth_decreases_peric1 :
    ∀ c ∈ peric1_clocks, ∀ p ∈ c.parents, clock_depth p < clock_depth c.name := by decide!

theorem depth_decreases_peris :
    ∀ c ∈ peris_clocks, ∀ p ∈ c.parents, clock_depth p < clock_depth c.name := by decide!

theorem depth_decreases_fsys0 :
    ∀ c ∈ fsys0_clocks, ∀ p ∈ c.parents, clock_depth p < clock_depth c.name := by decide!

theorem depth_decreases_fsys1 :
    ∀ c ∈ fsys1_clocks, ∀ p ∈ c.parents, clock_depth p < clock_depth c.name := by decide!

theorem depth_decreases_mscl :
    ∀ c ∈ mscl_clocks, ∀ p ∈ c.parents, clock_depth p < clock_depth c.name := by decide!

theorem depth_decreases_aud :
    ∀ c ∈ aud_clocks, ∀ p ∈ c.parents, clock_depth p < clock_depth c.name := by decide!

theorem depth_decreases :
    ∀ c ∈ all_clocks, ∀ p ∈ c.parents, clock_depth p < clock_depth c.name := by
  intro c hc
  rcases mem_all_clocks c hc with h | h | h | h | h | h | h | h | h | h | h
  exacts [depth_decreases_topc c h, depth_decreases_top0 c h, depth_decreases_top1 c h,
    depth_decreases_ccore c h, depth_decreases_peric0 c h, depth_decreases_peric1 c h,
    depth_decreases_peris c h, depth_decreases_fsys0 c h, depth_decreases_fsys1 c h,
    depth_decreases_mscl c h, depth_decreases_aud c h]

theorem parent_edge_depth (a b : String) (h : parent_edge a b) :
    clock_depth b < clock_depth a := by
  obtain ⟨c, hc, rfl, hb⟩ := h
  exact depth_decreases c hc b hb

theorem transGen_depth (a b : String) (h : Relation.TransGen parent_edge a b) :
    clock_depth b < clock_depth a := by
  induction h with
  | single h => exact parent_edge_depth _ _ h
  | tail _ h ih => exact lt_trans (parent_edge_depth _ _ h) ih

theorem chain_length_le :
    ∀ (l : List String) (a : String), List.Chain parent_edge a l →
      l.length ≤ clock_depth a
  | [], _, _ => Nat.zero_le _
  | b :: l, a, h => by
    rw [List.chain_cons] at h
    have h1 := parent_edge_depth a b h.1
    have h2 := chain_length_le l b h.2
    simp only [List.length_cons]
    omega

theorem parents_ne_nil : ∀ c ∈ all_clocks, c.parents ≠ [] := by decide!

theorem name_key_count_topc : ∀ c ∈ topc_clocks,
    ((all_clocks.map clk_reg.name).map name_key).count (name_key c.name) = 1 := by decide!

theorem name_key_count_top0 : ∀ c ∈ top0_clocks,
    ((all_clocks.map clk_reg.name).map name_key).count (name_key c.name) = 1 := by decide!

theorem name_key_count_top1 : ∀ c ∈ top1_clocks,
    ((all_clocks.map clk_reg.name).map name_key).count (name_key c.name) = 1 := by decide!

theorem name_key_count_ccore : ∀ c ∈ ccore_clocks,
    ((all_clocks.map clk_reg.name).map name_key).count (name_key c.name) = 1 := by decide!

theorem name_key_count_peric0 : ∀ c ∈ peric0_clocks,
    ((all_clocks.map clk_reg.name).map name_key).count (name_key c.name) = 1 := by decide!

theorem name_key_count_peric1 : ∀ c ∈ peric1_clocks,
    ((all_clocks.map clk_reg.name).map name_key).count (name_key c.name) = 1 := by decide!

theorem name_key_count_peris : ∀ c ∈ peris_clocks,
    ((all_clocks.map clk_reg.name).map name_key).count (name_key c.name) = 1 := by decide!

theorem name_key_count_fsys0 : ∀ c ∈ fsys0_clocks,
    ((all_clocks.map clk_reg.name).map name_key).count (name_key c.name) = 1 := by decide!

theorem name_key_count_fsys1 : ∀ c ∈ fsys1_clocks,
    ((all_clocks.map clk_reg.name).map name_key).count (name_key c.name) = 1 := by decide!

theorem name_key_count_mscl : ∀ c ∈ mscl_clocks,
    ((all_clocks.map clk_reg.name).map name_key).count (name_key c.name) = 1 := by decide!

theorem name_key_count_aud : ∀ c ∈ aud_clocks,
    ((all_clocks.map clk_reg.name).map name_key).count (name_key c.name) = 1 := by decide!

theorem name_key_count : ∀ c ∈ all_clocks,
    ((all_clocks.map clk_reg.name).map name_key).count (name_key c.name) = 1 := by
  intro c hc
  rcases mem_all_clocks c hc with h | h | h | h | h | h | h | h | h | h | h
  exacts [name_key_count_topc c h, name_key_count_top0 c h, name_key_count_top1 c h,
    name_key_count_ccore c h, name_key_count_peric0 c h, name_key_count_peric1 c h,
    name_key_count_peris c h, name_key_count_fsys0 c h, name_key_count_fsys1 c h,
    name_key_count_mscl c h, name_key_count_aud c h]

theorem name_keys_nodup : ((all_clocks.map clk_reg.name).map name_key).Nodup := by
  rw [List.nodup_iff_count_le_one]
  intro a
  by_cases ha : a ∈ (all_clocks.map clk_reg.name).map name_key
  · obtain ⟨n, hn, rfl⟩ := List.mem_map.mp ha
    obtain ⟨c, hc, rfl⟩ := List.mem_map.mp hn
    exact le_of_eq (name_key_count c hc)
  · rw [List.count_eq_zero_of_not_mem ha]
    exact Nat.zero_le _

theorem names_nodup : (all_clocks.map clk_reg.name).Nodup :=
  List.Nodup.of_map name_key name_keys_nodup

theorem mux_all_ok : ∀ c ∈ all_clocks, c.mux_ok = true := by decide!

theorem fields_ok : ∀ b ∈ cmu_builders, (∀ c ∈ b, c.field_fits = true) ∧
    b.Pairwise (fun x y => clk_reg.disjoint x y = true) := by decide!

/-- C21 (as stated, refuted): given a null base, `topc_cmu_probe` calls `panic`
whether or not `panic` returns, and where `panic` does not return neither it
nor `aud_cmu_probe` returns anything to its caller. -/
theorem cmu_probe_null_base_calls_panic :
    (topc_cmu_probe true 0).panic_called = some "topc_cmu_probe" ∧
    (topc_cmu_probe false 0).panic_called = some "topc_cmu_probe" ∧
    (topc_cmu_probe false 0).ret = none ∧
    (aud_cmu_probe false 0).panic_called = some "aud_cmu_probe" ∧
    (aud_cmu_probe false 0).ret = none :=
  ⟨rfl, rfl, rfl, rfl, rfl⟩

/-- C21 (amended): for every one of the eleven CMU builders, when the base
register address is null the builder registers no clock and calls `panic` with
its own function name; it returns `-EINVAL` to its caller only if `panic`
returns. -/
theorem cmu_probe_null_base (panic_returns : Bool) (name : String)
    (f : Bool → Nat → probe_outcome) (hf : (name, f) ∈ cmu_probe_functions) :
    (f panic_returns 0).clocks = [] ∧
    (f panic_returns 0).panic_called = some name ∧
    (f panic_returns 0).ret = (if panic_returns then some (-22) else none) ∧
    cmu_probe_functions.length = 11 := by
  simp only [cmu_probe_functions, List.mem_cons, Prod.mk.injEq, List.mem_singleton,
    List.not_mem_nil, or_false] at hf
  rcases hf with h | h | h | h | h | h | h | h | h | h | h <;>
    obtain ⟨rfl, rfl⟩ := h <;> cases panic_returns <;> exact ⟨rfl, rfl, rfl, rfl⟩

theorem cmu_probe_null_base_witness :
    (fsys0_cmu_probe false 0).clocks = [] ∧
    (fsys0_cmu_probe false 0).panic_called = some "fsys0_cmu_probe" ∧
    (fsys0_cmu_probe false 0).ret = (if false then some (-22) else none) ∧
    cmu_probe_functions.length = 11 :=
  cmu_probe_null_base false "fsys0_cmu_probe" fsys0_cmu_probe
    (by simp [cmu_probe_functions])

/-- C22: the declared topology is acyclic.  With an edge from every clock
registered by the eleven CMU builders to each of its declared parents, no name
reaches itself along one or more edges; every chain of parent references has at
most 15 edges; the relation is well-founded; and every registered clock declares
at least one parent, so a chain can end only at a name that no builder
registers. -/
theorem cmu_topology_acyclic :
    (∀ a, ¬ Relation.TransGen parent_edge a a) ∧
    (∀ a l, List.Chain parent_edge a l → l.length ≤ 15) ∧
    WellFounded (fun b a => parent_edge a b) ∧
    (∀ a, (¬ ∃ b, parent_edge a b) → a ∉ all_clocks.map clk_reg.name) := by
  refine ⟨?_, ?_, ?_, ?_⟩
  · intro a h
    exact lt_irrefl _ (transGen_depth a a h)
  · intro a l h
    exact le_trans (chain_length_le l a h) (clock_depth_le a)
  · exact Subrelation.wf (fun {b a} h => parent_edge_depth a b h)
      (InvImage.wf clock_depth Nat.lt_wfRel.wf)
  · intro a hno hmem
    obtain ⟨c, hc, rfl⟩ := List.mem_map.mp hmem
    cases hp : c.parents with
    | nil => exact parents_ne_nil c hc hp
    | cons b _ => exact hno ⟨b, c, hc, rfl, by rw [hp]; exact List.mem_cons_self _ _⟩

/-- C23: clock names are unique.  Across the 292 clocks registered by the eleven
CMU builders taken together, no two registrations use the same name. -/
theorem cmu_clock_names_unique :
    (all_clocks.map clk_reg.name).Nodup ∧ all_clocks.length = 292 :=
  ⟨names_nodup, by decide!⟩

/-- C29: the selector field of every mux can address all of its candidate
parents.  Every `MUX` or `MUX_F` registration of the eleven CMU builders has at
least 1 and at most `2^width` entries in its parent-name list. -/
theorem cmu_mux_parents_addressable (name : String) (parents : List String)
    (reg shift width : Nat) (h : clk_reg.mux name parents reg shift width ∈ all_clocks) :
    1 ≤ parents.length ∧ parents.length ≤ 2 ^ width := by
  simpa [clk_reg.mux_ok] using mux_all_ok _ h

theorem cmu_mux_parents_addressable_witness :
    1 ≤ mout_aud_group_p.length ∧ mout_aud_group_p.length ≤ 2 ^ 1 :=
  cmu_mux_parents_addressable "mout_sclk_pcm" mout_aud_group_p MUX_SEL_AUD 16 1
    (List.mem_append_right _ (List.Mem.tail _ (List.Mem.head _)))

/-- C30: register bit-fields never overlap.  Within each CMU builder every mux
and divider field has `shift + width <= 32`, every gate bit index is below 32,
and any two distinct registrations of the same kind (mux, divider or gate) at
the same register offset have disjoint bit ranges. -/
theorem cmu_fields_disjoint (b : List clk_reg) (hb : b ∈ cmu_builders) :
    (∀ n ps o s w, clk_reg.mux n ps o s w ∈ b → s + w ≤ 32) ∧
    (∀ n p o s w, clk_reg.div n p o s w ∈ b → s + w ≤ 32) ∧
    (∀ n p o bit, clk_reg.gate n p o bit ∈ b → bit < 32) ∧
    b.Pairwise (fun x y => ∀ k o lo hi lo' hi',
      x.field = some (k, o, lo, hi) → y.field = some (k, o, lo', hi') →
        hi ≤ lo' ∨ hi' ≤ lo) := by
  obtain ⟨hfit, hdis⟩ := fields_ok b hb
  refine ⟨?_, ?_, ?_, ?_⟩
  · intro n ps o s w h
    simpa [clk_reg.field_fits, clk_reg.field] using hfit _ h
  · intro n p o s w h
    simpa [clk_reg.field_fits, clk_reg.field] using hfit _ h
  · intro n p o bit h
    have := hfit _ h
    simp [clk_reg.field_fits, clk_reg.field] at this
    omega
  · refine hdis.imp ?_
    intro x y hxy k o lo hi lo' hi' hx hy
    simpa [clk_reg.disjoint, hx, hy] using hxy

theorem cmu_fields_disjoint_witness :
    (∀ n ps o s w, clk_reg.mux n ps o s w ∈ ccore_clocks → s + w ≤ 32) ∧
    (∀ n p o s w, clk_reg.div n p o s w ∈ ccore_clocks → s + w ≤ 32) ∧
    (∀ n p o bit, clk_reg.gate n p o bit ∈ ccore_clocks → bit < 32) ∧
    ccore_clocks.Pairwise (fun x y => ∀ k o lo hi lo' hi',
      x.field = some (k, o, lo, hi) → y.field = some (k, o, lo', hi') →
        hi ≤ lo' ∨ hi' ≤ lo) :=
  cmu_fields_disjoint ccore_clocks (by simp [cmu_builders])

end Exynos
